import Mathlib

/-!
# Flare engine: per-tick orchestration and fixed-timestep loop

A shallow embedding of `src/GameStatePlay.cpp` and `src/main.cpp`.

Conventions.
* C++ `int` values are modelled by `Int`; signed overflow is undefined behaviour in C++, so the
  embedding describes the executions in which no addition overflows (`simulate_stays_below`
  bounds the values `simulate` computes).
* Collaborators whose source is not among the files embedded here (menus, loot manager,
  campaign manager, game switcher, ...) are parameters of the definitions that call them.
* Definitions keep the names of the source functions they embed.
-/

namespace Flare

/-! ## Title resolution (`GameStatePlay::loadTitles`, `GameStatePlay::checkTitle`) -/

/-- One entry of `GameStatePlay::titles`; the defaults are the values an entry has before
`loadTitles` fills a key in. -/
structure Title where
  title : String := ""
  level : Int := 0
  power : Int := 0
  requires_status : String := ""
  requires_not : String := ""
  primary_stat : String := ""
  deriving Repr, DecidableEq

/-- The part of `pc->stats` that `checkTitle` reads and writes.  The ten stat fields hold what
the accessors `get_physical()`, ..., `mentdef()` of the stat block return (their bodies are not
part of the repository slice, so their results are inputs). -/
structure StatBlock where
  level : Int
  powers_list : List Int
  physical : Int
  mental : Int
  offense : Int
  defense : Int
  physoff : Int
  physment : Int
  physdef : Int
  mentoff : Int
  offdef : Int
  mentdef : Int
  character_class : String
  check_title : Bool
  refresh_stats : Bool
  deriving Repr, DecidableEq

/-- The `primary_stat` branch of the loop body of `checkTitle` (source lines 452-493): `true`
exactly when the branch executes `continue`, that is when the rule is skipped because of its
primary stat.  The comparisons are copied from the source one by one. -/
def primaryStatSkips (s : StatBlock) (primary_stat : String) : Bool :=
  if primary_stat ≠ "" then
    if primary_stat = "physical" then
      decide (s.physical ≤ s.mental) || decide (s.physical ≤ s.offense)
        || decide (s.physical ≤ s.defense)
    else if primary_stat = "offense" then
      decide (s.offense ≤ s.mental) || decide (s.offense ≤ s.physical)
        || decide (s.offense ≤ s.defense)
    else if primary_stat = "mental" then
      decide (s.mental ≤ s.physical) || decide (s.mental ≤ s.offense)
        || decide (s.mental ≤ s.defense)
    else if primary_stat = "defense" then
      decide (s.defense ≤ s.mental) || decide (s.defense ≤ s.offense)
        || decide (s.defense ≤ s.physical)
    else if primary_stat = "physoff" then
      decide (s.physoff ≤ s.physdef) || decide (s.physoff ≤ s.mentoff)
        || decide (s.physoff ≤ s.mentdef) || decide (s.physoff ≤ s.physment)
        || decide (s.physoff ≤ s.offdef)
    else if primary_stat = "physment" then
      decide (s.physment ≤ s.physdef) || decide (s.physment ≤ s.mentoff)
        || decide (s.physment ≤ s.mentdef) || decide (s.physment ≤ s.physoff)
        || decide (s.physment ≤ s.offdef)
    else if primary_stat = "physdef" then
      decide (s.physdef ≤ s.physoff) || decide (s.physdef ≤ s.mentoff)
        || decide (s.physdef ≤ s.mentdef) || decide (s.physdef ≤ s.physment)
        || decide (s.physdef ≤ s.offdef)
    else if primary_stat = "mentoff" then
      decide (s.mentoff ≤ s.physdef) || decide (s.mentoff ≤ s.physoff)
        || decide (s.mentoff ≤ s.mentdef) || decide (s.mentoff ≤ s.physment)
        || decide (s.mentoff ≤ s.offdef)
    else if primary_stat = "offdef" then
      decide (s.offdef ≤ s.physdef) || decide (s.offdef ≤ s.mentoff)
        || decide (s.offdef ≤ s.mentdef) || decide (s.offdef ≤ s.physment)
        || decide (s.offdef ≤ s.physoff)
    else if primary_stat = "mentdef" then
      decide (s.mentdef ≤ s.physdef) || decide (s.mentdef ≤ s.mentoff)
        || decide (s.mentdef ≤ s.physoff) || decide (s.mentdef ≤ s.physment)
        || decide (s.mentdef ≤ s.offdef)
    else false
  else false

/-- The body of the `for` loop of `checkTitle` for one rule: `true` when one of the `continue`
statements is reached (source lines 446-493), `false` when control reaches
`title_id = i; break;`.  `checkStatus` stands for `camp->checkStatus`. -/
def titleSkipped (checkStatus : String → Bool) (s : StatBlock) (t : Title) : Bool :=
  if t.title = "" then true
  else if t.level > 0 ∧ s.level < t.level then true
  else if t.power > 0 ∧ ¬ (t.power ∈ s.powers_list) then true
  else if t.requires_status ≠ "" ∧ checkStatus t.requires_status = false then true
  else if t.requires_not ≠ "" ∧ checkStatus t.requires_not = true then true
  else primaryStatSkips s t.primary_stat

/-- The `for (unsigned i=0; i<titles.size(); i++)` loop of `checkTitle`, run on the rules from
index `i` on (`rest` is `titles[i..]`); the result is the final value of `title_id`. -/
def titleLoop (checkStatus : String → Bool) (s : StatBlock) : List Title → Nat → Int
  | [], _ => -1
  | t :: rest, i =>
    if titleSkipped checkStatus s t then titleLoop checkStatus s rest (i + 1)
    else (i : Int)

/-- The function `GameStatePlay::checkTitle()` on the stat block of the avatar. -/
def checkTitle (checkStatus : String → Bool) (titles : List Title) (s : StatBlock) : StatBlock :=
  if s.check_title = false ∨ titles.isEmpty = true then s
  else
    let title_id := titleLoop checkStatus s titles 0
    let s1 :=
      if title_id ≠ -1 then
        { s with character_class := (titles.getD title_id.toNat {}).title }
      else s
    { s1 with check_title := false, refresh_stats := true }

/-! ### The rule predicates in the words of the specification -/

/-- The ten stat groups a rule can name as its primary stat. -/
inductive StatGroup where
  | physical | mental | offense | defense
  | physoff | physment | physdef | mentoff | offdef | mentdef
  deriving Repr, DecidableEq, Fintype

namespace StatGroup

/-- The configuration name of a stat group. -/
def name : StatGroup → String
  | physical => "physical" | mental => "mental" | offense => "offense" | defense => "defense"
  | physoff => "physoff" | physment => "physment" | physdef => "physdef"
  | mentoff => "mentoff" | offdef => "offdef" | mentdef => "mentdef"

/-- The value of a stat group on a stat block. -/
def value (s : StatBlock) : StatGroup → Int
  | physical => s.physical | mental => s.mental | offense => s.offense | defense => s.defense
  | physoff => s.physoff | physment => s.physment | physdef => s.physdef
  | mentoff => s.mentoff | offdef => s.offdef | mentdef => s.mentdef

/-- The four single stats. -/
def singles : List StatGroup := [physical, mental, offense, defense]

/-- The six stat pairs. -/
def pairs : List StatGroup := [physoff, physment, physdef, mentoff, offdef, mentdef]

/-- The siblings of a group: the other three single stats for a single stat, the other five
pairs for a pair. -/
def siblings (g : StatGroup) : List StatGroup :=
  if g ∈ singles then singles.filter (fun h => h ≠ g) else pairs.filter (fun h => h ≠ g)

/-- The group named by a configuration string, if it is one of the ten recognised names. -/
def ofName (n : String) : Option StatGroup :=
  (singles ++ pairs).find? (fun g => g.name = n)

end StatGroup

/-- The dominance predicate of the specification: the group is strictly greater than every
sibling. -/
def dominant (s : StatBlock) (g : StatGroup) : Prop :=
  ∀ h ∈ g.siblings, h.value s < g.value s

instance (s : StatBlock) (g : StatGroup) : Decidable (dominant s g) := by
  unfold dominant; infer_instance

/-- A rule is satisfied, in the words of the specification: it has a title, and each predicate
it specifies holds (minimum level, required power owned, required status present, forbidden
status absent, named stat group dominant). -/
def satisfies (checkStatus : String → Bool) (s : StatBlock) (t : Title) : Prop :=
  t.title ≠ "" ∧
  (t.level > 0 → t.level ≤ s.level) ∧
  (t.power > 0 → t.power ∈ s.powers_list) ∧
  (t.requires_status ≠ "" → checkStatus t.requires_status = true) ∧
  (t.requires_not ≠ "" → checkStatus t.requires_not = false) ∧
  (∀ g, StatGroup.ofName t.primary_stat = some g → dominant s g)

instance (checkStatus : String → Bool) (s : StatBlock) (t : Title) :
    Decidable (satisfies checkStatus s t) := by
  unfold satisfies; infer_instance

/-! ## Fixed-timestep loop (`simulate` and `mainLoop` in `main.cpp`) -/

/-- What `simulate` calls on the outside world, as operations on a state `σ` of that world.
None of the three is defined in the repository slice. -/
structure Host (σ : Type) where
  /-- Models `SDL_GetTicks()`. -/
  getTicks : σ → Int
  /-- Models `gswitch->isLoadingFrame()`: the answer, and the world after the call. -/
  isLoadingFrame : σ → Bool × σ
  /-- Models one logic tick, `SDL_PumpEvents(); inpt->handle(debug_event); gswitch->logic();
  inpt->resetScroll();`. -/
  tick : Bool → σ → σ

/-- What a call of `simulate` yields: the returned `logic_ticks`, the final value of the local
counter `loops` (the number of logic ticks the call ran) and the world it leaves. -/
structure SimResult (σ : Type) where
  logic_ticks : Int
  loops : Nat
  world : σ

/-- The `while` loop of `simulate`.  The first argument is `MAX_FRAMES_PER_SEC - loops`, the
number of iterations the bound `loops < MAX_FRAMES_PER_SEC` still allows, so that the loop is
structurally recursive; the other condition, `now_ticks > logic_ticks`, is tested as in the
source. -/
def simulateLoop {σ : Type} (h : Host σ) (debug_event : Bool) (delay now_ticks : Int) :
    Nat → Int → Nat → σ → SimResult σ
  | 0, logic_ticks, loops, w => ⟨logic_ticks, loops, w⟩
  | remaining + 1, logic_ticks, loops, w =>
    if now_ticks > logic_ticks then
      let r := h.isLoadingFrame w
      if r.1 = true then
        -- logic_ticks = now_ticks; break;
        ⟨now_ticks, loops, r.2⟩
      else
        simulateLoop h debug_event delay now_ticks remaining (logic_ticks + delay) (loops + 1)
          (h.tick debug_event r.2)
    else ⟨logic_ticks, loops, w⟩

/-- The function `simulate(logic_ticks, debug_event, delay)` of `main.cpp`.
`MAX_FRAMES_PER_SEC` is a setting declared outside the repository slice (a frame rate, so a
natural number) and is a parameter here. -/
def simulate {σ : Type} (h : Host σ) (MAX_FRAMES_PER_SEC : Nat) (logic_ticks : Int)
    (debug_event : Bool) (delay : Int) (w : σ) : SimResult σ :=
  simulateLoop h debug_event delay (h.getTicks w) MAX_FRAMES_PER_SEC logic_ticks 0 w

/-- One pass through the loop body of `simulate` that does not break: the loading check
followed by the logic tick. -/
def Host.pass {σ : Type} (h : Host σ) (debug_event : Bool) (w : σ) : σ :=
  h.tick debug_event (h.isLoadingFrame w).2

/-- The number of ticks in the words of the specification: `ceil((now - logic) / delay)`, and
zero when that is negative. -/
def elapsedTicks (now_ticks logic_ticks delay : Int) : Nat :=
  (Int.ceil (((now_ticks - logic_ticks : Int) : ℚ) / (delay : ℚ))).toNat

/-! ### A scripted world for running the main loop -/

/-- What one logic tick of a scripted run does: how many milliseconds it takes and whether it
loads data (a game-state switch or a map load). -/
structure TickPlan where
  cost : Int
  loads : Bool
  deriving Repr, DecidableEq

/-- A scripted world: the value of the millisecond clock, the loading-frame mark of the game
switcher, and the plans of the logic ticks still to come. -/
structure World where
  ticks : Int
  loading : Bool
  plan : List TickPlan
  deriving Repr, DecidableEq

/-- Modelled from the spec: `GameSwitcher::isLoadingFrame` and `GameSwitcher::logic` are not in
the repository slice.  A tick that loads data marks the following frame as a loading frame, and
the mark is consumed by the check that reports it; a tick takes the time its plan says (no time
once the script is exhausted). -/
def scriptedHost : Host World where
  getTicks := fun w => w.ticks
  isLoadingFrame := fun w => (w.loading, { w with loading := false })
  tick := fun _ w =>
    match w.plan with
    | [] => w
    | p :: rest =>
      { ticks := w.ticks + p.cost, loading := w.loading || p.loads, plan := rest }

/-- The function `delay_loop(prev_ticks, delay)`: `SDL_Delay` lets the clock advance by the
requested number of milliseconds. -/
def delay_loop (prev_ticks delay : Int) (w : World) : World :=
  let now_ticks := w.ticks
  if now_ticks - prev_ticks < delay then
    { w with ticks := w.ticks + (delay - (now_ticks - prev_ticks)) }
  else w

/-- The body of the `while` loop of `mainLoop`, on the pair of `logic_ticks` and the world; it
also reports how many logic ticks the pass ran.  `render` only reads the clock (drawing is taken
to cost no time), so it leaves the scripted world as it is. -/
def mainLoopBody (MAX_FRAMES_PER_SEC : Nat) (debug_event : Bool) (delay : Int)
    (st : Int × World) : (Int × World) × Nat :=
  let now_ticks := scriptedHost.getTicks st.2
  let prev_ticks := now_ticks
  let r := simulate scriptedHost MAX_FRAMES_PER_SEC st.1 debug_event delay st.2
  ((r.logic_ticks, delay_loop prev_ticks delay r.world), r.loops)

/-- The first `n` passes of the `while` loop of `mainLoop`, as long as `done()` stays false:
the number of logic ticks each pass ran, in order. -/
def mainLoopTicks (MAX_FRAMES_PER_SEC : Nat) (debug_event : Bool) (delay : Int) :
    Nat → Int × World → List Nat
  | 0, _ => []
  | n + 1, st =>
    let r := mainLoopBody MAX_FRAMES_PER_SEC debug_event delay st
    r.2 :: mainLoopTicks MAX_FRAMES_PER_SEC debug_event delay n r.1

/-- A run that starts `lag` milliseconds behind and whose first logic tick performs a load
that takes `loadCost` milliseconds: the ticks run in each of the first three passes of the main
loop, at 60 frames per second (delay 17). -/
def ticksAroundLoad (lag loadCost : Int) : List Nat :=
  mainLoopTicks 60 false 17 3 (0, { ticks := lag, loading := false, plan := [⟨loadCost, true⟩] })

/-! ## The per-tick orchestrator (`GameStatePlay::logic` and the checks it calls) -/

/-- An item stack: item id and quantity. -/
structure ItemStack where
  item : Int
  quantity : Int
  deriving Repr, DecidableEq

/-- A map position.  The code modelled here only copies positions, it never computes with
their coordinates. -/
structure FPoint where
  x : Int
  y : Int
  deriving Repr, DecidableEq

/-- One call `loot->addLoot(stack, pos, dropped_by_hero)`. -/
structure LootDrop where
  stack : ItemStack
  pos : FPoint
  dropped_by_hero : Bool
  deriving Repr, DecidableEq

/-- The part of the play state that `logic()` and the modelled checks read and write.  Fields
are named after the members they stand for; `stats` is the part of `pc->stats` that title
resolution uses, the other members of `pc->stats` are fields of their own. -/
structure Play where
  /-- Member `menu->pause`. -/
  pause : Bool
  /-- Member `menu->menus_open`. -/
  menus_open : Bool
  /-- What `menu->isDragging()` returns. -/
  dragging : Bool
  /-- Member `menu->drop_stack`, front of the queue first. -/
  menu_drop_stack : List ItemStack
  /-- The messages passed to `menu->log->add(_, LOG_TYPE_MESSAGES)`, oldest first. -/
  log : List String
  /-- The content of `menu->hudlog`: the messages added since it was last cleared. -/
  hudlog : List String
  /-- Member `menu->inv->drop_stack`. -/
  inv_drop_stack : List ItemStack
  /-- Member `menu->inv->log_msg`. -/
  inv_log_msg : String
  /-- Member `menu->inv->changed_equipment`. -/
  changed_equipment : Bool
  stats : StatBlock
  /-- Member `pc->stats.alive`. -/
  alive : Bool
  /-- Member `pc->stats.corpse`. -/
  corpse : Bool
  /-- Whether `pc->stats.cur_state` is `AVATAR_STANCE`. -/
  in_stance : Bool
  /-- Member `pc->stats.attacking`. -/
  attacking : Bool
  /-- Member `pc->stats.pos`. -/
  pos : FPoint
  /-- What `pc->stats.get(STAT_STEALTH)` returns. -/
  stealth : Int
  /-- Member `pc->log_msg`. -/
  pc_log_msg : String
  close_menus : Bool
  setPowers : Bool
  revertPowers : Bool
  respawn : Bool
  /-- Member `camp->drop_stack`. -/
  camp_drop_stack : List ItemStack
  /-- Member `camp->log_msg`. -/
  camp_log_msg : String
  /-- Member `mapr->log_msg`. -/
  map_log_msg : String
  /-- Member `mapr->enemies_cleared`. -/
  enemies_cleared : Bool
  /-- Member `powers->log_msg`. -/
  powers_log_msg : String
  /-- Member `loot->full_msg`. -/
  full_msg : Bool
  /-- The calls of `loot->addLoot`, oldest first. -/
  loot_added : List LootDrop
  /-- Member `enemies->hero_stealth`. -/
  hero_stealth : Int
  pressing_MAIN1 : Bool
  pressing_ACCEPT : Bool
  lock_MAIN1 : Bool
  lock_ACCEPT : Bool
  titles : List Title
  deriving Repr, DecidableEq

/-- The calls `logic()` makes, directly or inside its respawn handler. -/
inductive Step where
  | checkCutscene | menuLogic
  | checkLoot | checkEnemyFocus | checkNPCInteraction | checkHotspots | checkNearestEvent
  | checkTitle | checkAction | pcLogic | resetSlots | heroStealth
  | enemiesLogic | hazardsLogic | lootLogic | checkEnemiesforXP | npcsLogic | sndLogic
  | closeAll
  | checkTeleport | checkLootDrop | checkLog | checkBook | checkEquipmentChange
  | checkConsumable | checkStash | checkNotifications | checkCancel
  | maprLogic | enemiesCleared | questsLogic
  | transformApply | transformRevert
  | applyEquipment | activatePassives | statsLogic | statsRecalc
  | setCursorNormal
  deriving Repr, DecidableEq

/-- The collaborators of the orchestrator and the checks of `GameStatePlay` that are not
modelled in detail here: what each does to the play state is a parameter. -/
structure Collab where
  /-- The effect of a step that is not modelled in detail. -/
  run : Step → Play → Play
  /-- Models `camp->checkStatus`. -/
  checkStatus : String → Bool
  /-- Models `menu->act->checkAction()`: the power it returns and the state it leaves. -/
  checkAction : Play → Int × Play
  /-- Models `pc->logic(actionbar_power, restrictPowerUse())`. -/
  pcLogic : Int → Play → Play
  /-- Whether `powers->powers[actionbar_power].type == POWTYPE_TRANSFORM`. -/
  isTransform : Int → Play → Bool
  /-- Models `enemies->isCleared()`. -/
  isCleared : Play → Bool
  /-- The setting `AUTOPICKUP_CURRENCY`. -/
  AUTOPICKUP_CURRENCY : Bool
  /-- Models `loot->checkAutoPickup(pc->stats.pos, menu->inv)`. -/
  checkAutoPickup : Play → ItemStack × Play
  /-- Models `loot->checkPickup(inpt->mouse, mapr->cam, pc->stats.pos, menu->inv)`. -/
  checkPickup : Play → ItemStack × Play
  /-- Models `menu->inv->add(stack)`. -/
  invAdd : ItemStack → Play → Play
  /-- Models `camp->setStatus(items->items[pickup.item].pickup_status)`. -/
  setPickupStatus : ItemStack → Play → Play
  /-- Models `msg->get`, the translation of a message. -/
  msgGet : String → String

/-- The function `GameStatePlay::checkLoot()`. -/
def checkLoot (c : Collab) (s : Play) : Play :=
  if s.alive = false then s
  else if s.dragging = true then s
  else
    -- ItemStack pickup; and the automatic pickup
    let a : ItemStack × Play :=
      if c.AUTOPICKUP_CURRENCY = true then
        let r := c.checkAutoPickup s
        (r.1, if r.1.item > 0 then c.invAdd r.1 r.2 else r.2)
      else (⟨0, 0⟩, s)
    -- normal pickups
    let b : ItemStack × Play := if a.2.attacking = false then c.checkPickup a.2 else a
    let s3 : Play :=
      if b.1.item > 0 then c.setPickupStatus b.1 (c.invAdd b.1 b.2) else b.2
    if s3.full_msg = true then
      { s3 with
        lock_MAIN1 := if s3.pressing_MAIN1 = true then true else s3.lock_MAIN1
        lock_ACCEPT := if s3.pressing_ACCEPT = true then true else s3.lock_ACCEPT
        log := s3.log ++ [c.msgGet "Inventory is full."]
        hudlog := s3.hudlog ++ [c.msgGet "Inventory is full."]
        full_msg := false }
    else s3

/-- One `while (!stack.empty()) { if (stack.front().item > 0) loot->addLoot(stack.front(),
pc->stats.pos, true); stack.pop(); }` loop of `checkLootDrop`, on the queue and the record of
`addLoot` calls; it returns the queue as the loop leaves it. -/
def dropLoop (pos : FPoint) : List ItemStack → List LootDrop → List ItemStack × List LootDrop
  | [], added => ([], added)
  | front :: rest, added =>
    dropLoop pos rest (if front.item > 0 then added ++ [⟨front, pos, true⟩] else added)

/-- The function `GameStatePlay::checkLootDrop()`: the three loops, in source order. -/
def checkLootDrop (s : Play) : Play :=
  let m := dropLoop s.pos s.menu_drop_stack s.loot_added
  let s1 := { s with menu_drop_stack := m.1, loot_added := m.2 }
  let q := dropLoop s1.pos s1.camp_drop_stack s1.loot_added
  let s2 := { s1 with camp_drop_stack := q.1, loot_added := q.2 }
  let i := dropLoop s2.pos s2.inv_drop_stack s2.loot_added
  { s2 with inv_drop_stack := i.1, loot_added := i.2 }

/-- The function `GameStatePlay::checkLog()`. -/
def checkLog (s : Play) : Play :=
  let s0 := if s.respawn = true then { s with hudlog := [] } else s
  let s1 :=
    if s0.map_log_msg ≠ "" then
      { s0 with log := s0.log ++ [s0.map_log_msg], hudlog := s0.hudlog ++ [s0.map_log_msg],
                map_log_msg := "" }
    else s0
  let s2 :=
    if s1.pc_log_msg ≠ "" then
      { s1 with log := s1.log ++ [s1.pc_log_msg], hudlog := s1.hudlog ++ [s1.pc_log_msg],
                pc_log_msg := "" }
    else s1
  let s3 :=
    if s2.camp_log_msg ≠ "" then
      { s2 with log := s2.log ++ [s2.camp_log_msg], hudlog := s2.hudlog ++ [s2.camp_log_msg],
                camp_log_msg := "" }
    else s2
  let s4 :=
    if s3.inv_log_msg ≠ "" then
      { s3 with hudlog := s3.hudlog ++ [s3.inv_log_msg], inv_log_msg := "" }
    else s3
  if s4.powers_log_msg ≠ "" then
    { s4 with hudlog := s4.hudlog ++ [s4.powers_log_msg], powers_log_msg := "" }
  else s4

/-- A tick in progress: the play state and the calls made so far, oldest first. -/
structure Run where
  state : Play
  trace : List Step

/-- Make a call: apply its effect and record it. -/
def Run.call (r : Run) (st : Step) (f : Play → Play) : Run :=
  ⟨f r.state, r.trace ++ [st]⟩

/-- An assignment made by `logic()` itself. -/
def Run.assign (r : Run) (f : Play → Play) : Run :=
  ⟨f r.state, r.trace⟩

/-- The call `checkTitle()` on the play state. -/
def titleStep (c : Collab) (s : Play) : Play :=
  { s with stats := checkTitle c.checkStatus s.titles s.stats }

/-- The transfer of the stealth of the hero to the enemies (source lines 824-825). -/
def stealthStep (s : Play) : Play :=
  { s with hero_stealth := if s.stealth > 100 then 100 else s.stealth }

/-- The assignment `mapr->enemies_cleared = enemies->isCleared();`. -/
def clearedStep (c : Collab) (s : Play) : Play :=
  { s with enemies_cleared := c.isCleared s }

/-- The assignment `pc->close_menus = false;`. -/
def clearCloseMenus (s : Play) : Play := { s with close_menus := false }

/-- The assignment `pc->setPowers = false;`. -/
def clearSetPowers (s : Play) : Play := { s with setPowers := false }

/-- The assignment `pc->revertPowers = false;`. -/
def clearRevertPowers (s : Play) : Play := { s with revertPowers := false }

/-- The assignments `pc->stats.alive = true; pc->stats.corpse = false; pc->stats.cur_state =
AVATAR_STANCE;`. -/
def reviveStep (s : Play) : Play := { s with alive := true, corpse := false, in_stance := true }

/-- The assignment `menu->inv->changed_equipment = true;`. -/
def markEquipmentChanged (s : Play) : Play := { s with changed_equipment := true }

/-- The assignment `pc->respawn = false;`. -/
def clearRespawn (s : Play) : Play := { s with respawn := false }

/-- The body of `if (!menu->pause) { ... }` in `logic()` (source lines 803-833).  The step
`pcLogic` stands for `pc->logic(actionbar_power, restrictPowerUse())`, argument evaluation
included. -/
def gatedBlock (c : Collab) (r0 : Run) : Run :=
  let r1 := if r0.state.alive = true then r0.call .checkLoot (checkLoot c) else r0
  let r2 := r1.call .checkEnemyFocus (c.run .checkEnemyFocus)
  let r3 :=
    if r2.state.alive = true then
      ((r2.call .checkNPCInteraction (c.run .checkNPCInteraction)).call .checkHotspots
        (c.run .checkHotspots)).call .checkNearestEvent (c.run .checkNearestEvent)
    else r2
  let r4 := r3.call .checkTitle (titleStep c)
  let actionbar_power := (c.checkAction r4.state).1
  let r5 := r4.call .checkAction (fun s => (c.checkAction s).2)
  let r6 := r5.call .pcLogic (c.pcLogic actionbar_power)
  let r7 :=
    if c.isTransform actionbar_power r6.state = true then
      r6.call .resetSlots (c.run .resetSlots)
    else r6
  let r8 := r7.call .heroStealth stealthStep
  let r9 := r8.call .enemiesLogic (c.run .enemiesLogic)
  let r10 := r9.call .hazardsLogic (c.run .hazardsLogic)
  let r11 := r10.call .lootLogic (c.run .lootLogic)
  let r12 := r11.call .checkEnemiesforXP (c.run .checkEnemiesforXP)
  let r13 := r12.call .npcsLogic (c.run .npcsLogic)
  r13.call .sndLogic (c.run .sndLogic)

/-- The start of `logic()`: `checkCutscene(); menu->logic();`, the gated block, and the
closing of the menus when the avatar died (source lines 796-840). -/
def logicUntilPost (c : Collab) (s : Play) : Run :=
  let r0 : Run := ⟨s, []⟩
  let r1 := r0.call .checkCutscene (c.run .checkCutscene)
  let r2 := r1.call .menuLogic (c.run .menuLogic)
  let r3 := if r2.state.pause = false then gatedBlock c r2 else r2
  if r3.state.close_menus = true then
    (r3.assign clearCloseMenus).call .closeAll (c.run .closeAll)
  else r3

/-- The first three calls of the block that runs paused or not: `checkTeleport();
checkLootDrop(); checkLog();` (source lines 843-845). -/
def drainBlock (c : Collab) (r : Run) : Run :=
  ((r.call .checkTeleport (c.run .checkTeleport)).call .checkLootDrop checkLootDrop).call
    .checkLog checkLog

/-- The rest of that block and the three calls that follow it (source lines 846-855). -/
def settleBlock (c : Collab) (r : Run) : Run :=
  let r1 := r.call .checkBook (c.run .checkBook)
  let r2 := r1.call .checkEquipmentChange (c.run .checkEquipmentChange)
  let r3 := r2.call .checkConsumable (c.run .checkConsumable)
  let r4 := r3.call .checkStash (c.run .checkStash)
  let r5 := r4.call .checkNotifications (c.run .checkNotifications)
  let r6 := r5.call .checkCancel (c.run .checkCancel)
  let r7 := r6.call .maprLogic (c.run .maprLogic)
  let r8 := r7.call .enemiesCleared (clearedStep c)
  r8.call .questsLogic (c.run .questsLogic)

/-- The two action-bar handlers of `logic()` (source lines 858-899); what the body of each does
to the action bar and the equipment is the effect of one step. -/
def transformBlock (c : Collab) (r : Run) : Run :=
  let r1 :=
    if r.state.setPowers = true then
      (r.assign clearSetPowers).call .transformApply (c.run .transformApply)
    else r
  if r1.state.revertPowers = true then
    (r1.assign clearRevertPowers).call .transformRevert (c.run .transformRevert)
  else r1

/-- The respawn handler of `logic()` (source lines 902-913). -/
def respawnBlock (c : Collab) (r : Run) : Run :=
  if r.state.respawn = true then
    let r1 := r.assign reviveStep
    let r2 := r1.call .applyEquipment (c.run .applyEquipment)
    let r3 := r2.assign markEquipmentChanged
    let r4 := r3.call .checkEquipmentChange (c.run .checkEquipmentChange)
    let r5 := r4.call .activatePassives (c.run .activatePassives)
    let r6 := r5.call .statsLogic (c.run .statsLogic)
    let r7 := r6.call .statsRecalc (c.run .statsRecalc)
    r7.assign clearRespawn
  else r

/-- The end of `logic()`: the normal cursor when menus are open (source lines 916-918). -/
def cursorBlock (c : Collab) (r : Run) : Run :=
  if r.state.menus_open = true then r.call .setCursorNormal (c.run .setCursorNormal) else r

/-- Everything `logic()` does after `checkLog()`. -/
def logicAfterLog (c : Collab) (r : Run) : Run :=
  cursorBlock c (respawnBlock c (transformBlock c (settleBlock c r)))

/-- The function `GameStatePlay::logic()`: one tick. -/
def logic (c : Collab) (s : Play) : Run :=
  logicAfterLog c (drainBlock c (logicUntilPost c s))

/-- The steps of the block that runs paused or not, with the three calls that follow it, in
the order the claim lists them. -/
def postBlockSteps : List Step :=
  [.checkTeleport, .checkLootDrop, .checkLog, .checkBook, .checkEquipmentChange,
    .checkConsumable, .checkStash, .checkNotifications, .checkCancel, .maprLogic,
    .enemiesCleared, .questsLogic]

/-- The steps of the gated gameplay block. -/
def gatedSteps : List Step :=
  [.checkLoot, .checkEnemyFocus, .checkNPCInteraction, .checkHotspots, .checkNearestEvent,
    .checkTitle, .checkAction, .pcLogic, .resetSlots, .heroStealth, .enemiesLogic,
    .hazardsLogic, .lootLogic, .checkEnemiesforXP, .npcsLogic, .sndLogic]

/-- The order in which the specification lists the gated steps (section 4.2, item 3). -/
def gatedOrderInSpec : List Step :=
  [.checkLoot, .checkEnemyFocus, .checkNPCInteraction, .checkHotspots, .checkNearestEvent,
    .checkTitle, .checkAction, .pcLogic, .heroStealth, .enemiesLogic, .hazardsLogic,
    .lootLogic, .npcsLogic, .checkEnemiesforXP, .sndLogic]

/-- The order in which the source runs the gated steps when the avatar is alive and the
resolved power is not a transformation. -/
def gatedOrderInCode : List Step :=
  [.checkLoot, .checkEnemyFocus, .checkNPCInteraction, .checkHotspots, .checkNearestEvent,
    .checkTitle, .checkAction, .pcLogic, .heroStealth, .enemiesLogic, .hazardsLogic,
    .lootLogic, .checkEnemiesforXP, .npcsLogic, .sndLogic]

/-- The pending fields the tick is meant to drain: the three drop stacks and the five log
messages. -/
def pending (s : Play) :
    List ItemStack × List ItemStack × List ItemStack × String × String × String × String
      × String :=
  (s.menu_drop_stack, s.camp_drop_stack, s.inv_drop_stack, s.map_log_msg, s.pc_log_msg,
    s.camp_log_msg, s.inv_log_msg, s.powers_log_msg)

/-- A stat block for examples: level 1, nothing to recheck. -/
def plainStats : StatBlock :=
  { level := 1, powers_list := [], physical := 1, mental := 1, offense := 1, defense := 1,
    physoff := 2, physment := 2, physdef := 2, mentoff := 2, offdef := 2, mentdef := 2,
    character_class := "", check_title := false, refresh_stats := false }

/-- A play state for examples: not paused, avatar alive, nothing pending. -/
def plainPlay : Play :=
  { pause := false, menus_open := false, dragging := false, menu_drop_stack := [], log := [],
    hudlog := [], inv_drop_stack := [], inv_log_msg := "", changed_equipment := false,
    stats := plainStats, alive := true, corpse := false, in_stance := true, attacking := false,
    pos := ⟨3, 4⟩, stealth := 0, pc_log_msg := "", close_menus := false, setPowers := false,
    revertPowers := false, respawn := false, camp_drop_stack := [], camp_log_msg := "",
    map_log_msg := "", enemies_cleared := false, powers_log_msg := "", full_msg := false,
    loot_added := [], hero_stealth := 0, pressing_MAIN1 := false, pressing_ACCEPT := false,
    lock_MAIN1 := false, lock_ACCEPT := false, titles := [] }

/-- Collaborators for examples that leave the play state alone. -/
def quietCollab : Collab :=
  { run := fun _ s => s, checkStatus := fun _ => false, checkAction := fun s => (0, s),
    pcLogic := fun _ s => s, isTransform := fun _ _ => false, isCleared := fun _ => false,
    AUTOPICKUP_CURRENCY := false, checkAutoPickup := fun s => (⟨0, 0⟩, s),
    checkPickup := fun s => (⟨0, 0⟩, s), invAdd := fun _ s => s,
    setPickupStatus := fun _ s => s, msgGet := fun m => m }

/-- Collaborators for examples in which the map, during its own `logic()`, posts a message. -/
def chattyMapCollab : Collab :=
  { quietCollab with
    run := fun st s => if st = .maprLogic then { s with map_log_msg := "A door opens." } else s }

/-- The calls of the gated block, given what its three tests read: `pc->stats.alive` before
`checkLoot`, `pc->stats.alive` before `checkNPCInteraction`, and whether the resolved power is a
transformation. -/
def gatedTrace (alive_loot alive_npc transform : Bool) : List Step :=
  (if alive_loot = true then [.checkLoot] else []) ++ [.checkEnemyFocus]
    ++ (if alive_npc = true then [.checkNPCInteraction, .checkHotspots, .checkNearestEvent]
        else [])
    ++ [.checkTitle, .checkAction, .pcLogic]
    ++ (if transform = true then [.resetSlots] else [])
    ++ [.heroStealth, .enemiesLogic, .hazardsLogic, .lootLogic, .checkEnemiesforXP, .npcsLogic,
        .sndLogic]

/-- The state in which `logic()` reads `menu->pause`, and then `pc->stats.alive` for the first
time: the one `menu->logic()` leaves. -/
def atPauseCheck (c : Collab) (s : Play) : Play :=
  c.run .menuLogic (c.run .checkCutscene s)

/-- The state in which an unpaused `logic()` reads `pc->stats.alive` for the second time, after
`checkLoot` (which returns at once when the avatar is not alive) and `checkEnemyFocus`. -/
def atNPCCheck (c : Collab) (s : Play) : Play :=
  c.run .checkEnemyFocus (checkLoot c (atPauseCheck c s))

/-- The run at the point where `logic()` reads `pc->respawn` for its respawn handler. -/
def atRespawnCheck (c : Collab) (s : Play) : Run :=
  transformBlock c (settleBlock c (drainBlock c (logicUntilPost c s)))

/-- The steps that can run after `checkLog()` in a tick and whose effect is a parameter. -/
def afterLogSteps : List Step :=
  [.checkBook, .checkEquipmentChange, .checkConsumable, .checkStash, .checkNotifications,
    .checkCancel, .maprLogic, .questsLogic, .transformApply, .transformRevert, .applyEquipment,
    .activatePassives, .statsLogic, .statsRecalc, .setCursorNormal]

/-- The calls of a tick before `checkTeleport()`, given what the tests read: `menu->pause`,
the three tests of the gated block, and `pc->close_menus`. -/
def preTrace (pause alive_loot alive_npc transform closing : Bool) : List Step :=
  [.checkCutscene, .menuLogic]
    ++ (if pause = true then [] else gatedTrace alive_loot alive_npc transform)
    ++ (if closing = true then [.closeAll] else [])

/-- The calls of a tick after `quests->logic()`, given what the tests read: `pc->setPowers`,
`pc->revertPowers`, `pc->respawn` and `menu->menus_open`. -/
def sufTrace (apply revert respawn cursor : Bool) : List Step :=
  (if apply = true then [.transformApply] else [])
    ++ (if revert = true then [.transformRevert] else [])
    ++ (if respawn = true then
          [.applyEquipment, .checkEquipmentChange, .activatePassives, .statsLogic, .statsRecalc]
        else [])
    ++ (if cursor = true then [.setCursorNormal] else [])

/-! ## The action bar and the transformation handlers (`logic()`, source lines 858-899) -/

/-- The three arrays of `menu->act` that the transformation handlers use, as memories indexed
by naturals: `hotkeys`, `locked` and the snapshot `actionbar`.  The arrays of the source have
12 entries, the indexes 0..11. -/
structure ActionBar where
  hotkeys : Nat → Int
  locked : Nat → Bool
  actionbar : Nat → Int

/-- The body of the first loop of the apply handler, for index `i`:
`actionbar[i] = hotkeys[i]; hotkeys[i] = 0;`. -/
def saveSlot (i : Nat) (a : ActionBar) : ActionBar :=
  { a with actionbar := Function.update a.actionbar i (a.hotkeys i)
           hotkeys := Function.update a.hotkeys i 0 }

/-- The first `n` iterations of `for (int i=0; i<12; i++) { actionbar[i] = hotkeys[i];
hotkeys[i] = 0; }`. -/
def saveSlots : Nat → ActionBar → ActionBar
  | 0, a => a
  | n + 1, a => saveSlot n (saveSlots n a)

/-- The body of the second loop of the apply handler, for index `i`, on the action bar and the
local `count`: a non-zero transform power is placed in slot `count`, which is locked, and
`count` moves on; then `if (count == 12) count = 0;`. -/
def placeStep (power_index : Nat → Int) (i : Nat) (st : ActionBar × Nat) : ActionBar × Nat :=
  let st1 : ActionBar × Nat :=
    if power_index i ≠ 0 then
      ({ st.1 with hotkeys := Function.update st.1.hotkeys st.2 (power_index i)
                   locked := Function.update st.1.locked st.2 true }, st.2 + 1)
    else st
  if st1.2 = 12 then (st1.1, 0) else st1

/-- The first `n` iterations of `for (int i=0; i<4; i++) { ... }` of the apply handler. -/
def placeLoop (power_index : Nat → Int) : Nat → ActionBar × Nat → ActionBar × Nat
  | 0, st => st
  | n + 1, st => placeStep power_index n (placeLoop power_index n st)

/-- The action-bar part of the handler of `pc->setPowers` (source lines 862-881):
`power_index` is `pc->charmed_stats->power_index`, `manual_untransform` is
`pc->stats.manual_untransform` and `untransform_power` is `pc->untransform_power`.  The calls
`menu->closeRight()` and `menu->inv->applyEquipment(...)` of the handler act on other menus and
on the equipment. -/
def transformApply (power_index : Nat → Int) (manual_untransform : Bool)
    (untransform_power : Int) (a : ActionBar) : ActionBar :=
  let saved := saveSlots 12 a
  let placed := placeLoop power_index 4 (saved, 10)
  if manual_untransform = true ∧ untransform_power > 0 then
    { placed.1 with hotkeys := Function.update placed.1.hotkeys placed.2 untransform_power
                    locked := Function.update placed.1.locked placed.2 true }
  else placed.1

/-- The body of the loop of the revert handler, for index `i`:
`hotkeys[i] = actionbar[i]; locked[i] = false;`. -/
def revertSlot (i : Nat) (a : ActionBar) : ActionBar :=
  { a with hotkeys := Function.update a.hotkeys i (a.actionbar i)
           locked := Function.update a.locked i false }

/-- The first `n` iterations of `for (int i=0; i<12; i++) { hotkeys[i] = actionbar[i];
locked[i] = false; }`. -/
def revertSlots : Nat → ActionBar → ActionBar
  | 0, a => a
  | n + 1, a => revertSlot n (revertSlots n a)

/-- The action-bar part of the handler of `pc->revertPowers` (source lines 891-895). -/
def transformRevert (a : ActionBar) : ActionBar :=
  revertSlots 12 a

/-- An action bar for examples: power `100 + i` in slot `i`, slot 0 locked, an empty
snapshot. -/
def sampleBar : ActionBar :=
  { hotkeys := fun i => 100 + i, locked := fun i => decide (i = 0), actionbar := fun _ => 0 }

/-! ## Teleportation (`GameStatePlay::checkTeleport`) -/

/-- The part of an entry of `enemies->enemies` that `checkTeleport` reads and writes. -/
structure Enemy where
  hero_ally : Bool
  alive : Bool
  pos : FPoint
  deriving Repr, DecidableEq

/-- Modelled from the spec: `MapCollision::unblock` is not among the embedded sources.  The
collision state is the list of the cells that an entity blocks (a position stands for the cell
it lies in); unblocking a cell removes it. -/
def unblock (blocked : List FPoint) (p : FPoint) : List FPoint :=
  blocked.filter (fun q => decide (q ≠ p))

/-- Modelled from the spec: `MapCollision::block` is not among the embedded sources.  Blocking
a cell adds it to the blocked cells. -/
def block (blocked : List FPoint) (p : FPoint) : List FPoint :=
  if p ∈ blocked then blocked else p :: blocked

/-- The part of the play state that `checkTeleport` reads and writes. -/
structure TeleportState where
  /-- Member `mapr->teleportation`. -/
  map_teleportation : Bool
  /-- Member `mapr->teleport_destination`. -/
  map_destination : FPoint
  /-- Member `mapr->teleport_mapname`. -/
  teleport_mapname : String
  /-- Member `pc->stats.teleportation`. -/
  pc_teleportation : Bool
  /-- Member `pc->stats.teleport_destination`. -/
  pc_destination : FPoint
  /-- Member `pc->stats.pos`. -/
  pos : FPoint
  /-- Member `mapr->cam`. -/
  cam : FPoint
  /-- Member `enemies->enemies`. -/
  enemies : List Enemy
  /-- The cells blocked in `mapr->collider`. -/
  blocked : List FPoint
  load_counter : Nat
  /-- Whether `menu->vendor->npc` is not `NULL`. -/
  vendor_has_npc : Bool
  vendor_visible : Bool
  talker_visible : Bool
  stash_visible : Bool
  npc_visible : Bool
  npc_id : Int
  nearest_npc : Int
  /-- Member `mapr->respawn_map`. -/
  respawn_map : String
  /-- Member `mapr->respawn_point`. -/
  respawn_point : FPoint
  /-- Member `pc->stats.permadeath`. -/
  permadeath : Bool
  /-- Member `pc->stats.corpse`. -/
  corpse : Bool
  game_slot : Int
  /-- Whether `requestedGameState` is a new `GameStateTitle`. -/
  requested_title : Bool
  deriving Repr, DecidableEq

/-- The calls of `checkTeleport` to collaborators when a new map is entered. -/
inductive TeleportStep where
  | executeOnMapExitEvents | showLoading | enemiesNewMap | hazardsNewMap | lootNewMap
  | powersNewMap | menuEnemyNewMap | npcsNewMap | prerender
  deriving Repr, DecidableEq

/-- What `checkTeleport` does to the file system and to the saved game, in order. -/
inductive FileEffect where
  /-- A call `remove(path)`. -/
  | remove (path : String)
  /-- A message on the error stream, from `perror` or `fprintf(stderr, ...)`. -/
  | complain (message : String)
  /-- A call `saveGame()`. -/
  | saveGame
  deriving Repr, DecidableEq

/-- Whether a file effect is a call of `remove`. -/
def FileEffect.isRemove : FileEffect → Bool
  | .remove _ => true
  | _ => false

/-- The collaborators and settings of `checkTeleport`: what each call does to the state is a
parameter, and so is whether a `remove` fails. -/
structure TeleportCollab where
  run : TeleportStep → TeleportState → TeleportState
  /-- Models `mapr->load(teleport_mapname)`. -/
  mapLoad : String → TeleportState → TeleportState
  PATH_USER : String
  SAVE_PREFIX : String
  /-- Whether `remove(path) != 0`. -/
  removeFails : String → Bool

/-- A teleportation in progress: the state and the file effects so far, oldest first. -/
structure TeleportRun where
  state : TeleportState
  effects : List FileEffect

/-- The destination: the one of the map event when `mapr->teleportation` is set, the one of
the power of the avatar otherwise (source lines 252-259). -/
def teleportDestination (s : TeleportState) : FPoint :=
  if s.map_teleportation = true then s.map_destination else s.pc_destination

/-- The loop over `enemies->enemies` of `checkTeleport` (source lines 261-267), on the entries
and the blocked cells: a living hero ally has its cell unblocked and is moved to the position
of the avatar. -/
def relocateAllies (pc_pos : FPoint) : List Enemy → List FPoint → List Enemy × List FPoint
  | [], blocked => ([], blocked)
  | e :: rest, blocked =>
    if e.hero_ally = true ∧ e.alive = true then
      let r := relocateAllies pc_pos rest (unblock blocked e.pos)
      ({ e with pos := pc_pos } :: r.1, r.2)
    else
      let r := relocateAllies pc_pos rest blocked
      (e :: r.1, r.2)

/-- The first part of the body of `checkTeleport` (source lines 250-267): the cell of the avatar
is unblocked, avatar and camera are moved, then the allies. -/
def teleportRelocate (s : TeleportState) : TeleportState :=
  let blocked1 := unblock s.blocked s.pos
  let dest := teleportDestination s
  let r := relocateAllies dest s.enemies blocked1
  { s with pos := dest, cam := dest, enemies := r.1, blocked := r.2 }

/-- The assignment `mapr->teleport_mapname = "";`. -/
def clearMapname (s : TeleportState) : TeleportState := { s with teleport_mapname := "" }

/-- The statement `load_counter++;`. -/
def countLoad (s : TeleportState) : TeleportState := { s with load_counter := s.load_counter + 1 }

/-- The assignments of source lines 283-287: the vendor forgets its NPC and the vendor, talk,
stash and NPC menus are hidden. -/
def hideNPCMenus (s : TeleportState) : TeleportState :=
  { s with vendor_has_npc := false, vendor_visible := false, talker_visible := false,
           stash_visible := false, npc_visible := false }

/-- The assignment `npc_id = nearest_npc = -1;`. -/
def forgetNPC (s : TeleportState) : TeleportState := { s with npc_id := -1, nearest_npc := -1 }

/-- The new respawn point (source lines 292-294). -/
def storeRespawn (teleport_mapname : String) (s : TeleportState) : TeleportState :=
  { s with respawn_map := teleport_mapname, respawn_point := s.pos }

/-- The assignment `requestedGameState = new GameStateTitle();`. -/
def requestTitle (s : TeleportState) : TeleportState := { s with requested_title := true }

/-- The file name `PATH_USER [SAVE_PREFIX _] save<slot>.txt` (source lines 298-302). -/
def saveFileName (c : TeleportCollab) (game_slot : Int) : String :=
  c.PATH_USER ++ (if c.SAVE_PREFIX.length > 0 then c.SAVE_PREFIX ++ "_" else "")
    ++ "save" ++ toString game_slot ++ ".txt"

/-- The file name `PATH_USER [SAVE_PREFIX _] stash_HC<slot>.txt` (source lines 307-312). -/
def stashFileName (c : TeleportCollab) (game_slot : Int) : String :=
  c.PATH_USER ++ (if c.SAVE_PREFIX.length > 0 then c.SAVE_PREFIX ++ "_" else "")
    ++ "stash_HC" ++ toString game_slot ++ ".txt"

/-- The state in which `checkTeleport` tests `pc->stats.permadeath && pc->stats.corpse`, for a
teleport into a new map that starts after the relocation in state `s` (source lines 271-294). -/
def enterNewMap (c : TeleportCollab) (s : TeleportState) : TeleportState :=
  let teleport_mapname := s.teleport_mapname
  let s1 := clearMapname s
  let s2 := c.run .executeOnMapExitEvents s1
  let s3 := c.run .showLoading s2
  let s4 := c.mapLoad teleport_mapname s3
  let s5 := countLoad s4
  let s6 := c.run .enemiesNewMap s5
  let s7 := c.run .hazardsNewMap s6
  let s8 := c.run .lootNewMap s7
  let s9 := c.run .powersNewMap s8
  let s10 := c.run .menuEnemyNewMap s9
  let s11 := c.run .npcsNewMap s10
  let s12 := hideNPCMenus s11
  let s13 := c.run .prerender s12
  let s14 := forgetNPC s13
  storeRespawn teleport_mapname s14

/-- The end of the new-map branch (source lines 296-321): the files of a dead permadeath
avatar are removed and the title state is requested, or else the game is saved. -/
def settleNewMap (c : TeleportCollab) (r : TeleportRun) : TeleportRun :=
  if r.state.permadeath = true ∧ r.state.corpse = true then
    let e1 := [FileEffect.remove (saveFileName c r.state.game_slot)]
      ++ (if c.removeFails (saveFileName c r.state.game_slot) = true then
            [FileEffect.complain "Error deleting save from path"] else [])
    let e2 := [FileEffect.remove (stashFileName c r.state.game_slot)]
      ++ (if c.removeFails (stashFileName c r.state.game_slot) = true then
            [FileEffect.complain
              ("Error deleting hardcore stash in slot " ++ toString r.state.game_slot)]
          else [])
    ⟨requestTitle r.state, r.effects ++ e1 ++ e2⟩
  else ⟨r.state, r.effects ++ [FileEffect.saveGame]⟩

/-- Whether the request names a new map: the test of source line 270. -/
def namesNewMap (s : TeleportState) : Prop :=
  s.map_teleportation = true ∧ s.teleport_mapname ≠ ""

instance (s : TeleportState) : Decidable (namesNewMap s) := by
  unfold namesNewMap; infer_instance

/-- The last two statements of the body (source lines 324-326): the cell of the avatar is
blocked and the teleport flag of the avatar is cleared. -/
def teleportLand (s : TeleportState) : TeleportState :=
  { s with blocked := block s.blocked s.pos, pc_teleportation := false }

/-- The last statement of `checkTeleport` (source line 330). -/
def teleportDone (s : TeleportState) : TeleportState :=
  if s.teleport_mapname = "" then { s with map_teleportation := false } else s

/-- The function `GameStatePlay::checkTeleport()`. -/
def checkTeleport (c : TeleportCollab) (s : TeleportState) : TeleportRun :=
  let r1 : TeleportRun :=
    if s.map_teleportation = true ∨ s.pc_teleportation = true then
      let s1 := teleportRelocate s
      let r2 : TeleportRun :=
        if namesNewMap s1 then settleNewMap c ⟨enterNewMap c s1, []⟩ else ⟨s1, []⟩
      ⟨teleportLand r2.state, r2.effects⟩
    else ⟨s, []⟩
  ⟨teleportDone r1.state, r1.effects⟩

/-- What the relocation loop makes of one entry, in the words of the claim: a living hero ally
gets the destination as its position, every other entry is unchanged. -/
def relocated (dest : FPoint) (e : Enemy) : Enemy :=
  if e.hero_ally = true ∧ e.alive = true then { e with pos := dest } else e

/-- A teleport state for examples: nothing requested, the avatar at (3, 4) on a blocked cell,
one living ally at (5, 5) and one enemy at (1, 1). -/
def plainTeleport : TeleportState :=
  { map_teleportation := false, map_destination := ⟨20, 20⟩, teleport_mapname := "",
    pc_teleportation := false, pc_destination := ⟨8, 8⟩, pos := ⟨3, 4⟩, cam := ⟨3, 4⟩,
    enemies := [⟨true, true, ⟨5, 5⟩⟩, ⟨false, true, ⟨1, 1⟩⟩],
    blocked := [⟨3, 4⟩, ⟨5, 5⟩, ⟨1, 1⟩], load_counter := 0, vendor_has_npc := false,
    vendor_visible := false, talker_visible := false, stash_visible := false,
    npc_visible := false, npc_id := -1, nearest_npc := -1, respawn_map := "maps/spawn.txt",
    respawn_point := ⟨0, 0⟩, permadeath := false, corpse := false, game_slot := 2,
    requested_title := false }

/-- Collaborators for examples that leave the teleport state alone; removing a file fails. -/
def quietTeleportCollab : TeleportCollab :=
  { run := fun _ s => s, mapLoad := fun _ s => s, PATH_USER := "/home/hero/",
    SAVE_PREFIX := "mod", removeFails := fun _ => true }

/-- Modelled from the spec: `EnemyManager::handleNewMap` is not among the embedded sources; the
specification says that entering a new map reinitialises the per-map state of the enemies.
Here the new map has one enemy, at (9, 9). -/
def newMapCollab : TeleportCollab :=
  { quietTeleportCollab with
    run := fun st s =>
      if st = .enemiesNewMap then { s with enemies := [⟨false, true, ⟨9, 9⟩⟩] } else s }

/-! ## NPC interaction (`GameStatePlay::checkNPCInteraction`) -/

/-- The part of `menu->npc`, the NPC action menu, that `checkNPCInteraction` uses. -/
structure NPCMenu where
  visible : Bool
  /-- What `empty()` returns. -/
  is_empty : Bool
  /-- What `selection()` returns. -/
  has_selection : Bool
  vendor_selected : Bool
  dialog_selected : Bool
  selected_dialog_node : Int
  deriving Repr, DecidableEq

/-- The part of the play state that `checkNPCInteraction` reads and writes.  An NPC is named by
its index in `npcs->npcs`; `none` stands for `NULL`. -/
structure NPCState where
  /-- Member `pc->stats.attacking`. -/
  attacking : Bool
  /-- Member `pc->stats.alive`. -/
  alive : Bool
  /-- Member `pc->stats.humanoid`. -/
  humanoid : Bool
  /-- Member `pc->allow_movement`. -/
  allow_movement : Bool
  npc_id : Int
  nearest_npc : Int
  eventDialogOngoing : Bool
  eventPendingDialog : Bool
  /-- Member `mapr->event_npc`. -/
  event_npc : String
  pressing_MAIN1 : Bool
  lock_MAIN1 : Bool
  pressing_ACCEPT : Bool
  lock_ACCEPT : Bool
  /-- The menu `menu->npc`. -/
  npc_menu : NPCMenu
  /-- Member `menu->vendor->visible`. -/
  vendor_visible : Bool
  /-- Member `menu->vendor->npc`. -/
  vendor_npc : Option Int
  /-- The tab chosen with `menu->vendor->setTab`. -/
  vendor_tab : Int
  /-- Member `menu->talker->visible`. -/
  talker_visible : Bool
  /-- Member `menu->talker->npc`. -/
  talker_npc : Option Int
  /-- The node passed to `menu->talker->chooseDialogNode`. -/
  talker_node : Int
  /-- Member `menu->inv->visible`. -/
  inv_visible : Bool
  /-- Whether one of the other menus that `menu->closeAll()` closes is visible. -/
  other_menus_visible : Bool
  deriving Repr, DecidableEq

/-- The collaborators and settings of `checkNPCInteraction`.  The queries about positions and
the mouse are answered once per call: the function moves neither the avatar nor an NPC.
Distances and `INTERACT_RANGE` are floats in the source; they are only compared, and are
integers here. -/
structure NPCCollab where
  NO_MOUSE : Bool
  INTERACT_RANGE : Int
  /-- What `npcs->getNearestNPC(pc->stats.pos)` returns. -/
  getNearestNPC : Int
  /-- What `npcs->checkNPCClick(inpt->mouse, mapr->cam)` returns: the NPC under the mouse. -/
  checkNPCClick : Int
  /-- What `calcDist(pc->stats.pos, npcs->npcs[i]->pos)` returns. -/
  calcDist : Int → Int
  /-- Models `npcs->getID`. -/
  getID : String → Int
  /-- Models `npcs->npcs[i]->checkMovement(node)`. -/
  checkMovement : Int → Int → Bool
  /-- Models `menu->npc->setNPC`. -/
  setNPC : Option Int → NPCMenu → NPCMenu

/-- The locals `player_ok`, `interact_distance` and `npc_click` of `checkNPCInteraction`. -/
structure NPCLocals where
  player_ok : Bool
  interact_distance : Int
  npc_click : Int
  deriving Repr, DecidableEq

/-- Modelled from the spec: `MenuManager::closeAll` is not among the embedded sources; it
closes every menu. -/
def closeAll (s : NPCState) : NPCState :=
  { s with vendor_visible := false, talker_visible := false, inv_visible := false,
           other_menus_visible := false, npc_menu := { s.npc_menu with visible := false } }

/-- The first part of `checkNPCInteraction` (source lines 625-651): the nearest NPC, the NPC
under the mouse, the selection by click or by the accept key, and the distance.  The talk
cursor set at line 646 is not part of the state. -/
def npcSelect (c : NPCCollab) (s : NPCState) : NPCState × NPCLocals :=
  let player_ok := s.alive && s.humanoid
  let s0 : NPCState := { s with nearest_npc := c.getNearestNPC }
  let npc_hover := c.checkNPCClick
  let a : NPCState × Int :=
    if s0.pressing_MAIN1 = true ∧ s0.lock_MAIN1 = false ∧ c.NO_MOUSE = false then
      (if npc_hover ≠ -1 then { s0 with npc_id := npc_hover } else s0, npc_hover)
    else if s0.nearest_npc ≠ -1 ∧ s0.pressing_ACCEPT = true ∧ s0.lock_ACCEPT = false then
      ({ s0 with npc_id := s0.nearest_npc }, s0.nearest_npc)
    else (s0, -1)
  let interact_distance : Int :=
    if npc_hover ≠ -1 then c.calcDist npc_hover
    else if a.1.npc_id ≠ -1 then c.calcDist a.1.npc_id
    else 0
  (a.1, ⟨player_ok, interact_distance, a.2⟩)

/-- The event block (source lines 653-660): an NPC named by the map event. -/
def npcEvent (c : NPCCollab) (s : NPCState) : NPCState :=
  if s.event_npc ≠ "" then
    let s1 : NPCState := { s with npc_id := c.getID s.event_npc }
    let s2 : NPCState :=
      if s1.npc_id ≠ -1 then { s1 with eventDialogOngoing := true, eventPendingDialog := true }
      else s1
    { s2 with event_npc := "" }
  else s

/-- The block that hands the NPC to the action menu (source lines 664-674). -/
def npcOpenMenu (c : NPCCollab) (l : NPCLocals) (s : NPCState) : NPCState :=
  if s.npc_id ≠ -1 ∧
      ((l.npc_click ≠ -1 ∧ l.interact_distance < c.INTERACT_RANGE ∧ l.player_ok = true)
        ∨ s.eventPendingDialog = true) then
    let s1 : NPCState :=
      if s.pressing_MAIN1 = true ∧ c.NO_MOUSE = false then { s with lock_MAIN1 := true } else s
    let s2 : NPCState := if s1.pressing_ACCEPT = true then { s1 with lock_ACCEPT := true } else s1
    let m := c.setNPC (some s2.npc_id) s2.npc_menu
    let m2 : NPCMenu :=
      if m.is_empty = false ∧ m.has_selection = false then { m with visible := true } else m
    { s2 with npc_menu := m2 }
  else s

/-- The action block (source lines 677-701): trading or talking.  The inventory of the vendor
and the sounds of lines 682-687 are not part of the state. -/
def npcAct (c : NPCCollab) (s : NPCState) : NPCState :=
  if s.npc_id ≠ -1 ∧ (s.npc_menu.has_selection = true ∨ s.eventPendingDialog = true) then
    let s1 : NPCState :=
      if s.npc_menu.vendor_selected = true then
        let v : NPCState := { s with vendor_tab := 0, vendor_npc := some s.npc_id }
        { closeAll v with vendor_visible := true, inv_visible := true }
      else if s.npc_menu.dialog_selected = true then
        let t : NPCState :=
          { s with talker_npc := some s.npc_id
                   talker_node := s.npc_menu.selected_dialog_node
                   allow_movement := c.checkMovement s.npc_id s.npc_menu.selected_dialog_node }
        { closeAll t with talker_visible := true }
      else s
    { s1 with npc_menu := c.setNPC none s1.npc_menu, eventPendingDialog := false }
  else s

/-- The walking-away block (source lines 704-717). -/
def npcWalkAway (c : NPCCollab) (l : NPCLocals) (s : NPCState) : NPCState :=
  if s.npc_id ≠ -1 ∧ s.eventDialogOngoing = false then
    if l.interact_distance > c.INTERACT_RANGE ∨ l.player_ok = false then
      let s1 : NPCState :=
        if s.vendor_visible = true ∨ s.talker_visible = true ∨ s.npc_menu.visible = true then
          closeAll s
        else s
      { s1 with npc_menu := c.setNPC none s1.npc_menu, vendor_npc := none, talker_npc := none,
                npc_id := -1 }
    else s
  else if (s.vendor_visible = false ∧ s.talker_visible = false) ∨ l.npc_click ≠ -1 then
    { s with eventDialogOngoing := false }
  else s

/-- The last block (source lines 720-722): movement is allowed again outside a dialog. -/
def npcMovement (s : NPCState) : NPCState :=
  if s.talker_visible = false then { s with allow_movement := true } else s

/-- The state in which `checkNPCInteraction` reaches its action block, for an avatar that is
not attacking. -/
def atActionBlock (c : NPCCollab) (s : NPCState) : NPCState :=
  npcOpenMenu c (npcSelect c s).2 (npcEvent c (npcSelect c s).1)

/-- The function `GameStatePlay::checkNPCInteraction()`. -/
def checkNPCInteraction (c : NPCCollab) (s : NPCState) : NPCState :=
  if s.attacking = true then s
  else npcMovement (npcWalkAway c (npcSelect c s).2 (npcAct c (atActionBlock c s)))

/-- An NPC action menu for examples: hidden, no action offered or chosen. -/
def plainNPCMenu : NPCMenu :=
  { visible := false, is_empty := true, has_selection := false, vendor_selected := false,
    dialog_selected := false, selected_dialog_node := 0 }

/-- A state for examples: a living humanoid avatar, no NPC selected, no menu open, no key
pressed. -/
def plainNPCState : NPCState :=
  { attacking := false, alive := true, humanoid := true, allow_movement := true, npc_id := -1,
    nearest_npc := -1, eventDialogOngoing := false, eventPendingDialog := false,
    event_npc := "", pressing_MAIN1 := false, lock_MAIN1 := false, pressing_ACCEPT := false,
    lock_ACCEPT := false, npc_menu := plainNPCMenu, vendor_visible := false,
    vendor_npc := none, vendor_tab := 0, talker_visible := false, talker_npc := none,
    talker_node := 0, inv_visible := false, other_menus_visible := false }

/-- Collaborators for examples: two NPCs, number 0 (named `elder`) 900 away and number 1 at
distance 10, an interaction range of 100, the mouse over no NPC.  An NPC handed to the action
menu offers one dialog, which is selected at once (node 3, which forbids movement); `NULL`
empties the menu. -/
def plainNPCCollab : NPCCollab :=
  { NO_MOUSE := false, INTERACT_RANGE := 100, getNearestNPC := 1, checkNPCClick := -1,
    calcDist := fun i => if i = 0 then 900 else 10,
    getID := fun n => if n = "elder" then 0 else -1,
    checkMovement := fun _ _ => false,
    setNPC := fun npc _ =>
      match npc with
      | some _ => { plainNPCMenu with is_empty := true, has_selection := true,
                                      dialog_selected := true, selected_dialog_node := 3 }
      | none => plainNPCMenu }

/-- Collaborators for examples whose NPCs offer several actions: the action menu gets entries
and no selection. -/
def manyActionsCollab : NPCCollab :=
  { plainNPCCollab with
    setNPC := fun npc _ =>
      match npc with
      | some _ => { plainNPCMenu with is_empty := false }
      | none => plainNPCMenu }

/-! ## The command line (`parseArg`, `parseArgValue` and `main` in `main.cpp`) -/

/-- The loop of `parseArg` from index 2 on, on the characters still to read and the result so
far: `if (arg[i] == '=') break; result += arg[i];`. -/
def parseArgLoop : List Char → List Char → List Char
  | [], result => result
  | c :: rest, result => if c = '=' then result else parseArgLoop rest (result ++ [c])

/-- The function `parseArg`: the flag name of an argument. -/
def parseArg (arg : String) : String :=
  if arg.length > 2 ∧ arg.data.getD 0 ' ' = '-' ∧ arg.data.getD 1 ' ' = '-' then
    ⟨parseArgLoop (arg.data.drop 2) []⟩
  else ""

/-- The loop of `parseArgValue`, on the characters still to read, the flag `found_equals` and
the result so far. -/
def parseArgValueLoop : List Char → Bool → List Char → List Char
  | [], _, result => result
  | c :: rest, found_equals, result =>
    parseArgValueLoop rest (if c = '=' then true else found_equals)
      (if found_equals = true then result ++ [c] else result)

/-- The function `parseArgValue`: what follows the first `=` of an argument. -/
def parseArgValue (arg : String) : String :=
  ⟨parseArgValueLoop arg.data false []⟩

/-- The locals of `main` and the global `CUSTOM_PATH_DATA` it writes, with the lines it
prints. -/
structure Options where
  debug_event : Bool
  done : Bool
  render_device_name : String
  CUSTOM_PATH_DATA : String
  printed : List String
  deriving Repr, DecidableEq

/-- What `main` finds around it: the value of `CUSTOM_PATH_DATA` at start, what
`getVersionString()` returns, whether `init` returns (it ends the process with `exit(1)` when
the set-up fails) and whether `mainLoop` returns. -/
structure MainEnv where
  CUSTOM_PATH_DATA : String
  versionString : String
  initReturns : Bool
  mainLoopReturns : Bool

/-- The help text that `main` prints. -/
def helpText : String :=
  "--help           Prints this message.\n\n--version        Prints the release version.\n\n--data-path      Specifies an exact path to look for mod data.\n\n--debug-event    Prints verbose hardware input information.\n\n--renderer       Specifies the rendering backend to use. The default is 'sdl'.\n"

/-- The body of the loop of `main` over the arguments (source lines 268-292). -/
def mainArg (env : MainEnv) (o : Options) (arg : String) : Options :=
  if parseArg arg = "debug-event" then { o with debug_event := true }
  else if parseArg arg = "data-path" then
    let value := parseArgValue arg
    { o with CUSTOM_PATH_DATA :=
        if value ≠ "" ∧ value.data.getLast? ≠ some '/' then value ++ "/" else value }
  else if parseArg arg = "version" then
    { o with printed := o.printed ++ [env.versionString ++ "\n"], done := true }
  else if parseArg arg = "renderer" then { o with render_device_name := parseArgValue arg }
  else if parseArg arg = "help" then
    { o with printed := o.printed ++ [helpText], done := true }
  else o

/-- The loop of `main` over `argv[1..]`. -/
def mainParse (env : MainEnv) (args : List String) : Options :=
  args.foldl (mainArg env) ⟨false, false, "", env.CUSTOM_PATH_DATA, []⟩

/-- The three calls `main` makes after the arguments. -/
inductive MainCall where
  | init (render_device_name : String)
  | mainLoop (debug_event : Bool)
  | cleanup
  deriving Repr, DecidableEq

/-- How a run of `main` ends: it returns a value, the process exits inside `init`, or the loop
keeps running. -/
inductive Outcome where
  | returned (value : Int)
  | exited (status : Int)
  | running
  deriving Repr, DecidableEq

/-- What a run of `main` does: the options it parsed, the calls it made and how it ended. -/
structure MainRun where
  options : Options
  calls : List MainCall
  outcome : Outcome
  deriving Repr, DecidableEq

/-- The function `main`, on `argv[1..]`. -/
def main (env : MainEnv) (args : List String) : MainRun :=
  let o := mainParse env args
  if o.done = false then
    if env.initReturns = false then ⟨o, [.init o.render_device_name], .exited 1⟩
    else if env.mainLoopReturns = false then
      ⟨o, [.init o.render_device_name, .mainLoop o.debug_event], .running⟩
    else
      ⟨o, [.init o.render_device_name, .mainLoop o.debug_event, .cleanup], .returned 0⟩
  else ⟨o, [], .returned 0⟩

/-- The five flag names that `main` recognises. -/
def knownFlags : List String := ["debug-event", "data-path", "version", "renderer", "help"]

/-- An environment for examples in which the set-up succeeds and the player quits. -/
def plainMainEnv : MainEnv :=
  { CUSTOM_PATH_DATA := "", versionString := "Flare", initReturns := true,
    mainLoopReturns := true }

/-! ## The slots that the apply handler fills -/

/-- The slots that the apply handler fills, in the order in which it fills them. -/
def slotSequence : List Nat := [10, 11, 0, 1, 2]

/-- The powers that the apply handler places, in order: the non-zero entries of the four
transform power indexes, then the manual-untransform power when it is enabled and positive. -/
def placedPowers (power_index : Nat → Int) (manual_untransform : Bool)
    (untransform_power : Int) : List Int :=
  ([power_index 0, power_index 1, power_index 2, power_index 3].filter (fun p => p ≠ 0))
    ++ (if manual_untransform = true ∧ untransform_power > 0 then [untransform_power] else [])

/-- The pairs of a slot and the power placed in it. -/
def placements (power_index : Nat → Int) (manual_untransform : Bool)
    (untransform_power : Int) : List (Nat × Int) :=
  slotSequence.zip (placedPowers power_index manual_untransform untransform_power)

/-- The power that a list of placements puts in slot `i`, if any. -/
def slotValue : List (Nat × Int) → Nat → Option Int
  | [], _ => none
  | (k, v) :: rest, i => if i = k then some v else slotValue rest i

/-! ## The three deferred handlers of a tick -/

/-- The handler of `pc->setPowers` (source lines 859-885), the first half of
`transformBlock`. -/
def applyBlock (c : Collab) (r : Run) : Run :=
  if r.state.setPowers = true then
    (r.assign clearSetPowers).call .transformApply (c.run .transformApply)
  else r

/-- The handler of `pc->revertPowers` (source lines 887-899), the second half of
`transformBlock`. -/
def revertBlock (c : Collab) (r : Run) : Run :=
  if r.state.revertPowers = true then
    (r.assign clearRevertPowers).call .transformRevert (c.run .transformRevert)
  else r

/-- The run at the point where `logic()` reads `pc->setPowers`. -/
def atTransformCheck (c : Collab) (s : Play) : Run :=
  settleBlock c (drainBlock c (logicUntilPost c s))

/-- The run at the point where `logic()` reads `pc->revertPowers`. -/
def atRevertCheck (c : Collab) (s : Play) : Run :=
  applyBlock c (atTransformCheck c s)

/-- The steps that can run after `pc->setPowers` is read and whose effect is a parameter. -/
def deferredSteps : List Step :=
  [.transformApply, .transformRevert, .applyEquipment, .checkEquipmentChange,
    .activatePassives, .statsLogic, .statsRecalc, .setCursorNormal]

/-- One step of each deferred handler: the two action-bar handlers and the last call of the
respawn handler. -/
def handlerMarks : List Step := [.transformApply, .transformRevert, .statsRecalc]

/-- The collaborators of a tick leave the three one-shot flags alone in the steps that run
after the flags are read. -/
def keepsFlags (c : Collab) : Prop :=
  ∀ st ∈ deferredSteps, ∀ p : Play,
    (c.run st p).setPowers = p.setPowers ∧ (c.run st p).revertPowers = p.revertPowers ∧
    (c.run st p).respawn = p.respawn

/-! ## The pending scripted dialog over a session -/

/-- The members that the constructor of `GameStatePlay` initialises (source lines 68-79), over
the rest of the state: `npc_id(-1)`, `eventDialogOngoing(false)`, `eventPendingDialog(false)`
and `nearest_npc(-1)`. -/
def constructed (base : NPCState) : NPCState :=
  { base with npc_id := -1, eventDialogOngoing := false, eventPendingDialog := false,
              nearest_npc := -1 }

/-- One call of `logic()` as far as the NPC state goes: what the steps before
`checkNPCInteraction` do, whether the call is reached (the game is not paused and the avatar is
alive), the collaborators of the call, and what the steps after it do. -/
structure NPCTick where
  before : NPCState → NPCState
  reached : NPCState → Bool
  collab : NPCCollab
  after : NPCState → NPCState

/-- One tick on the NPC state. -/
def npcTick (t : NPCTick) (s : NPCState) : NPCState :=
  let s1 := t.before s
  t.after (if t.reached s1 = true then checkNPCInteraction t.collab s1 else s1)

/-- A session: ticks one after the other. -/
def npcTicks (ticks : List NPCTick) (s : NPCState) : NPCState :=
  ticks.foldl (fun st t => npcTick t st) s

/-- The other steps of a tick do not write `eventPendingDialog`: in the source the member is
written only by the constructor and by `checkNPCInteraction` (lines 76, 657 and 700). -/
def NPCTick.keepsPending (t : NPCTick) : Prop :=
  ∀ s : NPCState, (t.before s).eventPendingDialog = s.eventPendingDialog ∧
    (t.after s).eventPendingDialog = s.eventPendingDialog

/-- A tick for examples that reaches `checkNPCInteraction` with the map event naming the NPC
`elder`. -/
def elderTick : NPCTick :=
  { before := fun s => { s with event_npc := "elder" }, reached := fun _ => true,
    collab := plainNPCCollab, after := fun s => s }

/-! ## Saving the game during a tick (`checkCutscene`, `checkStash`, `checkCancel`) -/

/-- The reasons for which `GameStatePlay` calls `saveGame()`: source lines 783 (cutscene),
320 (new map), 752 (stash), 341 (exit menu) and 349 (window closed). -/
inductive SaveCause where
  | cutscene | newMap | stash | exitMenu | windowClosed
  deriving Repr, DecidableEq

/-- The member `requestedGameState`: as `logic()` found it, a new `GameStateTitle`, or a
`GameStateCutscene` that loaded `file` and has the given `game_slot`. -/
inductive Requested where
  | unchanged
  | title
  | cutscene (file : String) (game_slot : Int)
  deriving Repr, DecidableEq

/-- What the functions of this section do outside the state, in order: a call of `saveGame()`,
an assignment to `requestedGameState` made by `checkCutscene` or `checkCancel`, a call of
`Mix_HaltMusic()`, and a file effect of `checkTeleport`. -/
inductive SessionEffect where
  | saveGame (cause : SaveCause)
  | request (state : Requested)
  | haltMusic
  | file (e : FileEffect)
  deriving Repr, DecidableEq

/-- The cause of a save, for an effect that is one. -/
def SessionEffect.saveCause : SessionEffect → Option SaveCause
  | .saveGame cause => some cause
  | _ => none

/-- The saves among some effects, in order. -/
def saves (effects : List SessionEffect) : List SaveCause :=
  effects.filterMap SessionEffect.saveCause

/-- The part of the play state that `checkCutscene`, `checkTeleport`, `checkStash` and
`checkCancel` read and write.  The field `requested` is the member `requestedGameState`; the
field `requested_title` of the teleport part is its view for `checkTeleport`, set at the
call. -/
structure Session where
  tele : TeleportState
  requested : Requested
  /-- Member `mapr->cutscene`. -/
  cutscene : Bool
  /-- Member `mapr->cutscene_file`. -/
  cutscene_file : String
  /-- Member `mapr->stash`. -/
  map_stash : Bool
  /-- Member `menu->inv->visible`. -/
  inv_visible : Bool
  /-- Member `menu->stash->updated`. -/
  stash_updated : Bool
  /-- Member `pc->stats.alive`. -/
  alive : Bool
  /-- What `menu->requestingExit()` returns. -/
  requesting_exit : Bool
  /-- Member `inpt->done`. -/
  inpt_done : Bool
  exitRequested : Bool
  deriving Repr, DecidableEq

/-- The stretches of `logic()` between the four functions of this section: `menu->logic()` and
the gated block; `checkLootDrop` to `checkConsumable`; `checkNotifications`; and everything
after `checkCancel`.  None of them contains a call of `saveGame()`. -/
inductive SessionStep where
  | untilTeleport | untilStash | checkNotifications | afterCancel
  deriving Repr, DecidableEq

/-- The collaborators of a tick, as far as saving goes. -/
structure SessionCollab where
  tele : TeleportCollab
  /-- Whether `cutscene->load(file)` succeeds. -/
  cutsceneLoads : String → Bool
  /-- The function `floor` on points. -/
  floor : FPoint → FPoint
  /-- Whether `calcDist(pc->stats.pos, mapr->stash_pos) > INTERACT_RANGE`. -/
  stashFar : Session → Bool
  run : SessionStep → Session → Session

/-- A tick in progress: the state and the effects so far, oldest first. -/
structure SessionRun where
  state : Session
  effects : List SessionEffect

/-- A stretch of the tick that has no effect outside the state. -/
def SessionRun.step (r : SessionRun) (f : Session → Session) : SessionRun :=
  ⟨f r.state, r.effects⟩

/-- The respawn point that `checkCutscene` stores before it saves (source lines 771-781). -/
def cutsceneRespawn (c : SessionCollab) (t : TeleportState) : TeleportState :=
  if t.map_teleportation = true then
    let t1 : TeleportState :=
      if t.teleport_mapname ≠ "" then { t with respawn_map := t.teleport_mapname } else t
    { t1 with respawn_point := t1.map_destination }
  else { t with respawn_point := c.floor t.pos }

/-- The function `GameStatePlay::checkCutscene()`. -/
def checkCutscene (c : SessionCollab) (r : SessionRun) : SessionRun :=
  if r.state.cutscene = false then r
  else if c.cutsceneLoads r.state.cutscene_file = false then
    ⟨{ r.state with cutscene := false }, r.effects⟩
  else
    ⟨{ r.state with
        tele := cutsceneRespawn c r.state.tele
        requested := .cutscene r.state.cutscene_file r.state.tele.game_slot },
      r.effects ++ [.saveGame .cutscene,
        .request (.cutscene r.state.cutscene_file r.state.tele.game_slot)]⟩

/-- A file effect of `checkTeleport` as an effect of the tick. -/
def teleEffect : FileEffect → SessionEffect
  | .saveGame => .saveGame .newMap
  | e => .file e

/-- The state that `checkTeleport` sees: the teleport part, with the view of
`requestedGameState`. -/
def teleportView (s : Session) : TeleportState :=
  { s.tele with requested_title := decide (s.requested = .title) }

/-- The call of `checkTeleport` in a tick. -/
def sessionTeleport (c : SessionCollab) (r : SessionRun) : SessionRun :=
  let t := checkTeleport c.tele (teleportView r.state)
  ⟨{ r.state with
      tele := t.state
      requested := if t.state.requested_title = true then .title else r.state.requested },
    r.effects ++ t.effects.map teleEffect⟩

/-- Modelled from the spec: `MenuManager::closeAll` is not among the embedded sources; it
closes every menu. -/
def sessionCloseAll (s : Session) : Session :=
  { s with
    inv_visible := false
    tele := { s.tele with vendor_visible := false, talker_visible := false,
                          stash_visible := false, npc_visible := false } }

/-- The assignment `menu->stash->visible = false;` (the call `menu->resetDrag()` before it
drops what the mouse drags, which is not part of the state). -/
def hideStash (s : Session) : Session :=
  { s with tele := { s.tele with stash_visible := false } }

/-- The first part of `checkStash` (source lines 726-746): the stash menu opens on the map
event, and closes when the inventory is closed or the avatar walks away or dies. -/
def stashMenu (c : SessionCollab) (s : Session) : Session :=
  if s.map_stash = true then
    let s1 := sessionCloseAll s
    { s1 with inv_visible := true, tele := { s1.tele with stash_visible := true },
              map_stash := false }
  else if s.tele.stash_visible = true then
    let s1 := if s.inv_visible = false then hideStash s else s
    if c.stashFar s1 = true ∨ s1.alive = false then hideStash s1 else s1
  else s

/-- The function `GameStatePlay::checkStash()`. -/
def checkStash (c : SessionCollab) (r : SessionRun) : SessionRun :=
  let s1 := stashMenu c r.state
  if s1.stash_updated = true then
    ⟨{ s1 with stash_updated := false }, r.effects ++ [.saveGame .stash]⟩
  else ⟨s1, r.effects⟩

/-- The function `GameStatePlay::checkCancel()`. -/
def checkCancel (r : SessionRun) : SessionRun :=
  let r1 : SessionRun :=
    if r.state.requesting_exit = true then
      ⟨{ r.state with requested := .title },
        r.effects ++ [.saveGame .exitMenu, .haltMusic, .request .title]⟩
    else r
  if r1.state.inpt_done = true then
    ⟨{ r1.state with exitRequested := true }, r1.effects ++ [.saveGame .windowClosed, .haltMusic]⟩
  else r1

/-- The tick at the point where `logic()` calls `checkTeleport`. -/
def tickAtTeleport (c : SessionCollab) (s : Session) : SessionRun :=
  (checkCutscene c ⟨s, []⟩).step (c.run .untilTeleport)

/-- The tick at the point where `logic()` calls `checkStash`. -/
def tickAtStash (c : SessionCollab) (s : Session) : SessionRun :=
  (sessionTeleport c (tickAtTeleport c s)).step (c.run .untilStash)

/-- The tick at the point where `logic()` calls `checkCancel`. -/
def tickAtCancel (c : SessionCollab) (s : Session) : SessionRun :=
  (checkStash c (tickAtStash c s)).step (c.run .checkNotifications)

/-- One call of `logic()`, as far as saving goes: `checkCutscene`, then `checkTeleport`,
`checkStash` and `checkCancel` in this order, with the other steps between them. -/
def sessionTick (c : SessionCollab) (s : Session) : SessionRun :=
  (checkCancel (tickAtCancel c s)).step (c.run .afterCancel)

/-- Whether `checkTeleport` saves: the request names a new map and, after the map is loaded,
the avatar is not a permadeath corpse. -/
def savesOnNewMap (c : TeleportCollab) (t : TeleportState) : Prop :=
  namesNewMap t ∧
    ¬ ((enterNewMap c (teleportRelocate t)).permadeath = true ∧
        (enterNewMap c (teleportRelocate t)).corpse = true)

instance (c : TeleportCollab) (t : TeleportState) : Decidable (savesOnNewMap c t) := by
  unfold savesOnNewMap; infer_instance

/-- A session for examples: the example teleport state, no cutscene, the stash untouched, no
exit asked for. -/
def plainSession : Session :=
  { tele := plainTeleport, requested := .unchanged, cutscene := false,
    cutscene_file := "cutscenes/intro.txt", map_stash := false, inv_visible := false,
    stash_updated := false, alive := true, requesting_exit := false, inpt_done := false,
    exitRequested := false }

/-- Collaborators for examples: every cutscene loads, the stash is near, the other steps
change nothing. -/
def quietSessionCollab : SessionCollab :=
  { tele := quietTeleportCollab, cutsceneLoads := fun _ => true, floor := fun p => p,
    stashFar := fun _ => false, run := fun _ s => s }

/-! ## The layer stack of the avatar (`GameStatePlay::checkEquipmentChange`) -/

/-- The structure `Layer_gfx`: the graphic of a layer and the type of the layer. -/
structure Layer_gfx where
  gfx : String
  type : String
  deriving Repr, DecidableEq

/-- One slot of `menu->inv->inventory[EQUIPMENT]`: its entry in `slot_type` and the item in
it. -/
structure EquipSlot where
  slot_type : String
  item : Int
  deriving Repr, DecidableEq

/-- The part of the play state that `checkEquipmentChange` reads and writes: `layers` is what
`pc->loadGraphics` received last, `stepfx` what `pc->loadStepFX` received last. -/
structure Wardrobe where
  /-- Member `menu->inv->changed_equipment`. -/
  changed_equipment : Bool
  /-- Member `pc->layer_reference_order`. -/
  layer_reference_order : List String
  slots : List EquipSlot
  /-- Member `pc->stats.gfx_head`. -/
  gfx_head : String
  /-- Member `pc->stats.gfx_base`. -/
  gfx_base : String
  layers : List Layer_gfx
  stepfx : String
  deriving Repr, DecidableEq

/-- The collaborators of `checkEquipmentChange`: the fields `gfx` and `stepfx` of an item, and
whether `fileExists(mods->locate(path))` holds. -/
structure WardrobeCollab where
  itemGfx : Int → String
  itemStepfx : Int → String
  fileExists : String → Bool

/-- The inner loop of `checkEquipmentChange` over the equipment slots from index `i` on (source
lines 514-522), on `gfx` and `feet_index`. -/
def scanSlots (c : WardrobeCollab) (layer : String) :
    List EquipSlot → Nat → Layer_gfx × Int → Layer_gfx × Int
  | [], _, st => st
  | sl :: rest, i, st =>
    let gfx1 : Layer_gfx :=
      if layer = sl.slot_type then ⟨c.itemGfx sl.item, sl.slot_type⟩ else st.1
    let feet1 : Int := if sl.slot_type = "feet" then (i : Int) else st.2
    scanSlots c layer rest (i + 1) (gfx1, feet1)

/-- The file name of the default asset of a layer type for a base appearance. -/
def defaultPath (gfx_base type : String) : String :=
  "animations/avatar/" ++ gfx_base ++ "/default_" ++ type ++ ".txt"

/-- The body of the outer loop for one layer (source lines 511-533): the entry that is pushed
on `img_gfx`, and `feet_index`. -/
def layerEntry (c : WardrobeCollab) (slots : List EquipSlot) (gfx_head gfx_base : String)
    (layer : String) (feet_index : Int) : Layer_gfx × Int :=
  let st := scanSlots c layer slots 0 (⟨"", ""⟩, feet_index)
  let g1 : Layer_gfx := if st.1.gfx = "" ∧ layer = "head" then ⟨gfx_head, "head"⟩ else st.1
  let g2 : Layer_gfx :=
    if g1.gfx = "" then
      if c.fileExists (defaultPath gfx_base g1.type) = true then
        { g1 with gfx := "default_" ++ g1.type }
      else g1
    else g1
  (g2, st.2)

/-- The outer loop over `pc->layer_reference_order`, on `img_gfx` and `feet_index`. -/
def layerLoop (c : WardrobeCollab) (slots : List EquipSlot) (gfx_head gfx_base : String) :
    List String → List Layer_gfx × Int → List Layer_gfx × Int
  | [], st => st
  | layer :: rest, st =>
    let e := layerEntry c slots gfx_head gfx_base layer st.2
    layerLoop c slots gfx_head gfx_base rest (st.1 ++ [e.1], e.2)

/-- The function `GameStatePlay::checkEquipmentChange()`. -/
def checkEquipmentChange (c : WardrobeCollab) (w : Wardrobe) : Wardrobe :=
  if w.changed_equipment = true then
    let r := layerLoop c w.slots w.gfx_head w.gfx_base w.layer_reference_order ([], -1)
    let w1 : Wardrobe := { w with layers := r.1 }
    let w2 : Wardrobe :=
      if r.2 ≠ -1 then
        { w1 with stepfx := c.itemStepfx (w.slots.getD r.2.toNat ⟨"", 0⟩).item }
      else w1
    { w2 with changed_equipment := false }
  else w

/-- The slot of a layer's type; when several slots have this type, the last of them. -/
def equippedSlot (layer : String) : List EquipSlot → Option EquipSlot
  | [] => none
  | sl :: rest =>
    match equippedSlot layer rest with
    | some x => some x
    | none => if sl.slot_type = layer then some sl else none

/-- The graphic of the item equipped in the slot of a layer's type, empty if there is none. -/
def equippedGfx (c : WardrobeCollab) (w : Wardrobe) (layer : String) : String :=
  match equippedSlot layer w.slots with
  | some sl => c.itemGfx sl.item
  | none => ""

/-- The graphic of a layer in the words of the claim: the graphic of the equipped item, or, if
there is none, the portrait head graphic for the layer `head`, otherwise `default_<layer name>`
if that default asset exists for the base appearance, otherwise empty. -/
def claimedGfx (c : WardrobeCollab) (w : Wardrobe) (layer : String) : String :=
  if equippedGfx c w layer ≠ "" then equippedGfx c w layer
  else if layer = "head" ∧ w.gfx_head ≠ "" then w.gfx_head
  else if c.fileExists (defaultPath w.gfx_base layer) = true then "default_" ++ layer
  else ""

/-- An avatar for examples: slots for head and feet, boots (item 7) on the feet, the layers
feet and head to display. -/
def plainWardrobe : Wardrobe :=
  { changed_equipment := true, layer_reference_order := ["feet", "head"],
    slots := [⟨"head", 0⟩, ⟨"feet", 7⟩], gfx_head := "head_short", gfx_base := "male",
    layers := [], stepfx := "" }

/-- Collaborators for examples: item 7 has the graphic `leather_boots`, no other item has one;
the base appearance `male` has default assets for the layers `cape` and `chest`. -/
def plainWardrobeCollab : WardrobeCollab :=
  { itemGfx := fun i => if i = 7 then "leather_boots" else "",
    itemStepfx := fun i => if i = 7 then "step_leather" else "",
    fileExists := fun p =>
      p = "animations/avatar/male/default_cape.txt"
        || p = "animations/avatar/male/default_chest.txt" }

/-! ## Theorems -/

/-- Helper: on each of the ten recognised names the stat branch of `checkTitle` lets the rule
through exactly when the named group is dominant. -/
theorem primaryStatSkips_name (s : StatBlock) (g : StatGroup) :
    primaryStatSkips s g.name = false ↔ dominant s g := by
  cases g <;>
    simp [primaryStatSkips, StatGroup.name, dominant, StatGroup.siblings, StatGroup.singles,
      StatGroup.pairs, StatGroup.value, List.filter] <;>
    omega

/-- Helper: a string that is none of the ten recognised names never makes the stat branch skip
a rule. -/
theorem primaryStatSkips_unnamed (s : StatBlock) (n : String) (h : ∀ g : StatGroup, g.name ≠ n) :
    primaryStatSkips s n = false := by
  have h1 := h .physical
  have h2 := h .mental
  have h3 := h .offense
  have h4 := h .defense
  have h5 := h .physoff
  have h6 := h .physment
  have h7 := h .physdef
  have h8 := h .mentoff
  have h9 := h .offdef
  have h10 := h .mentdef
  simp only [StatGroup.name] at h1 h2 h3 h4 h5 h6 h7 h8 h9 h10
  simp [primaryStatSkips, Ne.symm h1, Ne.symm h2, Ne.symm h3, Ne.symm h4, Ne.symm h5,
    Ne.symm h6, Ne.symm h7, Ne.symm h8, Ne.symm h9, Ne.symm h10]

/-- Helper: looking a group up by its own name finds it. -/
theorem ofName_name (g : StatGroup) : StatGroup.ofName g.name = some g := by
  cases g <;> decide

/-- Helper: a successful lookup returns the group that carries the name. -/
theorem ofName_some {n : String} {g : StatGroup} (h : StatGroup.ofName n = some g) :
    g.name = n := by
  have := List.find?_some h
  simpa using this

/-- Helper: the stat branch lets a rule through exactly when the group its string names, if
any, is dominant. -/
theorem primaryStatSkips_false_iff (s : StatBlock) (n : String) :
    primaryStatSkips s n = false ↔ ∀ g, StatGroup.ofName n = some g → dominant s g := by
  by_cases hn : ∃ g : StatGroup, g.name = n
  · obtain ⟨g, rfl⟩ := hn
    rw [primaryStatSkips_name]
    constructor
    · intro hd g2 hg2
      rw [ofName_name] at hg2
      cases hg2
      exact hd
    · intro hall
      exact hall g (ofName_name g)
  · have hn2 : ∀ g : StatGroup, g.name ≠ n := fun g hg => hn ⟨g, hg⟩
    rw [primaryStatSkips_unnamed s n hn2]
    constructor
    · intro _ g hg
      exact absurd (ofName_some hg) (hn2 g)
    · intro _
      rfl

/-- Helper: the loop body reaches `title_id = i` exactly on the rules that are satisfied in the
sense of the specification. -/
theorem titleSkipped_false_iff (checkStatus : String → Bool) (s : StatBlock) (t : Title) :
    titleSkipped checkStatus s t = false ↔ satisfies checkStatus s t := by
  unfold titleSkipped satisfies
  rw [← primaryStatSkips_false_iff]
  by_cases h0 : t.title = ""
  · rw [if_pos h0]
    constructor
    · intro h; cases h
    · intro h; exact absurd h0 h.1
  rw [if_neg h0]
  by_cases h1 : t.level > 0 ∧ s.level < t.level
  · rw [if_pos h1]
    constructor
    · intro h; cases h
    · rintro ⟨_, h, _⟩
      have := h h1.1
      omega
  rw [if_neg h1]
  by_cases h2 : t.power > 0 ∧ ¬ (t.power ∈ s.powers_list)
  · rw [if_pos h2]
    constructor
    · intro h; cases h
    · rintro ⟨_, _, h, _⟩
      exact absurd (h h2.1) h2.2
  rw [if_neg h2]
  by_cases h3 : t.requires_status ≠ "" ∧ checkStatus t.requires_status = false
  · rw [if_pos h3]
    constructor
    · intro h; cases h
    · rintro ⟨_, _, _, h, _⟩
      have h5 := h h3.1
      have h6 := h3.2
      rw [h5] at h6
      cases h6
  rw [if_neg h3]
  by_cases h4 : t.requires_not ≠ "" ∧ checkStatus t.requires_not = true
  · rw [if_pos h4]
    constructor
    · intro h; cases h
    · rintro ⟨_, _, _, _, h, _⟩
      have h5 := h h4.1
      have h6 := h4.2
      rw [h5] at h6
      cases h6
  rw [if_neg h4]
  constructor
  · intro h
    refine ⟨h0, ?_, ?_, ?_, ?_, h⟩
    · intro hl
      by_contra hc
      exact h1 ⟨hl, by omega⟩
    · intro hp
      by_contra hc
      exact h2 ⟨hp, hc⟩
    · intro hr
      by_contra hc
      exact h3 ⟨hr, by simpa using hc⟩
    · intro hr
      by_contra hc
      exact h4 ⟨hr, by simpa using hc⟩
  · intro h
    exact h.2.2.2.2.2

/-- Helper: the loop stops at the first rule, counted from its start index, that is not
skipped. -/
theorem titleLoop_first (checkStatus : String → Bool) (s : StatBlock) :
    ∀ (l : List Title) (k i : Nat) (t : Title), l[i]? = some t →
      titleSkipped checkStatus s t = false →
      (∀ j tj, j < i → l[j]? = some tj → titleSkipped checkStatus s tj = true) →
      titleLoop checkStatus s l k = ((k + i : Nat) : Int) := by
  intro l
  induction l with
  | nil => intro k i t h; simp at h
  | cons a rest ih =>
    intro k i t hi ht hbefore
    cases i with
    | zero =>
      simp at hi
      subst hi
      simp [titleLoop, ht]
    | succ i =>
      have ha : titleSkipped checkStatus s a = true := hbefore 0 a (Nat.succ_pos i) (by simp)
      simp only [titleLoop, ha, if_true]
      rw [ih (k + 1) i t (by simpa using hi) ht]
      · congr 1; omega
      · intro j tj hj hjt
        exact hbefore (j + 1) tj (by omega) (by simpa using hjt)

/-- Helper: when every rule is skipped the loop leaves `title_id` at `-1`. -/
theorem titleLoop_none (checkStatus : String → Bool) (s : StatBlock) :
    ∀ (l : List Title) (k : Nat), (∀ t ∈ l, titleSkipped checkStatus s t = true) →
      titleLoop checkStatus s l k = -1 := by
  intro l
  induction l with
  | nil => intro k _; rfl
  | cons a rest ih =>
    intro k h
    simp only [titleLoop, h a (List.mem_cons_self a rest), if_true]
    exact ih (k + 1) (fun t ht => h t (List.mem_cons_of_mem a ht))

/-- Claim C1. With the recheck flag set, if some rule is satisfied (non-empty title and every
specified predicate holds), `checkTitle` sets `character_class` to the title of the satisfied
rule of lowest index, whatever the later rules are. -/
theorem checkTitle_first_satisfied_wins (checkStatus : String → Bool) (titles : List Title)
    (s : StatBlock) (i : Nat) (t : Title)
    (hflag : s.check_title = true)
    (hi : titles[i]? = some t)
    (hsat : satisfies checkStatus s t)
    (hfirst : ∀ j tj, j < i → titles[j]? = some tj → ¬ satisfies checkStatus s tj) :
    (checkTitle checkStatus titles s).character_class = t.title := by
  have hloop : titleLoop checkStatus s titles 0 = (i : Int) := by
    have := titleLoop_first checkStatus s titles 0 i t hi
      ((titleSkipped_false_iff checkStatus s t).mpr hsat)
      (fun j tj hj hjt => by
        have := hfirst j tj hj hjt
        rw [← titleSkipped_false_iff] at this
        simpa using this)
    simpa using this
  have hne : titles.isEmpty = false := by
    cases titles with
    | nil => simp at hi
    | cons a l => rfl
  have hi1 : ((i : Int) = -1) = False := by
    apply eq_false
    omega
  simp [checkTitle, hflag, hne, hloop, hi, hi1]

/-- Witness for C1: three rules, the first unsatisfied (level too low), the second and third
both satisfied; the second wins. -/
theorem checkTitle_first_satisfied_wins_witness :
    (checkTitle (fun _ => false)
      [{ title := "Archmage", level := 9 }, { title := "Brute", primary_stat := "physical" },
        { title := "Novice" }]
      { level := 3, powers_list := [], physical := 5, mental := 1, offense := 2, defense := 2,
        physoff := 7, physment := 6, physdef := 7, mentoff := 3, offdef := 4, mentdef := 3,
        character_class := "", check_title := true, refresh_stats := false }).character_class
      = "Brute" :=
  checkTitle_first_satisfied_wins (fun _ => false)
    [{ title := "Archmage", level := 9 }, { title := "Brute", primary_stat := "physical" },
      { title := "Novice" }]
    { level := 3, powers_list := [], physical := 5, mental := 1, offense := 2, defense := 2,
      physoff := 7, physment := 6, physdef := 7, mentoff := 3, offdef := 4, mentdef := 3,
      character_class := "", check_title := true, refresh_stats := false }
    1 { title := "Brute", primary_stat := "physical" } rfl rfl (by decide)
    (by
      intro j tj hj hjt
      have hj0 : j = 0 := by omega
      subst hj0
      simp at hjt
      subst hjt
      decide)

/-- Claim C2. For each of the ten recognised primary-stat names, `checkTitle` lets a rule pass
its stat test exactly when the named group is strictly greater than every sibling (the other
three single stats, or the other five pairs); a tie with any sibling makes the rule skip; and a
rule carrying the name is accepted exactly when the same rule without a primary stat is accepted
and the group is dominant. -/
theorem checkTitle_primary_stat_strict (checkStatus : String → Bool) (s : StatBlock)
    (t : Title) (g : StatGroup) :
    (primaryStatSkips s g.name = false ↔ ∀ h ∈ g.siblings, h.value s < g.value s) ∧
    (∀ h ∈ g.siblings, h.value s = g.value s → primaryStatSkips s g.name = true) ∧
    (g.siblings = (if g ∈ StatGroup.singles then StatGroup.singles else StatGroup.pairs).erase g) ∧
    (titleSkipped checkStatus s { t with primary_stat := g.name } = false ↔
      titleSkipped checkStatus s { t with primary_stat := "" } = false ∧
        ∀ h ∈ g.siblings, h.value s < g.value s) := by
  have hdom := primaryStatSkips_name s g
  refine ⟨hdom, ?_, ?_, ?_⟩
  · intro h hh heq
    by_contra hc
    have hc2 : primaryStatSkips s g.name = false := by simpa using hc
    have := hdom.mp hc2 h hh
    omega
  · cases g <;> decide
  · have hempty : primaryStatSkips s "" = false := by simp [primaryStatSkips]
    unfold titleSkipped
    simp only [hempty]
    by_cases h0 : t.title = ""
    · simp [h0]
    by_cases h1 : t.level > 0 ∧ s.level < t.level
    · simp [h0, h1]
    by_cases h2 : t.power > 0 ∧ ¬ (t.power ∈ s.powers_list)
    · simp [h0, h1, h2]
    by_cases h3 : t.requires_status ≠ "" ∧ checkStatus t.requires_status = false
    · simp [h0, h1, h2, h3]
    by_cases h4 : t.requires_not ≠ "" ∧ checkStatus t.requires_not = true
    · simp [h0, h1, h2, h3, h4]
    simp only [h0, h1, h2, h3, h4, if_false, true_and]
    exact hdom

/-- Helper: with a positive delay, no tick is due when the reference time has caught up. -/
theorem elapsedTicks_of_le {now_ticks logic_ticks delay : Int} (hd : 0 < delay)
    (h : now_ticks ≤ logic_ticks) : elapsedTicks now_ticks logic_ticks delay = 0 := by
  unfold elapsedTicks
  have hq : (((now_ticks - logic_ticks : Int) : ℚ) / (delay : ℚ)) ≤ ((0 : Int) : ℚ) := by
    have h1 : ((now_ticks - logic_ticks : Int) : ℚ) ≤ 0 := by
      have : now_ticks - logic_ticks ≤ 0 := by omega
      exact_mod_cast this
    have h2 : (0 : ℚ) < (delay : ℚ) := by exact_mod_cast hd
    simpa using div_nonpos_of_nonpos_of_nonneg h1 h2.le
  have := Int.ceil_le.mpr hq
  omega

/-- Helper: with a positive delay, while the reference time is behind, one more tick is due
than after advancing it by the delay. -/
theorem elapsedTicks_of_lt {now_ticks logic_ticks delay : Int} (hd : 0 < delay)
    (h : logic_ticks < now_ticks) :
    elapsedTicks now_ticks logic_ticks delay
      = elapsedTicks now_ticks (logic_ticks + delay) delay + 1 := by
  unfold elapsedTicks
  have h2 : (0 : ℚ) < (delay : ℚ) := by exact_mod_cast hd
  have hsplit : (((now_ticks - (logic_ticks + delay) : Int) : ℚ) / (delay : ℚ))
      = (((now_ticks - logic_ticks : Int) : ℚ) / (delay : ℚ)) - 1 := by
    push_cast
    field_simp
    ring
  rw [hsplit, Int.ceil_sub_one]
  have hpos : 0 < Int.ceil (((now_ticks - logic_ticks : Int) : ℚ) / (delay : ℚ)) := by
    rw [Int.ceil_pos]
    apply div_pos _ h2
    have : 0 < now_ticks - logic_ticks := by omega
    exact_mod_cast this
  omega

/-- Helper: the loop of `simulate`, started in any loop state, when no check along the way
reports a loading frame. -/
theorem simulateLoop_no_loading {σ : Type} (h : Host σ) (debug_event : Bool)
    (delay now_ticks : Int) (hd : 0 < delay) :
    ∀ (remaining : Nat) (logic_ticks : Int) (loops : Nat) (w : σ),
      (∀ k, k < remaining → (h.isLoadingFrame ((h.pass debug_event)^[k] w)).1 = false) →
      simulateLoop h debug_event delay now_ticks remaining logic_ticks loops w
        = ⟨logic_ticks + delay * (min (elapsedTicks now_ticks logic_ticks delay) remaining : Nat),
            loops + min (elapsedTicks now_ticks logic_ticks delay) remaining,
            (h.pass debug_event)^[min (elapsedTicks now_ticks logic_ticks delay) remaining] w⟩ := by
  intro remaining
  induction remaining with
  | zero =>
    intro logic_ticks loops w _
    simp [simulateLoop]
  | succ n ih =>
    intro logic_ticks loops w hno
    by_cases hlag : now_ticks > logic_ticks
    · have h0 : (h.isLoadingFrame w).1 = false := by simpa using hno 0 (Nat.succ_pos n)
      have hstep := elapsedTicks_of_lt hd hlag
      have hrest : ∀ k, k < n →
          (h.isLoadingFrame ((h.pass debug_event)^[k] (h.pass debug_event w))).1 = false := by
        intro k hk
        have := hno (k + 1) (by omega)
        simpa [Function.iterate_succ_apply] using this
      have hmin : min (elapsedTicks now_ticks logic_ticks delay) (n + 1)
          = min (elapsedTicks now_ticks (logic_ticks + delay) delay) n + 1 := by
        rw [hstep]; omega
      simp only [simulateLoop, hlag, if_true, h0]
      rw [show h.tick debug_event (h.isLoadingFrame w).2 = h.pass debug_event w from rfl,
        ih (logic_ticks + delay) (loops + 1) (h.pass debug_event w) hrest, hmin]
      simp only [Function.iterate_succ_apply, Bool.false_eq_true, if_false, SimResult.mk.injEq,
        and_true]
      constructor
      · push_cast; ring
      · omega
    · have hz := elapsedTicks_of_le hd (not_lt.mp hlag)
      simp [simulateLoop, hlag, hz]

/-- Helper: the loop of `simulate`, started in any loop state, when the check of pass `k`
(counting from the current one) is the first to report a loading frame and the reference time
is still behind at each of these passes. -/
theorem simulateLoop_loading {σ : Type} (h : Host σ) (debug_event : Bool)
    (delay now_ticks : Int) :
    ∀ (k remaining : Nat) (logic_ticks : Int) (loops : Nat) (w : σ),
      k < remaining →
      (∀ j, j ≤ k → now_ticks > logic_ticks + delay * (j : Int)) →
      (∀ j, j < k → (h.isLoadingFrame ((h.pass debug_event)^[j] w)).1 = false) →
      (h.isLoadingFrame ((h.pass debug_event)^[k] w)).1 = true →
      simulateLoop h debug_event delay now_ticks remaining logic_ticks loops w
        = ⟨now_ticks, loops + k, (h.isLoadingFrame ((h.pass debug_event)^[k] w)).2⟩ := by
  intro k
  induction k with
  | zero =>
    intro remaining logic_ticks loops w hk hlag _ hload
    obtain ⟨n, rfl⟩ : ∃ n, remaining = n + 1 := ⟨remaining - 1, by omega⟩
    have h0 : now_ticks > logic_ticks := by simpa using hlag 0 (le_refl 0)
    have hl : (h.isLoadingFrame w).1 = true := by simpa using hload
    simp [simulateLoop, h0, hl]
  | succ k ih =>
    intro remaining logic_ticks loops w hk hlag hbefore hload
    obtain ⟨n, rfl⟩ : ∃ n, remaining = n + 1 := ⟨remaining - 1, by omega⟩
    have h0 : now_ticks > logic_ticks := by simpa using hlag 0 (Nat.zero_le _)
    have hl : (h.isLoadingFrame w).1 = false := by simpa using hbefore 0 (Nat.succ_pos k)
    simp only [simulateLoop, h0, if_true, hl]
    rw [show h.tick debug_event (h.isLoadingFrame w).2 = h.pass debug_event w from rfl,
      ih n (logic_ticks + delay) (loops + 1) (h.pass debug_event w) (by omega)]
    · simp only [Function.iterate_succ_apply, Bool.false_eq_true, if_false, SimResult.mk.injEq,
        and_true, true_and]
      omega
    · intro j hj
      have := hlag (j + 1) (by omega)
      push_cast at this
      linarith
    · intro j hj
      have := hbefore (j + 1) (by omega)
      simpa [Function.iterate_succ_apply] using this
    · simpa [Function.iterate_succ_apply] using hload

/-- Helper: in the runs covered by the tick count, the reference time that `simulate` returns
stays below `now_ticks + delay` whenever a tick is due, so every intermediate value of
`logic_ticks` lies between its initial value and `now_ticks + delay`: no addition overflows
when these two fit the machine type. -/
theorem simulate_stays_below {σ : Type} (h : Host σ) (MAX_FRAMES_PER_SEC : Nat)
    (logic_ticks : Int) (debug_event : Bool) (delay : Int) (w : σ)
    (hdelay : 0 < delay) (hlag : logic_ticks < h.getTicks w)
    (hno : ∀ k, k < MAX_FRAMES_PER_SEC →
      (h.isLoadingFrame ((h.pass debug_event)^[k] w)).1 = false) :
    logic_ticks ≤ (simulate h MAX_FRAMES_PER_SEC logic_ticks debug_event delay w).logic_ticks ∧
    (simulate h MAX_FRAMES_PER_SEC logic_ticks debug_event delay w).logic_ticks
      < h.getTicks w + delay := by
  have hrun := simulateLoop_no_loading h debug_event delay (h.getTicks w) hdelay
    MAX_FRAMES_PER_SEC logic_ticks 0 w hno
  unfold simulate
  rw [hrun]
  simp only
  have hd : (0 : ℚ) < (delay : ℚ) := by exact_mod_cast hdelay
  have hceil := Int.ceil_lt_add_one (((h.getTicks w - logic_ticks : Int) : ℚ) / (delay : ℚ))
  have hpos : 0 < Int.ceil (((h.getTicks w - logic_ticks : Int) : ℚ) / (delay : ℚ)) := by
    rw [Int.ceil_pos]
    apply div_pos _ hd
    have : 0 < h.getTicks w - logic_ticks := by omega
    exact_mod_cast this
  have hq : ((Int.ceil (((h.getTicks w - logic_ticks : Int) : ℚ) / (delay : ℚ)) : Int) : ℚ)
      * (delay : ℚ) < ((h.getTicks w - logic_ticks : Int) : ℚ) + (delay : ℚ) := by
    have h1 := mul_lt_mul_of_pos_right hceil hd
    rw [add_mul, div_mul_cancel₀ _ (ne_of_gt hd), one_mul] at h1
    exact h1
  have hz : Int.ceil (((h.getTicks w - logic_ticks : Int) : ℚ) / (delay : ℚ)) * delay
      < (h.getTicks w - logic_ticks) + delay := by
    exact_mod_cast hq
  have he : ((elapsedTicks (h.getTicks w) logic_ticks delay : Nat) : Int)
      = Int.ceil (((h.getTicks w - logic_ticks : Int) : ℚ) / (delay : ℚ)) := by
    unfold elapsedTicks
    exact Int.toNat_of_nonneg hpos.le
  have hmin : ((min (elapsedTicks (h.getTicks w) logic_ticks delay) MAX_FRAMES_PER_SEC : Nat)
      : Int) ≤ (elapsedTicks (h.getTicks w) logic_ticks delay : Int) := by
    exact_mod_cast Nat.min_le_left _ _
  have hnn : (0 : Int)
      ≤ ((min (elapsedTicks (h.getTicks w) logic_ticks delay) MAX_FRAMES_PER_SEC : Nat) : Int) :=
    Int.ofNat_nonneg _
  constructor
  · nlinarith
  · rw [he] at hmin
    nlinarith

/-- Claim C4. If the check of pass `k` of the loop is the first to report a loading frame,
while the reference time is still behind `now_ticks` and fewer than `MAX_FRAMES_PER_SEC` ticks
have run, then `simulate` runs no tick after the `k` it has run, leaves the world as that check
left it, and returns exactly `now_ticks`. -/
theorem simulate_loading_frame {σ : Type} (h : Host σ) (MAX_FRAMES_PER_SEC : Nat)
    (logic_ticks : Int) (debug_event : Bool) (delay : Int) (w : σ) (k : Nat)
    (hk : k < MAX_FRAMES_PER_SEC)
    (hlag : ∀ j, j ≤ k → h.getTicks w > logic_ticks + delay * (j : Int))
    (hbefore : ∀ j, j < k → (h.isLoadingFrame ((h.pass debug_event)^[j] w)).1 = false)
    (hload : (h.isLoadingFrame ((h.pass debug_event)^[k] w)).1 = true) :
    simulate h MAX_FRAMES_PER_SEC logic_ticks debug_event delay w
      = ⟨h.getTicks w, k, (h.isLoadingFrame ((h.pass debug_event)^[k] w)).2⟩ := by
  unfold simulate
  rw [simulateLoop_loading h debug_event delay (h.getTicks w) k MAX_FRAMES_PER_SEC logic_ticks 0
    w hk hlag hbefore hload]
  simp

/-- Witness for C4: the loading mark is already set when `simulate` is entered 500 ms behind;
no tick runs and the reference time becomes 500. -/
theorem simulate_loading_frame_witness :
    simulate scriptedHost 60 0 false 17 ⟨500, true, []⟩ = ⟨500, 0, ⟨500, false, []⟩⟩ :=
  simulate_loading_frame scriptedHost 60 0 false 17 ⟨500, true, []⟩ 0 (by decide)
    (by intro j hj; have hj0 : j = 0 := by omega
        subst hj0; decide)
    (by intro j hj; omega)
    rfl

/-- Claim C5 (the code departs from it). A load performed by the first tick of a multi-tick
catch-up batch (the loop is 40 ms behind) is followed by 1 tick in the next pass when the load
took no time and by 59 ticks when it took 1000 ms, whereas a load performed by the only tick
of its batch (10 ms behind) is followed by no tick in either case. -/
theorem load_inside_batch_is_compensated :
    ticksAroundLoad 40 0 = [1, 1, 1] ∧ ticksAroundLoad 40 1000 = [1, 59, 1] ∧
    ticksAroundLoad 10 0 = [1, 0, 1] ∧ ticksAroundLoad 10 1000 = [1, 0, 1] := by
  refine ⟨?_, ?_, ?_, ?_⟩ <;> decide

/-! ### The checks that drain the drop stacks and the mailboxes -/

/-- Helper: a drain loop empties its queue and records, in queue order, the stacks whose item
id is positive. -/
theorem dropLoop_eq (pos : FPoint) :
    ∀ (q : List ItemStack) (added : List LootDrop),
      dropLoop pos q added
        = ([], added ++ (q.filter (fun st => decide (st.item > 0))).map
            (fun st => (⟨st, pos, true⟩ : LootDrop))) := by
  intro q
  induction q with
  | nil => intro added; simp [dropLoop]
  | cons a rest ih =>
    intro added
    by_cases ha : a.item > 0
    · simp [dropLoop, ih, ha, List.filter_cons]
    · simp [dropLoop, ih, ha, List.filter_cons]

/-- Claim C9. `checkLootDrop` is a total function that leaves the three drop stacks empty, and
the `addLoot` calls it makes are exactly the queued stacks with a positive item id, each at the
position of the avatar, in queue order, the menu stack first, then the campaign stack, then the
inventory stack; entries whose item id is not positive produce no call. -/
theorem checkLootDrop_drains (s : Play) :
    (checkLootDrop s).menu_drop_stack = [] ∧
    (checkLootDrop s).camp_drop_stack = [] ∧
    (checkLootDrop s).inv_drop_stack = [] ∧
    (checkLootDrop s).loot_added
      = s.loot_added ++
        ((s.menu_drop_stack ++ s.camp_drop_stack ++ s.inv_drop_stack).filter
          (fun st => decide (st.item > 0))).map (fun st => (⟨st, s.pos, true⟩ : LootDrop)) := by
  simp [checkLootDrop, dropLoop_eq, List.filter_append]

/-- Claim C10. After `checkLog` the five pending log fields are empty; the message log has
received, once each and in this order, the non-empty ones among the map, avatar and campaign
messages; the HUD log (cleared first when the avatar has just respawned) has received, once
each and in this order, the non-empty ones among the map, avatar, campaign, inventory and power
messages; an empty field forwards nothing. -/
theorem checkLog_forwards (s : Play) :
    (checkLog s).map_log_msg = "" ∧ (checkLog s).pc_log_msg = "" ∧
    (checkLog s).camp_log_msg = "" ∧ (checkLog s).inv_log_msg = "" ∧
    (checkLog s).powers_log_msg = "" ∧
    (checkLog s).log
      = s.log ++ [s.map_log_msg, s.pc_log_msg, s.camp_log_msg].filter (fun m => decide (m ≠ "")) ∧
    (checkLog s).hudlog
      = (if s.respawn = true then [] else s.hudlog) ++
        [s.map_log_msg, s.pc_log_msg, s.camp_log_msg, s.inv_log_msg, s.powers_log_msg].filter
          (fun m => decide (m ≠ "")) := by
  by_cases hr : s.respawn = true <;> by_cases h1 : s.map_log_msg = "" <;>
    by_cases h2 : s.pc_log_msg = "" <;> by_cases h3 : s.camp_log_msg = "" <;>
    by_cases h4 : s.inv_log_msg = "" <;> by_cases h5 : s.powers_log_msg = "" <;>
    simp [checkLog, hr, h1, h2, h3, h4, h5, List.filter_cons]

/-! ### The order of the calls in a tick -/

/-- Helper: a call adds its step at the end of the trace. -/
theorem Run.call_trace (r : Run) (st : Step) (f : Play → Play) :
    (r.call st f).trace = r.trace ++ [st] := rfl

/-- Helper: a call applies its effect to the state. -/
theorem Run.call_state (r : Run) (st : Step) (f : Play → Play) :
    (r.call st f).state = f r.state := rfl

/-- Helper: an assignment leaves the trace alone. -/
theorem Run.assign_trace (r : Run) (f : Play → Play) : (r.assign f).trace = r.trace := rfl

/-- Helper: an assignment applies to the state. -/
theorem Run.assign_state (r : Run) (f : Play → Play) : (r.assign f).state = f r.state := rfl

/-- Helper: the calls the gated block adds to the trace. -/
theorem gatedBlock_trace (c : Collab) (r : Run) :
    ∃ alive_npc transform : Bool,
      (gatedBlock c r).trace = r.trace ++ gatedTrace r.state.alive alive_npc transform ∧
      (r.state.alive = true →
        alive_npc = (c.run .checkEnemyFocus (checkLoot c r.state)).alive) := by
  unfold gatedBlock
  dsimp only
  split_ifs with h1 h2 h3 h3 h2 h3 h3
  all_goals simp only [Run.call_state] at *
  all_goals simp only [Run.call_trace]
  all_goals
    first
    | (refine ⟨true, true, ?_, ?_⟩
       · simp [gatedTrace, h1]
       · intro hh; first | exact absurd hh h1 | simp [h2])
    | (refine ⟨true, false, ?_, ?_⟩
       · simp [gatedTrace, h1]
       · intro hh; first | exact absurd hh h1 | simp [h2])
    | (refine ⟨false, true, ?_, ?_⟩
       · simp [gatedTrace, h1]
       · intro hh; first | exact absurd hh h1 | simp [h2])
    | (refine ⟨false, false, ?_, ?_⟩
       · simp [gatedTrace, h1]
       · intro hh; first | exact absurd hh h1 | simp [h2])

/-- Helper: the calls of a tick up to the block that runs paused or not. -/
theorem logicUntilPost_trace (c : Collab) (s : Play) :
    ∃ alive_npc transform closing : Bool,
      (logicUntilPost c s).trace
        = preTrace (atPauseCheck c s).pause (atPauseCheck c s).alive alive_npc transform closing ∧
      ((atPauseCheck c s).alive = true → alive_npc = (atNPCCheck c s).alive) := by
  obtain ⟨a, t, hg, ha⟩ := gatedBlock_trace c
    (((⟨s, []⟩ : Run).call .checkCutscene (c.run .checkCutscene)).call .menuLogic
      (c.run .menuLogic))
  unfold logicUntilPost
  dsimp only
  by_cases hp : (atPauseCheck c s).pause = true
  · have hp2 : (((⟨s, []⟩ : Run).call .checkCutscene (c.run .checkCutscene)).call .menuLogic
        (c.run .menuLogic)).state.pause = true := hp
    simp only [hp2, Bool.true_eq_false, if_false]
    split_ifs with h1
    · exact ⟨a, t, true, by simp [preTrace, hp, Run.call_trace, Run.assign_trace], ha⟩
    · exact ⟨a, t, false, by simp [preTrace, hp, Run.call_trace], ha⟩
  · have hp2 : (((⟨s, []⟩ : Run).call .checkCutscene (c.run .checkCutscene)).call .menuLogic
        (c.run .menuLogic)).state.pause = false := by simpa [atPauseCheck, Run.call_state] using hp
    have hp3 : (c.run .menuLogic (c.run .checkCutscene s)).pause = false := hp2
    simp only [hp2, if_true]
    split_ifs with h1
    · refine ⟨a, t, true, ?_, ha⟩
      rw [Run.call_trace, Run.assign_trace, hg]
      simp [preTrace, hp3, Run.call_trace, atPauseCheck, Run.call_state]
    · refine ⟨a, t, false, ?_, ha⟩
      rw [hg]
      simp [preTrace, hp3, Run.call_trace, atPauseCheck, Run.call_state]

/-- Helper: the calls of the drain block and of the settle block. -/
theorem settle_drain_trace (c : Collab) (r : Run) :
    (settleBlock c (drainBlock c r)).trace = r.trace ++ postBlockSteps := by
  simp [settleBlock, drainBlock, Run.call_trace, postBlockSteps]

/-- Helper: the calls of the two action-bar handlers. -/
theorem transformBlock_trace (c : Collab) (r : Run) :
    ∃ apply revert : Bool,
      (transformBlock c r).trace
        = r.trace ++ ((if apply = true then [.transformApply] else [])
            ++ (if revert = true then [.transformRevert] else [])) := by
  unfold transformBlock
  dsimp only
  split_ifs with h1 h2 h2
  · exact ⟨true, true, by simp [Run.call_trace, Run.assign_trace]⟩
  · exact ⟨true, false, by simp [Run.call_trace, Run.assign_trace]⟩
  · exact ⟨false, true, by simp [Run.call_trace, Run.assign_trace]⟩
  · exact ⟨false, false, by simp⟩

/-- Helper: the calls of the respawn handler. -/
theorem respawnBlock_trace (c : Collab) (r : Run) :
    (respawnBlock c r).trace
      = r.trace ++ (if r.state.respawn = true then
          [.applyEquipment, .checkEquipmentChange, .activatePassives, .statsLogic, .statsRecalc]
        else []) := by
  unfold respawnBlock
  split_ifs with h1
  · simp [Run.call_trace, Run.assign_trace]
  · simp

/-- Helper: the trace of a whole tick, in terms of what its tests read. -/
theorem logic_trace (c : Collab) (s : Play) :
    ∃ alive_npc transform closing apply revert cursor : Bool,
      (logic c s).trace
        = preTrace (atPauseCheck c s).pause (atPauseCheck c s).alive alive_npc transform closing
            ++ postBlockSteps
            ++ sufTrace apply revert (atRespawnCheck c s).state.respawn cursor ∧
      ((atPauseCheck c s).alive = true → alive_npc = (atNPCCheck c s).alive) := by
  obtain ⟨a, t, cl, hpre, ha⟩ := logicUntilPost_trace c s
  obtain ⟨ap, rv, htf⟩ := transformBlock_trace c (settleBlock c (drainBlock c (logicUntilPost c s)))
  have hresp := respawnBlock_trace c (atRespawnCheck c s)
  have hrc : (atRespawnCheck c s).trace
      = preTrace (atPauseCheck c s).pause (atPauseCheck c s).alive a t cl ++ postBlockSteps
          ++ ((if ap = true then [.transformApply] else [])
            ++ (if rv = true then [.transformRevert] else [])) := by
    unfold atRespawnCheck
    rw [htf, settle_drain_trace, hpre]
  have hlogic : logic c s = cursorBlock c (respawnBlock c (atRespawnCheck c s)) := rfl
  rw [hlogic]
  unfold cursorBlock
  split_ifs with hm
  · refine ⟨a, t, cl, ap, rv, true, ?_, ha⟩
    rw [Run.call_trace, hresp, hrc]
    simp [sufTrace]
  · refine ⟨a, t, cl, ap, rv, false, ?_, ha⟩
    rw [hresp, hrc]
    simp [sufTrace]

/-- Helper: no step of the unconditional block occurs before it in a tick. -/
theorem preTrace_disjoint :
    ∀ pause alive_loot alive_npc transform closing : Bool,
      ∀ st ∈ postBlockSteps, st ∉ preTrace pause alive_loot alive_npc transform closing := by
  decide

/-- Helper: after the unconditional block only `checkEquipmentChange` can run again, and it
does exactly when the respawn handler runs. -/
theorem sufTrace_filter :
    ∀ apply revert respawn cursor : Bool,
      (sufTrace apply revert respawn cursor).filter (fun st => decide (st ∈ postBlockSteps))
        = if respawn = true then [.checkEquipmentChange] else [] := by
  decide

/-- Helper: how often each step of the unconditional block occurs in a tick. -/
theorem tickTrace_count :
    ∀ pause alive_loot alive_npc transform closing apply revert respawn cursor : Bool,
      ∀ st ∈ postBlockSteps,
        (preTrace pause alive_loot alive_npc transform closing ++ postBlockSteps
            ++ sufTrace apply revert respawn cursor).count st
          = if st = .checkEquipmentChange ∧ respawn = true then 2 else 1 := by
  decide

/-- Helper: a paused tick makes no call of the gated block. -/
theorem tickTrace_paused :
    ∀ alive_loot alive_npc transform closing apply revert respawn cursor : Bool,
      ∀ st ∈ gatedSteps,
        st ∉ preTrace true alive_loot alive_npc transform closing ++ postBlockSteps
            ++ sufTrace apply revert respawn cursor := by
  decide

/-- Helper: an unpaused tick with the avatar alive makes the calls of the gated block in the
order of the source. -/
theorem tickTrace_unpaused :
    ∀ transform closing apply revert respawn cursor : Bool,
      (preTrace false true true transform closing ++ postBlockSteps
            ++ sufTrace apply revert respawn cursor).filter
          (fun st => decide (st ∈ gatedOrderInCode))
        = gatedOrderInCode := by
  decide

/-- Counterexample for C6: in a tick in which the avatar respawns, `logic()` runs
`checkEquipmentChange` twice, not once. -/
theorem logic_post_block_counterexample :
    (logic quietCollab { plainPlay with respawn := true }).trace.count .checkEquipmentChange
      = 2 := by
  decide

/-- Claim C6, amended. In every tick, paused or not, the trace of `logic()` contains the steps
`checkTeleport, checkLootDrop, checkLog, checkBook, checkEquipmentChange, checkConsumable,
checkStash, checkNotifications, checkCancel`, map logic, enemies-cleared propagation and
quest-log logic as one contiguous run in this order; none of them runs before that run; after it
the only one that runs again is `checkEquipmentChange`, once, in the respawn handler, exactly
when `pc->respawn` is set there.  So each of them runs exactly once in the tick, except
`checkEquipmentChange`, which runs twice in a tick that handles a respawn. -/
theorem logic_post_block_order (c : Collab) (s : Play) :
    ∃ pre suf : List Step,
      (logic c s).trace = pre ++ postBlockSteps ++ suf ∧
      (∀ st ∈ postBlockSteps, st ∉ pre) ∧
      suf.filter (fun st => decide (st ∈ postBlockSteps))
        = (if (atRespawnCheck c s).state.respawn = true then [.checkEquipmentChange] else []) ∧
      (∀ st ∈ postBlockSteps,
        (logic c s).trace.count st
          = if st = .checkEquipmentChange ∧ (atRespawnCheck c s).state.respawn = true then 2
            else 1) := by
  obtain ⟨a, t, cl, ap, rv, m, htrace, _⟩ := logic_trace c s
  refine ⟨_, _, htrace, preTrace_disjoint _ _ _ _ _, sufTrace_filter _ _ _ _, ?_⟩
  rw [htrace]
  exact tickTrace_count _ _ _ _ _ _ _ _ _

/-- Counterexample for C7: in an unpaused tick with the avatar alive, the gated steps do not
run in the order the specification lists them: enemy XP settlement runs before the `logic()` of
the NPCs, not after it. -/
theorem logic_gated_order_counterexample :
    (atPauseCheck quietCollab plainPlay).pause = false ∧
    (atPauseCheck quietCollab plainPlay).alive = true ∧
    (atNPCCheck quietCollab plainPlay).alive = true ∧
    (logic quietCollab plainPlay).trace.filter (fun st => decide (st ∈ gatedOrderInSpec))
      ≠ gatedOrderInSpec ∧
    (logic quietCollab plainPlay).trace.filter
        (fun st => decide (st = .checkEnemiesforXP ∨ st = .npcsLogic))
      = [.checkEnemiesforXP, .npcsLogic] := by
  decide

/-- Claim C7, amended. In a tick in which `menu->pause` is set when `logic()` reads it, no
gated step runs.  In a tick in which it is not set and the avatar is alive at both tests, the
gated steps run, once each, in the order of the source: loot pickup, enemy focus, NPC
interaction, hotspot check, nearest-event check, title resolution, action-bar resolution,
avatar logic, stealth propagation, then `logic()` of enemies, hazards and loot, then enemy XP
settlement, then `logic()` of the NPCs, then sound positioning. -/
theorem logic_gated_block (c : Collab) (s : Play) :
    ((atPauseCheck c s).pause = true → ∀ st ∈ gatedSteps, st ∉ (logic c s).trace) ∧
    ((atPauseCheck c s).pause = false → (atPauseCheck c s).alive = true →
      (atNPCCheck c s).alive = true →
      (logic c s).trace.filter (fun st => decide (st ∈ gatedOrderInCode)) = gatedOrderInCode) := by
  obtain ⟨a, t, cl, ap, rv, m, htrace, ha⟩ := logic_trace c s
  constructor
  · intro hp
    rw [htrace, hp]
    exact tickTrace_paused _ _ _ _ _ _ _ _
  · intro hp h1 h2
    have ha2 : a = true := by rw [ha h1, h2]
    rw [htrace, hp, h1, ha2]
    exact tickTrace_unpaused _ _ _ _ _ _

/-- Witness for C7: a paused tick and an unpaused tick of a living avatar. -/
theorem logic_gated_block_witness :
    (∀ st ∈ gatedSteps, st ∉ (logic quietCollab { plainPlay with pause := true }).trace) ∧
    (logic quietCollab plainPlay).trace.filter (fun st => decide (st ∈ gatedOrderInCode))
      = gatedOrderInCode :=
  ⟨(logic_gated_block quietCollab { plainPlay with pause := true }).1 rfl,
    (logic_gated_block quietCollab plainPlay).2 rfl rfl rfl⟩

/-! ### What a tick leaves pending -/

/-- Helper: `checkLootDrop` empties the three drop stacks and leaves the log fields alone. -/
theorem checkLootDrop_pending (s : Play) :
    pending (checkLootDrop s)
      = ([], [], [], s.map_log_msg, s.pc_log_msg, s.camp_log_msg, s.inv_log_msg,
          s.powers_log_msg) := by
  simp [pending, checkLootDrop, dropLoop_eq]

/-- Helper: `checkLog` empties the five log fields and leaves the drop stacks alone. -/
theorem checkLog_pending (s : Play) :
    pending (checkLog s)
      = (s.menu_drop_stack, s.camp_drop_stack, s.inv_drop_stack, "", "", "", "", "") := by
  by_cases hr : s.respawn = true <;> by_cases h1 : s.map_log_msg = "" <;>
    by_cases h2 : s.pc_log_msg = "" <;> by_cases h3 : s.camp_log_msg = "" <;>
    by_cases h4 : s.inv_log_msg = "" <;> by_cases h5 : s.powers_log_msg = "" <;>
    simp [pending, checkLog, hr, h1, h2, h3, h4, h5]

/-- Helper: right after `checkLog()` nothing is pending. -/
theorem drainBlock_pending (c : Collab) (r : Run) :
    pending (drainBlock c r).state = ([], [], [], "", "", "", "", "") := by
  have h1 := checkLog_pending (checkLootDrop (c.run .checkTeleport r.state))
  have h2 := checkLootDrop_pending (c.run .checkTeleport r.state)
  have hs : (drainBlock c r).state
      = checkLog (checkLootDrop (c.run .checkTeleport r.state)) := by
    simp only [drainBlock, Run.call_state]
  rw [hs, h1]
  simp only [pending, Prod.mk.injEq] at h2
  simp [h2.1, h2.2.1, h2.2.2.1]

/-- Helper: when no parameter step that can follow `checkLog()` writes a pending field, the
rest of the tick leaves the pending fields as they are. -/
theorem logicAfterLog_pending (c : Collab) (r : Run)
    (hq : ∀ st ∈ afterLogSteps, ∀ q, pending (c.run st q) = pending q) :
    pending (logicAfterLog c r).state = pending r.state := by
  have e1 := hq .checkBook (by decide)
  have e2 := hq .checkEquipmentChange (by decide)
  have e3 := hq .checkConsumable (by decide)
  have e4 := hq .checkStash (by decide)
  have e5 := hq .checkNotifications (by decide)
  have e6 := hq .checkCancel (by decide)
  have e7 := hq .maprLogic (by decide)
  have e8 := hq .questsLogic (by decide)
  have e9 := hq .transformApply (by decide)
  have e10 := hq .transformRevert (by decide)
  have e11 := hq .applyEquipment (by decide)
  have e12 := hq .activatePassives (by decide)
  have e13 := hq .statsLogic (by decide)
  have e14 := hq .statsRecalc (by decide)
  have e15 := hq .setCursorNormal (by decide)
  have a1 : ∀ q, pending (clearedStep c q) = pending q := fun _ => rfl
  have a2 : ∀ q, pending (clearSetPowers q) = pending q := fun _ => rfl
  have a3 : ∀ q, pending (clearRevertPowers q) = pending q := fun _ => rfl
  have a4 : ∀ q, pending (reviveStep q) = pending q := fun _ => rfl
  have a5 : ∀ q, pending (markEquipmentChanged q) = pending q := fun _ => rfl
  have a6 : ∀ q, pending (clearRespawn q) = pending q := fun _ => rfl
  have hsettle : pending (settleBlock c r).state = pending r.state := by
    simp only [settleBlock, Run.call_state, e1, e2, e3, e4, e5, e6, e7, e8, a1]
  have htransform : ∀ r2 : Run, pending (transformBlock c r2).state = pending r2.state := by
    intro r2
    unfold transformBlock
    dsimp only
    split_ifs <;> simp only [Run.call_state, Run.assign_state, e9, e10, a2, a3]
  have hrespawn : ∀ r2 : Run, pending (respawnBlock c r2).state = pending r2.state := by
    intro r2
    unfold respawnBlock
    dsimp only
    split_ifs <;> simp only [Run.call_state, Run.assign_state, e2, e11, e12, e13, e14, a4, a5, a6]
  have hcursor : ∀ r2 : Run, pending (cursorBlock c r2).state = pending r2.state := by
    intro r2
    unfold cursorBlock
    split_ifs <;> simp only [Run.call_state, e15]
  unfold logicAfterLog
  rw [hcursor, hrespawn, htransform, hsettle]

/-- Helper: when `checkLoot` gets past its two early returns, it leaves `full_msg` cleared. -/
theorem checkLoot_full_msg (c : Collab) (p : Play) (h1 : p.alive = true)
    (h2 : p.dragging = false) : (checkLoot c p).full_msg = false := by
  unfold checkLoot
  simp only [h1, h2, Bool.true_eq_false, Bool.false_eq_true, if_false]
  split_ifs <;> simp_all

/-- Counterexample for C8: a paused tick leaves a set `full_msg` flag set, and a message the
map posts during its own `logic()`, which runs after `checkLog()`, is still pending when the
tick ends. -/
theorem drain_completeness_counterexample :
    (logic quietCollab { plainPlay with pause := true, full_msg := true }).state.full_msg = true ∧
    (logic chattyMapCollab plainPlay).state.map_log_msg = "A door opens." := by
  decide

/-- Claim C8, amended. In every tick, paused or not, avatar alive or not, the three drop stacks
and the five log fields are all empty right after `checkLog()`; they are still empty when the
tick ends provided none of the steps that follow `checkLog()` writes them; and `full_msg` is
cleared by `checkLoot`, whenever it runs with the avatar alive and nothing being dragged. -/
theorem logic_drains_pending (c : Collab) (s p : Play) :
    pending (drainBlock c (logicUntilPost c s)).state = ([], [], [], "", "", "", "", "") ∧
    ((∀ st ∈ afterLogSteps, ∀ q, pending (c.run st q) = pending q) →
      pending (logic c s).state = ([], [], [], "", "", "", "", "")) ∧
    (p.alive = true → p.dragging = false → (checkLoot c p).full_msg = false) := by
  refine ⟨drainBlock_pending c _, ?_, checkLoot_full_msg c p⟩
  intro hq
  have hl : logic c s = logicAfterLog c (drainBlock c (logicUntilPost c s)) := rfl
  rw [hl, logicAfterLog_pending c _ hq, drainBlock_pending]

/-- Witness for C8: a tick with quiet collaborators that starts with a dropped stack and a map
message pending, and a loot check that starts with `full_msg` set. -/
theorem logic_drains_pending_witness :
    pending (logic quietCollab
        { plainPlay with menu_drop_stack := [⟨7, 1⟩], map_log_msg := "Locked." }).state
      = ([], [], [], "", "", "", "", "") ∧
    (checkLoot quietCollab { plainPlay with full_msg := true }).full_msg = false :=
  ⟨(logic_drains_pending quietCollab
      { plainPlay with menu_drop_stack := [⟨7, 1⟩], map_log_msg := "Locked." } plainPlay).2.1
      (fun _ _ _ => rfl),
    (logic_drains_pending quietCollab plainPlay { plainPlay with full_msg := true }).2.2
      rfl rfl⟩

/-! ### Title resolution: the recheck flag -/

/-- Helper: with the recheck flag set and at least one rule, `checkTitle` clears the flag and
asks for a refresh of the stats. -/
theorem checkTitle_flags (checkStatus : String → Bool) (titles : List Title) (s : StatBlock)
    (hflag : s.check_title = true) (hne : titles ≠ []) :
    (checkTitle checkStatus titles s).check_title = false ∧
    (checkTitle checkStatus titles s).refresh_stats = true := by
  have he : titles.isEmpty = false := by
    cases titles with
    | nil => exact absurd rfl hne
    | cons a l => rfl
  unfold checkTitle
  simp only [hflag, he, Bool.true_eq_false, Bool.false_eq_true, or_self, if_false]
  constructor <;> trivial

/-- Helper: when no rule is satisfied, `checkTitle` leaves the title as it is. -/
theorem checkTitle_no_match (checkStatus : String → Bool) (titles : List Title) (s : StatBlock)
    (hnone : ∀ t ∈ titles, ¬ satisfies checkStatus s t) :
    (checkTitle checkStatus titles s).character_class = s.character_class := by
  have hloop : titleLoop checkStatus s titles 0 = -1 :=
    titleLoop_none checkStatus s titles 0 (fun t ht => by
      have := hnone t ht
      rw [← titleSkipped_false_iff] at this
      simpa using this)
  unfold checkTitle
  split_ifs with h1
  · rfl
  · simp [hloop]

/-- Helper: `checkTitle` returns at once when the flag is not set or there is no rule. -/
theorem checkTitle_guard (checkStatus : String → Bool) (titles : List Title) (s : StatBlock)
    (h : s.check_title = false ∨ titles = []) : checkTitle checkStatus titles s = s := by
  unfold checkTitle
  have h2 : s.check_title = false ∨ titles.isEmpty = true := by
    rcases h with h | h
    · exact Or.inl h
    · exact Or.inr (by rw [h]; rfl)
  rw [if_pos h2]

/-- Counterexample for C19: with an empty rule list `checkTitle` returns before it reaches the
assignment that clears the recheck flag, so a set flag stays set. -/
theorem checkTitle_empty_keeps_flag :
    (checkTitle (fun _ => false) [] { plainStats with check_title := true }).check_title
      = true := by
  decide

/-- Claim C19, amended. With the recheck flag set, after `checkTitle` the flag is cleared
whenever the rule list is not empty; and for every rule list, the empty one included, the title
`character_class` is unchanged if no rule is satisfied. -/
theorem checkTitle_clears_flag (checkStatus : String → Bool) (titles : List Title)
    (s : StatBlock) (hflag : s.check_title = true) :
    (titles ≠ [] → (checkTitle checkStatus titles s).check_title = false) ∧
    ((∀ t ∈ titles, ¬ satisfies checkStatus s t) →
      (checkTitle checkStatus titles s).character_class = s.character_class) :=
  ⟨fun hne => (checkTitle_flags checkStatus titles s hflag hne).1,
    checkTitle_no_match checkStatus titles s⟩

/-- Witness for C19: one rule that asks for level 9, an avatar of level 1 with the flag set. -/
theorem checkTitle_clears_flag_witness :
    (checkTitle (fun _ => false) [{ title := "Archmage", level := 9 }]
        { plainStats with check_title := true, character_class := "Novice" }).check_title
      = false ∧
    (checkTitle (fun _ => false) [{ title := "Archmage", level := 9 }]
        { plainStats with check_title := true, character_class := "Novice" }).character_class
      = "Novice" :=
  ⟨(checkTitle_clears_flag (fun _ => false) [{ title := "Archmage", level := 9 }]
      { plainStats with check_title := true, character_class := "Novice" } rfl).1 (by decide),
    (checkTitle_clears_flag (fun _ => false) [{ title := "Archmage", level := 9 }]
      { plainStats with check_title := true, character_class := "Novice" } rfl).2
      (by decide)⟩

/-- Claim C20. When the recheck flag is not set, or the rule list is empty, `checkTitle`
changes nothing: the whole stat block, and so `character_class`, `check_title` and
`refresh_stats`, is as it was. -/
theorem checkTitle_noop (checkStatus : String → Bool) (titles : List Title) (s : StatBlock)
    (h : s.check_title = false ∨ titles = []) :
    checkTitle checkStatus titles s = s ∧
    (checkTitle checkStatus titles s).character_class = s.character_class ∧
    (checkTitle checkStatus titles s).check_title = s.check_title ∧
    (checkTitle checkStatus titles s).refresh_stats = s.refresh_stats := by
  have hg := checkTitle_guard checkStatus titles s h
  rw [hg]
  exact ⟨rfl, rfl, rfl, rfl⟩

/-- Witness for C20: the flag is not set although a rule would match; and the flag is set but
there is no rule. -/
theorem checkTitle_noop_witness :
    checkTitle (fun _ => false) [{ title := "Novice" }] plainStats = plainStats ∧
    checkTitle (fun _ => false) [] { plainStats with check_title := true }
      = { plainStats with check_title := true } :=
  ⟨(checkTitle_noop (fun _ => false) [{ title := "Novice" }] plainStats (Or.inl rfl)).1,
    (checkTitle_noop (fun _ => false) [] { plainStats with check_title := true }
      (Or.inr rfl)).1⟩

/-! ### Transformation: apply, then revert -/

/-- Helper: what the first loop of the apply handler leaves after `n` iterations. -/
theorem saveSlots_spec (a : ActionBar) :
    ∀ n : Nat,
      (saveSlots n a).actionbar = (fun i => if i < n then a.hotkeys i else a.actionbar i) ∧
      (saveSlots n a).hotkeys = (fun i => if i < n then 0 else a.hotkeys i) ∧
      (saveSlots n a).locked = a.locked := by
  intro n
  induction n with
  | zero => simp [saveSlots]
  | succ n ih =>
    obtain ⟨h1, h2, h3⟩ := ih
    refine ⟨?_, ?_, ?_⟩
    · funext i
      simp only [saveSlots, saveSlot, h1, h2, Function.update_apply]
      by_cases hi : i = n
      · subst hi; simp
      · have : (i < n + 1) = (i < n) := by
          apply propext; omega
        simp [hi, this]
    · funext i
      simp only [saveSlots, saveSlot, h2, Function.update_apply]
      by_cases hi : i = n
      · subst hi; simp
      · have : (i < n + 1) = (i < n) := by
          apply propext; omega
        simp [hi, this]
    · simp only [saveSlots, saveSlot, h3]

/-- Helper: the second loop of the apply handler never writes the snapshot. -/
theorem placeLoop_actionbar (power_index : Nat → Int) (st : ActionBar × Nat) :
    ∀ n : Nat, (placeLoop power_index n st).1.actionbar = st.1.actionbar := by
  intro n
  induction n with
  | zero => rfl
  | succ n ih =>
    simp only [placeLoop, placeStep]
    split_ifs <;> simp [ih]

/-- Helper: the apply handler leaves in the snapshot the hotkeys it found in the slots 0..11. -/
theorem transformApply_actionbar (power_index : Nat → Int) (manual_untransform : Bool)
    (untransform_power : Int) (a : ActionBar) (i : Nat) (hi : i < 12) :
    (transformApply power_index manual_untransform untransform_power a).actionbar i
      = a.hotkeys i := by
  have hs := (saveSlots_spec a 12).1
  have hp := placeLoop_actionbar power_index (saveSlots 12 a, 10) 4
  unfold transformApply
  dsimp only
  split_ifs
  · simp only [hp, hs, hi, if_true]
  · simp only [hp, hs, hi, if_true]

/-- Helper: what the loop of the revert handler leaves after `n` iterations. -/
theorem revertSlots_spec (a : ActionBar) :
    ∀ n : Nat,
      (revertSlots n a).hotkeys = (fun i => if i < n then a.actionbar i else a.hotkeys i) ∧
      (revertSlots n a).locked = (fun i => if i < n then false else a.locked i) ∧
      (revertSlots n a).actionbar = a.actionbar := by
  intro n
  induction n with
  | zero => simp [revertSlots]
  | succ n ih =>
    obtain ⟨h1, h2, h3⟩ := ih
    refine ⟨?_, ?_, ?_⟩
    · funext i
      simp only [revertSlots, revertSlot, h1, h3, Function.update_apply]
      by_cases hi : i = n
      · subst hi; simp
      · have : (i < n + 1) = (i < n) := by
          apply propext; omega
        simp [hi, this]
    · funext i
      simp only [revertSlots, revertSlot, h2, Function.update_apply]
      by_cases hi : i = n
      · subst hi; simp
      · have : (i < n + 1) = (i < n) := by
          apply propext; omega
        simp [hi, this]
    · simp only [revertSlots, revertSlot, h3]

/-- Counterexample for C14: a slot that was locked before the transformation is unlocked after
apply and revert (no transform power, no manual untransform). -/
theorem transform_revert_unlocks :
    sampleBar.locked 0 = true ∧
    (transformRevert (transformApply (fun _ => 0) false 0 sampleBar)).locked 0 = false := by
  decide

/-- Claim C14, amended. For every action bar, all transform powers and every setting of the
manual untransform, apply followed at once by revert leaves `hotkeys[0..11]` equal to their
values before the transformation and `locked[0..11]` all false; the lock flags are the ones
from before the transformation exactly when none of them was set. -/
theorem transform_then_revert (power_index : Nat → Int) (manual_untransform : Bool)
    (untransform_power : Int) (a : ActionBar) :
    (∀ i, i < 12 →
      (transformRevert (transformApply power_index manual_untransform untransform_power
        a)).hotkeys i = a.hotkeys i) ∧
    (∀ i, i < 12 →
      (transformRevert (transformApply power_index manual_untransform untransform_power
        a)).locked i = false) ∧
    ((∀ i, i < 12 →
      (transformRevert (transformApply power_index manual_untransform untransform_power
        a)).locked i = a.locked i) ↔ ∀ i, i < 12 → a.locked i = false) := by
  obtain ⟨h1, h2, _⟩ :=
    revertSlots_spec (transformApply power_index manual_untransform untransform_power a) 12
  have hk : ∀ i, i < 12 →
      (transformRevert (transformApply power_index manual_untransform untransform_power
        a)).hotkeys i = a.hotkeys i := by
    intro i hi
    unfold transformRevert
    rw [h1]
    simp only [hi, if_true]
    exact transformApply_actionbar power_index manual_untransform untransform_power a i hi
  have hl : ∀ i, i < 12 →
      (transformRevert (transformApply power_index manual_untransform untransform_power
        a)).locked i = false := by
    intro i hi
    unfold transformRevert
    rw [h2]
    simp only [hi, if_true]
  refine ⟨hk, hl, ?_⟩
  constructor
  · intro h i hi
    rw [← h i hi]
    exact hl i hi
  · intro h i hi
    rw [hl i hi, h i hi]

/-! ### Teleportation -/

/-- Helper: unblocking a cell removes exactly that cell. -/
theorem mem_unblock (blocked : List FPoint) (p q : FPoint) :
    q ∈ unblock blocked p ↔ q ∈ blocked ∧ q ≠ p := by
  simp [unblock]

/-- Helper: blocking a cell adds exactly that cell. -/
theorem mem_block (blocked : List FPoint) (p q : FPoint) :
    q ∈ block blocked p ↔ q ∈ blocked ∨ q = p := by
  unfold block
  split_ifs with h
  · constructor
    · intro hq; exact Or.inl hq
    · rintro (hq | hq)
      · exact hq
      · rw [hq]; exact h
  · simp [or_comm]

/-- Helper: the relocation loop turns each entry into its relocated form. -/
theorem relocateAllies_entries (dest : FPoint) :
    ∀ (es : List Enemy) (blocked : List FPoint),
      (relocateAllies dest es blocked).1 = es.map (relocated dest) := by
  intro es
  induction es with
  | nil => intro blocked; rfl
  | cons e rest ih =>
    intro blocked
    by_cases h : e.hero_ally = true ∧ e.alive = true
    · simp [relocateAllies, relocated, h, ih]
    · simp [relocateAllies, relocated, h, ih]

/-- Helper: the relocation loop unblocks exactly the cells of the living hero allies. -/
theorem relocateAllies_blocked (dest : FPoint) :
    ∀ (es : List Enemy) (blocked : List FPoint) (q : FPoint),
      q ∈ (relocateAllies dest es blocked).2 ↔
        q ∈ blocked ∧ ∀ e ∈ es, e.hero_ally = true → e.alive = true → e.pos ≠ q := by
  intro es
  induction es with
  | nil => intro blocked q; simp [relocateAllies]
  | cons e rest ih =>
    intro blocked q
    by_cases h : e.hero_ally = true ∧ e.alive = true
    · simp only [relocateAllies, h, and_self, if_true, ih, mem_unblock, List.mem_cons,
        forall_eq_or_imp, true_implies]
      constructor
      · rintro ⟨⟨h1, h2⟩, h3⟩
        exact ⟨h1, fun h4 => h2 h4.symm, h3⟩
      · rintro ⟨h1, h2, h3⟩
        exact ⟨⟨h1, fun h4 => h2 h4.symm⟩, h3⟩
    · simp only [relocateAllies, h, if_false, ih, List.mem_cons, forall_eq_or_imp]
      constructor
      · rintro ⟨h1, h3⟩
        exact ⟨h1, fun ha hl => absurd ⟨ha, hl⟩ h, h3⟩
      · rintro ⟨h1, _, h3⟩
        exact ⟨h1, h3⟩

/-- Helper: what the relocation part of `checkTeleport` leaves. -/
theorem teleportRelocate_spec (s : TeleportState) :
    (teleportRelocate s).pos = teleportDestination s ∧
    (teleportRelocate s).cam = teleportDestination s ∧
    (teleportRelocate s).enemies = s.enemies.map (relocated (teleportDestination s)) ∧
    (namesNewMap (teleportRelocate s) ↔ namesNewMap s) := by
  refine ⟨rfl, rfl, ?_, Iff.rfl⟩
  simp only [teleportRelocate, relocateAllies_entries]

/-- Helper: `checkTeleport` on a request that stays on the map. -/
theorem checkTeleport_same_map (c : TeleportCollab) (s : TeleportState)
    (hreq : s.map_teleportation = true ∨ s.pc_teleportation = true) (hsame : ¬ namesNewMap s) :
    checkTeleport c s = ⟨teleportDone (teleportLand (teleportRelocate s)), []⟩ := by
  have h2 : ¬ namesNewMap (teleportRelocate s) := hsame
  simp only [checkTeleport, hreq, if_true, h2, if_false]

/-- Helper: `checkTeleport` on a request that names a new map. -/
theorem checkTeleport_enters_map (c : TeleportCollab) (s : TeleportState)
    (hnew : namesNewMap s) :
    checkTeleport c s
      = ⟨teleportDone (teleportLand
            (settleNewMap c ⟨enterNewMap c (teleportRelocate s), []⟩).state),
          (settleNewMap c ⟨enterNewMap c (teleportRelocate s), []⟩).effects⟩ := by
  have h2 : namesNewMap (teleportRelocate s) := hnew
  have hreq : s.map_teleportation = true ∨ s.pc_teleportation = true := Or.inl hnew.1
  simp only [checkTeleport, hreq, if_true, h2]

/-- Helper: the last statements of `checkTeleport` move nothing. -/
theorem teleportDone_land_positions (s : TeleportState) :
    (teleportDone (teleportLand s)).pos = s.pos ∧
    (teleportDone (teleportLand s)).cam = s.cam ∧
    (teleportDone (teleportLand s)).enemies = s.enemies ∧
    (teleportDone (teleportLand s)).blocked = block s.blocked s.pos ∧
    (teleportDone (teleportLand s)).requested_title = s.requested_title := by
  unfold teleportDone
  split_ifs <;> exact ⟨rfl, rfl, rfl, rfl, rfl⟩

/-- Helper: the state that the end of the new-map branch leaves. -/
theorem settleNewMap_state (c : TeleportCollab) (r : TeleportRun) :
    (settleNewMap c r).state
      = if r.state.permadeath = true ∧ r.state.corpse = true then requestTitle r.state
        else r.state := by
  unfold settleNewMap
  by_cases h : r.state.permadeath = true ∧ r.state.corpse = true
  · rw [if_pos h, if_pos h]
  · rw [if_neg h, if_neg h]

/-- Helper: when the collaborators of the new-map branch leave avatar and camera alone, so does
the branch. -/
theorem newMap_positions (c : TeleportCollab) (s : TeleportState)
    (hrun : ∀ st q, (c.run st q).pos = q.pos ∧ (c.run st q).cam = q.cam)
    (hload : ∀ n q, (c.mapLoad n q).pos = q.pos ∧ (c.mapLoad n q).cam = q.cam) :
    (settleNewMap c ⟨enterNewMap c s, []⟩).state.pos = s.pos ∧
    (settleNewMap c ⟨enterNewMap c s, []⟩).state.cam = s.cam := by
  have a1 : ∀ q, (clearMapname q).pos = q.pos ∧ (clearMapname q).cam = q.cam :=
    fun _ => ⟨rfl, rfl⟩
  have a2 : ∀ q, (countLoad q).pos = q.pos ∧ (countLoad q).cam = q.cam := fun _ => ⟨rfl, rfl⟩
  have a3 : ∀ q, (hideNPCMenus q).pos = q.pos ∧ (hideNPCMenus q).cam = q.cam :=
    fun _ => ⟨rfl, rfl⟩
  have a4 : ∀ q, (forgetNPC q).pos = q.pos ∧ (forgetNPC q).cam = q.cam := fun _ => ⟨rfl, rfl⟩
  have a5 : ∀ n q, (storeRespawn n q).pos = q.pos ∧ (storeRespawn n q).cam = q.cam :=
    fun _ _ => ⟨rfl, rfl⟩
  have a6 : ∀ q, (requestTitle q).pos = q.pos ∧ (requestTitle q).cam = q.cam :=
    fun _ => ⟨rfl, rfl⟩
  have he : (enterNewMap c s).pos = s.pos ∧ (enterNewMap c s).cam = s.cam := by
    unfold enterNewMap
    simp only [(a1 _).1, (a1 _).2, (a2 _).1, (a2 _).2, (a3 _).1, (a3 _).2, (a4 _).1, (a4 _).2,
      (a5 _ _).1, (a5 _ _).2, (hrun _ _).1, (hrun _ _).2, (hload _ _).1, (hload _ _).2,
      and_self]
  rw [settleNewMap_state]
  split_ifs
  · exact ⟨((a6 _).1).trans he.1, ((a6 _).2).trans he.2⟩
  · exact he

/-- Counterexample for C11: a teleport into a new map whose `handleNewMap` puts the enemies of
the new map in the list: the entry of the enemy that stood at (1, 1) is not where it was. -/
theorem checkTeleport_new_map_enemies :
    (checkTeleport newMapCollab
        { plainTeleport with map_teleportation := true, teleport_mapname := "maps/cave.txt" }
      ).state.enemies = [⟨false, true, ⟨9, 9⟩⟩] ∧
    (checkTeleport newMapCollab
        { plainTeleport with map_teleportation := true, teleport_mapname := "maps/cave.txt" }
      ).state.enemies ≠ plainTeleport.enemies.map (relocated ⟨20, 20⟩) := by
  decide

/-- Claim C11, amended. For every state in which a teleport is requested, the relocation part
of `checkTeleport` puts avatar and camera at the destination (the one of the map event whenever
`mapr->teleportation` is set, the one of the power of the avatar otherwise), gives every living
hero ally that position and leaves every other entry of the enemy list as it is.  When the
request stays on the map, this is the state of positions after `checkTeleport`.  When it names a
new map, avatar and camera are still at the destination after `checkTeleport` provided the map
loader and the new-map handlers leave them alone. -/
theorem checkTeleport_positions (c : TeleportCollab) (s : TeleportState)
    (hreq : s.map_teleportation = true ∨ s.pc_teleportation = true) :
    ((teleportRelocate s).pos = teleportDestination s ∧
      (teleportRelocate s).cam = teleportDestination s ∧
      (teleportRelocate s).enemies = s.enemies.map (relocated (teleportDestination s))) ∧
    (¬ namesNewMap s →
      (checkTeleport c s).state.pos = teleportDestination s ∧
      (checkTeleport c s).state.cam = teleportDestination s ∧
      (checkTeleport c s).state.enemies
        = s.enemies.map (relocated (teleportDestination s))) ∧
    (namesNewMap s →
      (∀ st q, (c.run st q).pos = q.pos ∧ (c.run st q).cam = q.cam) →
      (∀ n q, (c.mapLoad n q).pos = q.pos ∧ (c.mapLoad n q).cam = q.cam) →
      (checkTeleport c s).state.pos = teleportDestination s ∧
      (checkTeleport c s).state.cam = teleportDestination s) ∧
    (teleportDestination s
      = if s.map_teleportation = true then s.map_destination else s.pc_destination) := by
  obtain ⟨h1, h2, h3, _⟩ := teleportRelocate_spec s
  refine ⟨⟨h1, h2, h3⟩, ?_, ?_, rfl⟩
  · intro hsame
    rw [checkTeleport_same_map c s hreq hsame]
    obtain ⟨g1, g2, g3, _, _⟩ := teleportDone_land_positions (teleportRelocate s)
    exact ⟨g1.trans h1, g2.trans h2, g3.trans h3⟩
  · intro hnew hrun hload
    rw [checkTeleport_enters_map c s hnew]
    obtain ⟨g1, g2, _, _, _⟩ := teleportDone_land_positions
      (settleNewMap c ⟨enterNewMap c (teleportRelocate s), []⟩).state
    obtain ⟨k1, k2⟩ := newMap_positions c (teleportRelocate s) hrun hload
    exact ⟨g1.trans (k1.trans h1), g2.trans (k2.trans h2)⟩

/-- Witness for C11: the power of the avatar teleports it to (8, 8) on the same map. -/
theorem checkTeleport_positions_witness :
    (checkTeleport quietTeleportCollab { plainTeleport with pc_teleportation := true }).state.pos
      = ⟨8, 8⟩ ∧
    (checkTeleport quietTeleportCollab { plainTeleport with pc_teleportation := true }).state.cam
      = ⟨8, 8⟩ ∧
    (checkTeleport quietTeleportCollab
        { plainTeleport with pc_teleportation := true }).state.enemies
      = [⟨true, true, ⟨8, 8⟩⟩, ⟨false, true, ⟨1, 1⟩⟩] :=
  (checkTeleport_positions quietTeleportCollab { plainTeleport with pc_teleportation := true }
    (Or.inr rfl)).2.1 (by decide)

/-- Helper: the cells blocked after a teleport that stays on the map. -/
theorem checkTeleport_blocked (c : TeleportCollab) (s : TeleportState)
    (hreq : s.map_teleportation = true ∨ s.pc_teleportation = true) (hsame : ¬ namesNewMap s)
    (q : FPoint) :
    q ∈ (checkTeleport c s).state.blocked ↔
      q = teleportDestination s ∨
        (q ∈ s.blocked ∧ q ≠ s.pos ∧
          ∀ e ∈ s.enemies, e.hero_ally = true → e.alive = true → e.pos ≠ q) := by
  rw [checkTeleport_same_map c s hreq hsame]
  obtain ⟨_, _, _, g4, _⟩ := teleportDone_land_positions (teleportRelocate s)
  rw [g4, mem_block]
  have hb : (teleportRelocate s).blocked
      = (relocateAllies (teleportDestination s) s.enemies (unblock s.blocked s.pos)).2 := rfl
  have hp : (teleportRelocate s).pos = teleportDestination s := rfl
  rw [hb, hp, relocateAllies_blocked, mem_unblock]
  constructor
  · rintro (⟨⟨h1, h2⟩, h3⟩ | h)
    · exact Or.inr ⟨h1, h2, h3⟩
    · exact Or.inl h
  · rintro (h | ⟨h1, h2, h3⟩)
    · exact Or.inr h
    · exact Or.inl ⟨⟨h1, h2⟩, h3⟩

/-- Counterexample for C12: a teleport onto the cell the avatar stands on leaves the origin
cell blocked, and a teleport onto the cell of a living ally leaves the old cell of that
relocated ally blocked. -/
theorem checkTeleport_origin_stays_blocked :
    (⟨3, 4⟩ : FPoint) ∈ (checkTeleport quietTeleportCollab
      { plainTeleport with pc_teleportation := true, pc_destination := ⟨3, 4⟩ }).state.blocked ∧
    (⟨5, 5⟩ : FPoint) ∈ (checkTeleport quietTeleportCollab
      { plainTeleport with pc_teleportation := true, pc_destination := ⟨5, 5⟩ }).state.blocked := by
  decide

/-- Claim C12, amended. For every teleport request processed within the same map, after
`checkTeleport` the cell of the destination is blocked, and the origin cell of the avatar, as
well as the old cell of every relocated living ally, is unblocked unless it is the cell of the
destination itself. -/
theorem checkTeleport_collision (c : TeleportCollab) (s : TeleportState)
    (hreq : s.map_teleportation = true ∨ s.pc_teleportation = true) (hsame : ¬ namesNewMap s) :
    teleportDestination s ∈ (checkTeleport c s).state.blocked ∧
    (s.pos ≠ teleportDestination s → s.pos ∉ (checkTeleport c s).state.blocked) ∧
    (∀ e ∈ s.enemies, e.hero_ally = true → e.alive = true →
      e.pos ≠ teleportDestination s → e.pos ∉ (checkTeleport c s).state.blocked) := by
  refine ⟨?_, ?_, ?_⟩
  · rw [checkTeleport_blocked c s hreq hsame]
    exact Or.inl rfl
  · intro hne hmem
    rw [checkTeleport_blocked c s hreq hsame] at hmem
    rcases hmem with h | ⟨_, h2, _⟩
    · exact hne h
    · exact h2 rfl
  · intro e he ha hl hne hmem
    rw [checkTeleport_blocked c s hreq hsame] at hmem
    rcases hmem with h | ⟨_, _, h3⟩
    · exact hne h
    · exact h3 e he ha hl rfl

/-- Witness for C12: the avatar teleports from (3, 4) to (8, 8) with its ally from (5, 5). -/
theorem checkTeleport_collision_witness :
    (⟨8, 8⟩ : FPoint) ∈ (checkTeleport quietTeleportCollab
      { plainTeleport with pc_teleportation := true }).state.blocked ∧
    (⟨3, 4⟩ : FPoint) ∉ (checkTeleport quietTeleportCollab
      { plainTeleport with pc_teleportation := true }).state.blocked ∧
    (⟨5, 5⟩ : FPoint) ∉ (checkTeleport quietTeleportCollab
      { plainTeleport with pc_teleportation := true }).state.blocked :=
  ⟨(checkTeleport_collision quietTeleportCollab { plainTeleport with pc_teleportation := true }
      (Or.inr rfl) (by decide)).1,
    (checkTeleport_collision quietTeleportCollab { plainTeleport with pc_teleportation := true }
      (Or.inr rfl) (by decide)).2.1 (by decide),
    (checkTeleport_collision quietTeleportCollab { plainTeleport with pc_teleportation := true }
      (Or.inr rfl) (by decide)).2.2 ⟨true, true, ⟨5, 5⟩⟩ (by decide) rfl rfl (by decide)⟩

/-- Helper: the file effects of the end of the new-map branch. -/
theorem settleNewMap_effects (c : TeleportCollab) (q : TeleportState) :
    (settleNewMap c ⟨q, []⟩).effects
      = if q.permadeath = true ∧ q.corpse = true then
          ([FileEffect.remove (saveFileName c q.game_slot)]
            ++ (if c.removeFails (saveFileName c q.game_slot) = true then
                  [FileEffect.complain "Error deleting save from path"] else []))
          ++ ([FileEffect.remove (stashFileName c q.game_slot)]
            ++ (if c.removeFails (stashFileName c q.game_slot) = true then
                  [FileEffect.complain
                    ("Error deleting hardcore stash in slot " ++ toString q.game_slot)]
                else []))
        else [FileEffect.saveGame] := by
  unfold settleNewMap
  by_cases h : q.permadeath = true ∧ q.corpse = true
  · rw [if_pos h, if_pos h]
    simp
  · rw [if_neg h, if_neg h]
    simp

/-- Claim C13. When a teleport that names a new map is processed, then, with the permadeath and
corpse flags as `checkTeleport` reads them after the map is loaded: if both are set, the calls
of `remove` are exactly one for the save file of the slot and then one for its hardcore stash
file, `saveGame` is not called and the title state is requested, whether or not a removal
fails; otherwise `saveGame` is called exactly once and nothing is removed. -/
theorem checkTeleport_new_map_files (c : TeleportCollab) (s : TeleportState)
    (hnew : namesNewMap s) :
    ((enterNewMap c (teleportRelocate s)).permadeath = true ∧
        (enterNewMap c (teleportRelocate s)).corpse = true →
      (checkTeleport c s).effects.filter FileEffect.isRemove
        = [FileEffect.remove
              (c.PATH_USER ++ (if c.SAVE_PREFIX.length > 0 then c.SAVE_PREFIX ++ "_" else "")
                ++ "save" ++ toString (enterNewMap c (teleportRelocate s)).game_slot ++ ".txt"),
            FileEffect.remove
              (c.PATH_USER ++ (if c.SAVE_PREFIX.length > 0 then c.SAVE_PREFIX ++ "_" else "")
                ++ "stash_HC" ++ toString (enterNewMap c (teleportRelocate s)).game_slot
                ++ ".txt")] ∧
      FileEffect.saveGame ∉ (checkTeleport c s).effects ∧
      (checkTeleport c s).state.requested_title = true) ∧
    (¬ ((enterNewMap c (teleportRelocate s)).permadeath = true ∧
        (enterNewMap c (teleportRelocate s)).corpse = true) →
      (checkTeleport c s).effects = [FileEffect.saveGame]) := by
  rw [checkTeleport_enters_map c s hnew]
  constructor
  · intro hp
    have hlist : (settleNewMap c ⟨enterNewMap c (teleportRelocate s), []⟩).effects.filter
          FileEffect.isRemove
        = [FileEffect.remove (saveFileName c (enterNewMap c (teleportRelocate s)).game_slot),
            FileEffect.remove
              (stashFileName c (enterNewMap c (teleportRelocate s)).game_slot)] := by
      simp only [settleNewMap_effects, hp, and_self, if_true]
      by_cases h1 : c.removeFails (saveFileName c (enterNewMap c (teleportRelocate s)).game_slot)
          = true <;>
        by_cases h2 : c.removeFails
            (stashFileName c (enterNewMap c (teleportRelocate s)).game_slot) = true <;>
        simp [h1, h2, List.filter_cons, FileEffect.isRemove]
    refine ⟨hlist, ?_, ?_⟩
    · simp only [settleNewMap_effects, hp, and_self, if_true]
      by_cases h1 : c.removeFails (saveFileName c (enterNewMap c (teleportRelocate s)).game_slot)
          = true <;>
        by_cases h2 : c.removeFails
            (stashFileName c (enterNewMap c (teleportRelocate s)).game_slot) = true <;>
        simp [h1, h2]
    · obtain ⟨_, _, _, _, g5⟩ := teleportDone_land_positions
        (settleNewMap c ⟨enterNewMap c (teleportRelocate s), []⟩).state
      rw [g5, settleNewMap_state]
      simp only [hp, and_self, if_true]
      rfl
  · intro hp
    simp only [settleNewMap_effects, hp, if_false]

/-- Witness for C13: a dead permadeath avatar of slot 2 enters a new map while every removal
fails, and a living avatar does the same. -/
theorem checkTeleport_new_map_files_witness :
    ((checkTeleport quietTeleportCollab
        { plainTeleport with map_teleportation := true, teleport_mapname := "maps/cave.txt",
                             permadeath := true, corpse := true }).effects.filter
          FileEffect.isRemove
      = [FileEffect.remove "/home/hero/mod_save2.txt",
          FileEffect.remove "/home/hero/mod_stash_HC2.txt"]) ∧
    (checkTeleport quietTeleportCollab
        { plainTeleport with map_teleportation := true, teleport_mapname := "maps/cave.txt" }
      ).effects = [FileEffect.saveGame] :=
  ⟨((checkTeleport_new_map_files quietTeleportCollab
      { plainTeleport with map_teleportation := true, teleport_mapname := "maps/cave.txt",
                           permadeath := true, corpse := true } (by decide)).1
      (by decide)).1,
    (checkTeleport_new_map_files quietTeleportCollab
      { plainTeleport with map_teleportation := true, teleport_mapname := "maps/cave.txt" }
      (by decide)).2 (by decide)⟩

/-! ### NPC interaction -/

/-- Helper: the selection block leaves the event data, the dialog flags and the menus alone,
and keeps an NPC selected when one was. -/
theorem npcSelect_frame (c : NPCCollab) (s : NPCState) :
    (npcSelect c s).1.event_npc = s.event_npc ∧
    (npcSelect c s).1.eventDialogOngoing = s.eventDialogOngoing ∧
    (npcSelect c s).1.eventPendingDialog = s.eventPendingDialog ∧
    (s.npc_id ≠ -1 → (npcSelect c s).1.npc_id ≠ -1) ∧
    (npcSelect c s).2.player_ok = (s.alive && s.humanoid) := by
  unfold npcSelect
  dsimp only
  split_ifs with h1 h2 h3
  · exact ⟨rfl, rfl, rfl, fun _ => h2, rfl⟩
  · exact ⟨rfl, rfl, rfl, fun h => h, rfl⟩
  · exact ⟨rfl, rfl, rfl, fun _ => h3.1, rfl⟩
  · exact ⟨rfl, rfl, rfl, fun h => h, rfl⟩

/-- Helper: what the event block does when the map event names an NPC. -/
theorem npcEvent_named (c : NPCCollab) (s : NPCState) (hev : s.event_npc ≠ "") :
    (npcEvent c s).npc_id = c.getID s.event_npc ∧
    (npcEvent c s).event_npc = "" ∧
    (c.getID s.event_npc ≠ -1 →
      (npcEvent c s).eventDialogOngoing = true ∧ (npcEvent c s).eventPendingDialog = true) ∧
    (c.getID s.event_npc = -1 →
      (npcEvent c s).eventDialogOngoing = s.eventDialogOngoing ∧
      (npcEvent c s).eventPendingDialog = s.eventPendingDialog) := by
  unfold npcEvent
  rw [if_pos hev]
  dsimp only
  by_cases h : c.getID s.event_npc = -1
  · rw [if_neg (not_not.mpr h)]
    exact ⟨rfl, rfl, fun h2 => absurd h h2, fun _ => ⟨rfl, rfl⟩⟩
  · rw [if_pos h]
    exact ⟨rfl, rfl, fun _ => ⟨rfl, rfl⟩, fun h2 => absurd h2 h⟩

/-- Helper: the event block does nothing when the map event names no NPC. -/
theorem npcEvent_idle (c : NPCCollab) (s : NPCState) (hev : s.event_npc = "") :
    npcEvent c s = s := by
  unfold npcEvent
  rw [if_neg (not_not.mpr hev)]

/-- Helper: the block that hands the NPC to the action menu changes only the key locks and the
action menu. -/
theorem npcOpenMenu_frame (c : NPCCollab) (l : NPCLocals) (s : NPCState) :
    (npcOpenMenu c l s).npc_id = s.npc_id ∧
    (npcOpenMenu c l s).event_npc = s.event_npc ∧
    (npcOpenMenu c l s).eventDialogOngoing = s.eventDialogOngoing ∧
    (npcOpenMenu c l s).eventPendingDialog = s.eventPendingDialog := by
  unfold npcOpenMenu
  dsimp only
  split_ifs <;> exact ⟨rfl, rfl, rfl, rfl⟩

/-- Helper: the action block leaves the selected NPC, the event data and the ongoing flag
alone, and leaves no dialog pending when it runs. -/
theorem npcAct_frame (c : NPCCollab) (s : NPCState) :
    (npcAct c s).npc_id = s.npc_id ∧
    (npcAct c s).event_npc = s.event_npc ∧
    (npcAct c s).eventDialogOngoing = s.eventDialogOngoing ∧
    (s.npc_id ≠ -1 → s.eventPendingDialog = true → (npcAct c s).eventPendingDialog = false) ∧
    (s.npc_id = -1 → (npcAct c s).eventPendingDialog = s.eventPendingDialog) := by
  unfold npcAct closeAll
  dsimp only
  split_ifs with h1 h2 h3
  · exact ⟨rfl, rfl, rfl, fun _ _ => rfl, fun h => absurd h h1.1⟩
  · exact ⟨rfl, rfl, rfl, fun _ _ => rfl, fun h => absurd h h1.1⟩
  · exact ⟨rfl, rfl, rfl, fun _ _ => rfl, fun h => absurd h h1.1⟩
  · refine ⟨rfl, rfl, rfl, fun ha hb => absurd ⟨ha, Or.inr hb⟩ h1, fun _ => rfl⟩

/-- Helper: the walking-away block leaves the event data and the pending flag alone, and the
selected NPC too when a scripted dialog is ongoing or no NPC is selected. -/
theorem npcWalkAway_frame (c : NPCCollab) (l : NPCLocals) (s : NPCState) :
    (npcWalkAway c l s).event_npc = s.event_npc ∧
    (npcWalkAway c l s).eventPendingDialog = s.eventPendingDialog ∧
    (s.npc_id = -1 ∨ s.eventDialogOngoing = true →
      (npcWalkAway c l s).npc_id = s.npc_id ∧
      (npcWalkAway c l s).vendor_visible = s.vendor_visible ∧
      (npcWalkAway c l s).talker_visible = s.talker_visible ∧
      (npcWalkAway c l s).allow_movement = s.allow_movement) := by
  unfold npcWalkAway closeAll
  dsimp only
  split_ifs with h1 h2 h3 h4
  · refine ⟨rfl, rfl, ?_⟩
    rintro (h | h)
    · exact absurd h h1.1
    · rw [h1.2] at h; cases h
  · refine ⟨rfl, rfl, ?_⟩
    rintro (h | h)
    · exact absurd h h1.1
    · rw [h1.2] at h; cases h
  · exact ⟨rfl, rfl, fun _ => ⟨rfl, rfl, rfl, rfl⟩⟩
  · exact ⟨rfl, rfl, fun _ => ⟨rfl, rfl, rfl, rfl⟩⟩
  · exact ⟨rfl, rfl, fun _ => ⟨rfl, rfl, rfl, rfl⟩⟩

/-- Helper: the last block changes `allow_movement` only, and allows movement when the talk
menu is hidden. -/
theorem npcMovement_frame (s : NPCState) :
    (npcMovement s).npc_id = s.npc_id ∧
    (npcMovement s).event_npc = s.event_npc ∧
    (npcMovement s).eventDialogOngoing = s.eventDialogOngoing ∧
    (npcMovement s).eventPendingDialog = s.eventPendingDialog ∧
    (npcMovement s).vendor_visible = s.vendor_visible ∧
    (npcMovement s).talker_visible = s.talker_visible ∧
    (npcMovement s).npc_menu = s.npc_menu ∧
    (s.talker_visible = false → (npcMovement s).allow_movement = true) ∧
    (s.talker_visible = true → (npcMovement s).allow_movement = s.allow_movement) := by
  unfold npcMovement
  split_ifs with h
  · exact ⟨rfl, rfl, rfl, rfl, rfl, rfl, rfl, fun _ => rfl, fun h2 => by rw [h] at h2; cases h2⟩
  · exact ⟨rfl, rfl, rfl, rfl, rfl, rfl, rfl, fun h2 => absurd h2 h, fun _ => rfl⟩

/-- Helper: `checkNPCInteraction` for an avatar that is not attacking. -/
theorem checkNPCInteraction_run (c : NPCCollab) (s : NPCState) (hatt : s.attacking = false) :
    checkNPCInteraction c s
      = npcMovement (npcWalkAway c (npcSelect c s).2 (npcAct c (atActionBlock c s))) := by
  unfold checkNPCInteraction
  rw [if_neg (by rw [hatt]; exact Bool.false_ne_true)]

/-- Counterexample for C18: while the avatar is attacking, `checkNPCInteraction` returns at
once, so a movement restriction stays although the talk menu is hidden. -/
theorem checkNPCInteraction_attacking_keeps_restriction :
    (checkNPCInteraction plainNPCCollab
      { plainNPCState with attacking := true, allow_movement := false }).talker_visible = false ∧
    (checkNPCInteraction plainNPCCollab
      { plainNPCState with attacking := true, allow_movement := false }).allow_movement
      = false := by
  decide

/-- Claim C18, amended. After every call of `checkNPCInteraction` with an avatar that is not
attacking, if the talk menu is not visible then `pc->allow_movement` is true; with an attacking
avatar the call changes nothing. -/
theorem checkNPCInteraction_movement (c : NPCCollab) (s : NPCState) :
    (s.attacking = false → (checkNPCInteraction c s).talker_visible = false →
      (checkNPCInteraction c s).allow_movement = true) ∧
    (s.attacking = true → checkNPCInteraction c s = s) := by
  constructor
  · intro hatt
    rw [checkNPCInteraction_run c s hatt]
    obtain ⟨_, _, _, _, _, g6, _, g8, _⟩ :=
      npcMovement_frame (npcWalkAway c (npcSelect c s).2 (npcAct c (atActionBlock c s)))
    intro hv
    exact g8 (g6 ▸ hv)
  · intro hatt
    unfold checkNPCInteraction
    rw [if_pos hatt]

/-- Witness for C18: a dialog has just been closed and the avatar, not attacking, is still
held in place. -/
theorem checkNPCInteraction_movement_witness :
    (checkNPCInteraction plainNPCCollab
      { plainNPCState with allow_movement := false }).allow_movement = true ∧
    checkNPCInteraction plainNPCCollab { plainNPCState with attacking := true }
      = { plainNPCState with attacking := true } :=
  ⟨(checkNPCInteraction_movement plainNPCCollab { plainNPCState with allow_movement := false }).1
      rfl (by decide),
    (checkNPCInteraction_movement plainNPCCollab { plainNPCState with attacking := true }).2
      rfl⟩

/-- Counterexample for C15: the map event names an NPC that the NPC manager does not know
(`getID` returns -1): no flag is set, neither in the event block nor when the call returns. -/
theorem event_npc_unknown_sets_no_flag :
    ({ plainNPCState with event_npc := "ghost" } : NPCState).attacking = false ∧
    ({ plainNPCState with event_npc := "ghost" } : NPCState).event_npc ≠ "" ∧
    (npcEvent plainNPCCollab
      (npcSelect plainNPCCollab { plainNPCState with event_npc := "ghost" }).1
      ).eventDialogOngoing = false ∧
    (npcEvent plainNPCCollab
      (npcSelect plainNPCCollab { plainNPCState with event_npc := "ghost" }).1
      ).eventPendingDialog = false ∧
    (checkNPCInteraction plainNPCCollab
      { plainNPCState with event_npc := "ghost" }).eventDialogOngoing = false ∧
    (checkNPCInteraction plainNPCCollab
      { plainNPCState with event_npc := "ghost" }).eventPendingDialog = false := by
  decide

/-- Claim C15, amended. For every state in which the avatar is not attacking and
`mapr->event_npc` is not empty, whatever the distances, the mouse and the keys: the event block
of `checkNPCInteraction` sets `npc_id` to what `npcs->getID` returns for the name and clears
`event_npc`; when that id is not -1 it sets both `eventDialogOngoing` and `eventPendingDialog`,
when it is -1 it leaves both as they were.  When the call returns, `npc_id` is still that id,
`event_npc` is empty, and a dialog set pending by the event has been taken up
(`eventPendingDialog` is false again). -/
theorem checkNPCInteraction_event_npc (c : NPCCollab) (s : NPCState)
    (hatt : s.attacking = false) (hev : s.event_npc ≠ "") :
    (npcEvent c (npcSelect c s).1).npc_id = c.getID s.event_npc ∧
    (npcEvent c (npcSelect c s).1).event_npc = "" ∧
    (c.getID s.event_npc ≠ -1 →
      (npcEvent c (npcSelect c s).1).eventDialogOngoing = true ∧
      (npcEvent c (npcSelect c s).1).eventPendingDialog = true) ∧
    (c.getID s.event_npc = -1 →
      (npcEvent c (npcSelect c s).1).eventDialogOngoing = s.eventDialogOngoing ∧
      (npcEvent c (npcSelect c s).1).eventPendingDialog = s.eventPendingDialog) ∧
    (checkNPCInteraction c s).npc_id = c.getID s.event_npc ∧
    (checkNPCInteraction c s).event_npc = "" ∧
    (c.getID s.event_npc ≠ -1 → (checkNPCInteraction c s).eventPendingDialog = false) := by
  obtain ⟨f1, f2, f3, _, _⟩ := npcSelect_frame c s
  have hev1 : (npcSelect c s).1.event_npc ≠ "" := by rw [f1]; exact hev
  obtain ⟨e1, e2, e3, e4⟩ := npcEvent_named c (npcSelect c s).1 hev1
  rw [f1] at e1 e3 e4
  rw [f2, f3] at e4
  obtain ⟨o1, o2, o3, o4⟩ :=
    npcOpenMenu_frame c (npcSelect c s).2 (npcEvent c (npcSelect c s).1)
  obtain ⟨a1, a2, a3, a4, _⟩ := npcAct_frame c (atActionBlock c s)
  obtain ⟨w1, w2, w3⟩ :=
    npcWalkAway_frame c (npcSelect c s).2 (npcAct c (atActionBlock c s))
  obtain ⟨m1, m2, _, m4, _⟩ :=
    npcMovement_frame (npcWalkAway c (npcSelect c s).2 (npcAct c (atActionBlock c s)))
  have hid : (npcAct c (atActionBlock c s)).npc_id = c.getID s.event_npc := by
    rw [a1]; unfold atActionBlock; rw [o1, e1]
  have hong : c.getID s.event_npc ≠ -1 →
      (npcAct c (atActionBlock c s)).eventDialogOngoing = true := by
    intro h
    rw [a3]; unfold atActionBlock; rw [o3]; exact (e3 h).1
  have hkeep : (npcAct c (atActionBlock c s)).npc_id = -1 ∨
      (npcAct c (atActionBlock c s)).eventDialogOngoing = true := by
    by_cases h : c.getID s.event_npc = -1
    · exact Or.inl (hid.trans h)
    · exact Or.inr (hong h)
  refine ⟨e1, e2, e3, e4, ?_, ?_, ?_⟩
  · rw [checkNPCInteraction_run c s hatt, m1, (w3 hkeep).1, hid]
  · rw [checkNPCInteraction_run c s hatt, m2, w1, a2]
    unfold atActionBlock
    rw [o2, e2]
  · intro h
    rw [checkNPCInteraction_run c s hatt, m4, w2]
    apply a4
    · unfold atActionBlock; rw [o1, e1]; exact h
    · unfold atActionBlock; rw [o4]; exact (e3 h).2

/-- Witness for C15: the map event names the elder, who stands 900 away, far outside the
interaction range of 100; no key is pressed. -/
theorem checkNPCInteraction_event_npc_witness :
    (npcEvent plainNPCCollab
      (npcSelect plainNPCCollab { plainNPCState with event_npc := "elder" }).1
      ).eventPendingDialog = true ∧
    (checkNPCInteraction plainNPCCollab { plainNPCState with event_npc := "elder" }).npc_id
      = 0 :=
  ⟨((checkNPCInteraction_event_npc plainNPCCollab { plainNPCState with event_npc := "elder" }
      rfl (by decide)).2.2.1 (by decide)).2,
    (checkNPCInteraction_event_npc plainNPCCollab { plainNPCState with event_npc := "elder" }
      rfl (by decide)).2.2.2.2.1⟩

/-- Counterexample for C16: a scripted dialog is pending for an NPC that offers several
actions, so the action menu holds no selection: the action block runs, closes no menu and
opens neither the vendor menu nor the talk menu. -/
theorem pending_dialog_opens_neither :
    (atActionBlock manyActionsCollab
      { plainNPCState with event_npc := "elder", other_menus_visible := true }).npc_id ≠ -1 ∧
    (atActionBlock manyActionsCollab
      { plainNPCState with event_npc := "elder", other_menus_visible := true }
      ).eventPendingDialog = true ∧
    (checkNPCInteraction manyActionsCollab
      { plainNPCState with event_npc := "elder", other_menus_visible := true }
      ).vendor_visible = false ∧
    (checkNPCInteraction manyActionsCollab
      { plainNPCState with event_npc := "elder", other_menus_visible := true }
      ).talker_visible = false ∧
    (checkNPCInteraction manyActionsCollab
      { plainNPCState with event_npc := "elder", other_menus_visible := true }
      ).other_menus_visible = true := by
  decide

/-- Helper: what the action block opens when it runs. -/
theorem npcAct_opens (c : NPCCollab) (q : NPCState) (hsel : q.npc_id ≠ -1)
    (hact : q.npc_menu.has_selection = true ∨ q.eventPendingDialog = true) :
    (q.npc_menu.vendor_selected = true →
      (npcAct c q).vendor_visible = true ∧ (npcAct c q).talker_visible = false ∧
      (npcAct c q).inv_visible = true ∧ (npcAct c q).other_menus_visible = false ∧
      (npcAct c q).vendor_npc = some q.npc_id) ∧
    (q.npc_menu.vendor_selected = false → q.npc_menu.dialog_selected = true →
      (npcAct c q).talker_visible = true ∧ (npcAct c q).vendor_visible = false ∧
      (npcAct c q).inv_visible = false ∧ (npcAct c q).other_menus_visible = false ∧
      (npcAct c q).talker_npc = some q.npc_id ∧
      (npcAct c q).allow_movement
        = c.checkMovement q.npc_id q.npc_menu.selected_dialog_node) ∧
    (q.npc_menu.vendor_selected = false → q.npc_menu.dialog_selected = false →
      (npcAct c q).vendor_visible = q.vendor_visible ∧
      (npcAct c q).talker_visible = q.talker_visible ∧
      (npcAct c q).inv_visible = q.inv_visible ∧
      (npcAct c q).other_menus_visible = q.other_menus_visible ∧
      (npcAct c q).allow_movement = q.allow_movement) := by
  unfold npcAct closeAll
  rw [if_pos ⟨hsel, hact⟩]
  dsimp only
  refine ⟨?_, ?_, ?_⟩
  · intro hv
    rw [if_pos hv]
    exact ⟨rfl, rfl, rfl, rfl, rfl⟩
  · intro hv hd
    rw [if_neg (by rw [hv]; exact Bool.false_ne_true), if_pos hd]
    exact ⟨rfl, rfl, rfl, rfl, rfl, rfl⟩
  · intro hv hd
    rw [if_neg (by rw [hv]; exact Bool.false_ne_true),
      if_neg (by rw [hd]; exact Bool.false_ne_true)]
    exact ⟨rfl, rfl, rfl, rfl, rfl⟩

/-- Claim C16, amended. Whenever `checkNPCInteraction` reaches its action block with an NPC
selected and either a selection in the NPC action menu or a scripted dialog pending: if the
vendor is selected it closes all menus and shows the vendor menu (with the inventory) and not
the talk menu; otherwise, if a dialog is selected, it sets `pc->allow_movement` to the movement
policy of the chosen dialog node, closes all menus and shows the talk menu and not the vendor
menu; if neither is selected it closes nothing and opens nothing.  The vendor and talk menus
are as the action block leaves them when the call returns, and `allow_movement` is as it set
it while the talk menu is shown, provided the walking-away check that follows does not fire (a
scripted dialog is ongoing, or the avatar is within range and able to interact). -/
theorem checkNPCInteraction_opens_one (c : NPCCollab) (s : NPCState)
    (hatt : s.attacking = false)
    (hsel : (atActionBlock c s).npc_id ≠ -1)
    (hact : (atActionBlock c s).npc_menu.has_selection = true ∨
      (atActionBlock c s).eventPendingDialog = true) :
    ((atActionBlock c s).npc_menu.vendor_selected = true →
      (npcAct c (atActionBlock c s)).vendor_visible = true ∧
      (npcAct c (atActionBlock c s)).talker_visible = false ∧
      (npcAct c (atActionBlock c s)).inv_visible = true ∧
      (npcAct c (atActionBlock c s)).other_menus_visible = false) ∧
    ((atActionBlock c s).npc_menu.vendor_selected = false →
      (atActionBlock c s).npc_menu.dialog_selected = true →
      (npcAct c (atActionBlock c s)).talker_visible = true ∧
      (npcAct c (atActionBlock c s)).vendor_visible = false ∧
      (npcAct c (atActionBlock c s)).inv_visible = false ∧
      (npcAct c (atActionBlock c s)).other_menus_visible = false ∧
      (npcAct c (atActionBlock c s)).allow_movement
        = c.checkMovement (atActionBlock c s).npc_id
            (atActionBlock c s).npc_menu.selected_dialog_node) ∧
    ((atActionBlock c s).npc_menu.vendor_selected = false →
      (atActionBlock c s).npc_menu.dialog_selected = false →
      (npcAct c (atActionBlock c s)).vendor_visible = (atActionBlock c s).vendor_visible ∧
      (npcAct c (atActionBlock c s)).talker_visible = (atActionBlock c s).talker_visible ∧
      (npcAct c (atActionBlock c s)).other_menus_visible
        = (atActionBlock c s).other_menus_visible) ∧
    ((atActionBlock c s).eventDialogOngoing = true ∨
        (¬ ((npcSelect c s).2.interact_distance > c.INTERACT_RANGE) ∧
          (npcSelect c s).2.player_ok = true) →
      (checkNPCInteraction c s).vendor_visible
        = (npcAct c (atActionBlock c s)).vendor_visible ∧
      (checkNPCInteraction c s).talker_visible
        = (npcAct c (atActionBlock c s)).talker_visible ∧
      ((npcAct c (atActionBlock c s)).talker_visible = true →
        (checkNPCInteraction c s).allow_movement
          = (npcAct c (atActionBlock c s)).allow_movement)) := by
  obtain ⟨h1, h2, h3⟩ := npcAct_opens c (atActionBlock c s) hsel hact
  refine ⟨?_, ?_, ?_, ?_⟩
  · intro hv
    obtain ⟨g1, g2, g3, g4, _⟩ := h1 hv
    exact ⟨g1, g2, g3, g4⟩
  · intro hv hd
    obtain ⟨g1, g2, g3, g4, _, g6⟩ := h2 hv hd
    exact ⟨g1, g2, g3, g4, g6⟩
  · intro hv hd
    obtain ⟨g1, g2, _, g4, _⟩ := h3 hv hd
    exact ⟨g1, g2, g4⟩
  · intro hstay
    rw [checkNPCInteraction_run c s hatt]
    obtain ⟨_, _, _, _, m5, m6, _, _, m9⟩ :=
      npcMovement_frame (npcWalkAway c (npcSelect c s).2 (npcAct c (atActionBlock c s)))
    have hw : (npcWalkAway c (npcSelect c s).2 (npcAct c (atActionBlock c s))).vendor_visible
          = (npcAct c (atActionBlock c s)).vendor_visible ∧
        (npcWalkAway c (npcSelect c s).2 (npcAct c (atActionBlock c s))).talker_visible
          = (npcAct c (atActionBlock c s)).talker_visible ∧
        (npcWalkAway c (npcSelect c s).2 (npcAct c (atActionBlock c s))).allow_movement
          = (npcAct c (atActionBlock c s)).allow_movement := by
      rcases hstay with hong | ⟨hd, hok⟩
      · have hong2 : (npcAct c (atActionBlock c s)).eventDialogOngoing = true := by
          rw [(npcAct_frame c (atActionBlock c s)).2.2.1]; exact hong
        obtain ⟨_, _, w3⟩ :=
          npcWalkAway_frame c (npcSelect c s).2 (npcAct c (atActionBlock c s))
        obtain ⟨_, w5, w6, w7⟩ := w3 (Or.inr hong2)
        exact ⟨w5, w6, w7⟩
      · unfold npcWalkAway
        have hno : ¬ ((npcSelect c s).2.interact_distance > c.INTERACT_RANGE ∨
            (npcSelect c s).2.player_ok = false) := by
          rintro (h | h)
          · exact hd h
          · rw [hok] at h; cases h
        rw [if_neg hno]
        split_ifs <;> exact ⟨rfl, rfl, rfl⟩
    refine ⟨m5.trans hw.1, m6.trans hw.2.1, ?_⟩
    intro ht
    rw [m9 (hw.2.1.trans ht)]
    exact hw.2.2

/-- Witness for C16: the map event names the elder, whose single dialog is selected at once:
the talk menu opens, the vendor menu does not, and movement follows the policy of node 3. -/
theorem checkNPCInteraction_opens_one_witness :
    (checkNPCInteraction plainNPCCollab
      { plainNPCState with event_npc := "elder" }).talker_visible = true ∧
    (checkNPCInteraction plainNPCCollab
      { plainNPCState with event_npc := "elder" }).vendor_visible = false ∧
    (checkNPCInteraction plainNPCCollab
      { plainNPCState with event_npc := "elder" }).allow_movement = false := by
  have h := checkNPCInteraction_opens_one plainNPCCollab
    { plainNPCState with event_npc := "elder" } rfl (by decide) (by decide)
  have h2 := h.2.1 (by decide) (by decide)
  have h4 := h.2.2.2 (Or.inl (by decide))
  exact ⟨h4.2.1.trans h2.1, h4.1.trans h2.2.1, (h4.2.2 h2.1).trans h2.2.2.2.2⟩

/-- Counterexample for C17: with the elder selected, 900 away (the range is 100), no scripted
dialog ongoing and a living humanoid avatar that is not attacking, the selection and an open
menu survive the call in two cases.  First the map event names the elder: the scripted dialog
starts and the talk menu opens.  Second the mouse hovers, without a click, over NPC 1 at
distance 10: the vendor menu of the elder stays open. -/
theorem far_npc_stays_selected :
    plainNPCCollab.calcDist 0 > plainNPCCollab.INTERACT_RANGE ∧
    (checkNPCInteraction plainNPCCollab
      { plainNPCState with npc_id := 0, event_npc := "elder" }).npc_id = 0 ∧
    (checkNPCInteraction plainNPCCollab
      { plainNPCState with npc_id := 0, event_npc := "elder" }).talker_visible = true ∧
    (checkNPCInteraction { plainNPCCollab with checkNPCClick := 1 }
      { plainNPCState with npc_id := 0, vendor_visible := true }).npc_id = 0 ∧
    (checkNPCInteraction { plainNPCCollab with checkNPCClick := 1 }
      { plainNPCState with npc_id := 0, vendor_visible := true }).vendor_visible = true := by
  decide

/-- Helper: what the walking-away block leaves when it fires. -/
theorem npcWalkAway_fires (c : NPCCollab) (l : NPCLocals) (q : NPCState)
    (hnull : ∀ m : NPCMenu, m.visible = false → (c.setNPC none m).visible = false)
    (hsel : q.npc_id ≠ -1) (hong : q.eventDialogOngoing = false)
    (hfar : l.interact_distance > c.INTERACT_RANGE ∨ l.player_ok = false) :
    (npcWalkAway c l q).npc_id = -1 ∧
    (npcWalkAway c l q).vendor_visible = false ∧
    (npcWalkAway c l q).talker_visible = false ∧
    (npcWalkAway c l q).npc_menu.visible = false := by
  unfold npcWalkAway
  rw [if_pos ⟨hsel, hong⟩, if_pos hfar]
  dsimp only
  by_cases hv : q.vendor_visible = true ∨ q.talker_visible = true ∨ q.npc_menu.visible = true
  · rw [if_pos hv]
    exact ⟨rfl, rfl, rfl, hnull _ rfl⟩
  · rw [if_neg hv]
    have h1 : q.vendor_visible = false := by
      cases h : q.vendor_visible
      · rfl
      · exact absurd (Or.inl h) hv
    have h2 : q.talker_visible = false := by
      cases h : q.talker_visible
      · rfl
      · exact absurd (Or.inr (Or.inl h)) hv
    have h3 : q.npc_menu.visible = false := by
      cases h : q.npc_menu.visible
      · rfl
      · exact absurd (Or.inr (Or.inr h)) hv
    exact ⟨rfl, h1, h2, hnull _ h3⟩

/-- Helper: the distance that the selection block computes when the mouse is over no other NPC
than the selected one and the selection does not change. -/
theorem npcSelect_distance (c : NPCCollab) (s : NPCState) (hsel : s.npc_id ≠ -1)
    (hhover : c.checkNPCClick = -1 ∨ c.checkNPCClick = s.npc_id)
    (hkeep : (npcSelect c s).1.npc_id = s.npc_id) :
    (npcSelect c s).2.interact_distance = c.calcDist s.npc_id := by
  have hd : (npcSelect c s).2.interact_distance
      = if c.checkNPCClick ≠ -1 then c.calcDist c.checkNPCClick
        else if (npcSelect c s).1.npc_id ≠ -1 then c.calcDist (npcSelect c s).1.npc_id
        else 0 := rfl
  rw [hd, hkeep]
  rcases hhover with h | h
  · rw [if_neg (not_not.mpr h), if_pos hsel]
  · rw [h, if_pos hsel]

/-- Claim C17, amended. For every state with an NPC selected, no scripted dialog ongoing, no
NPC named by the map event and the avatar not attacking: if the avatar is dead or non-humanoid,
or if it is farther than `INTERACT_RANGE` from the selected NPC while the mouse is over no
other NPC and no click or key press changes the selection, then after `checkNPCInteraction`
`npc_id` is -1 and none of the vendor, talk and NPC action menus is visible (`setNPC(NULL)`
being taken not to show the action menu). -/
theorem checkNPCInteraction_walk_away (c : NPCCollab) (s : NPCState)
    (hatt : s.attacking = false) (hsel : s.npc_id ≠ -1)
    (hong : s.eventDialogOngoing = false) (hev : s.event_npc = "")
    (hnull : ∀ m : NPCMenu, m.visible = false → (c.setNPC none m).visible = false)
    (hcase : (s.alive = false ∨ s.humanoid = false) ∨
      (c.calcDist s.npc_id > c.INTERACT_RANGE ∧
        (c.checkNPCClick = -1 ∨ c.checkNPCClick = s.npc_id) ∧
        (npcSelect c s).1.npc_id = s.npc_id)) :
    (checkNPCInteraction c s).npc_id = -1 ∧
    (checkNPCInteraction c s).vendor_visible = false ∧
    (checkNPCInteraction c s).talker_visible = false ∧
    (checkNPCInteraction c s).npc_menu.visible = false := by
  obtain ⟨f1, f2, _, f4, f5⟩ := npcSelect_frame c s
  have hidle : npcEvent c (npcSelect c s).1 = (npcSelect c s).1 :=
    npcEvent_idle c _ (f1.trans hev)
  obtain ⟨o1, _, o3, _⟩ := npcOpenMenu_frame c (npcSelect c s).2 (npcEvent c (npcSelect c s).1)
  obtain ⟨a1, _, a3, _, _⟩ := npcAct_frame c (atActionBlock c s)
  have hq1 : (npcAct c (atActionBlock c s)).npc_id ≠ -1 := by
    rw [a1]; unfold atActionBlock; rw [o1, hidle]; exact f4 hsel
  have hq2 : (npcAct c (atActionBlock c s)).eventDialogOngoing = false := by
    rw [a3]; unfold atActionBlock; rw [o3, hidle, f2]; exact hong
  have hfar : (npcSelect c s).2.interact_distance > c.INTERACT_RANGE ∨
      (npcSelect c s).2.player_ok = false := by
    rcases hcase with (h | h) | ⟨h1, h2, h3⟩
    · right; rw [f5, h]; rfl
    · right; rw [f5, h]; exact Bool.and_false _
    · left; rw [npcSelect_distance c s hsel h2 h3]; exact h1
  obtain ⟨w1, w2, w3, w4⟩ :=
    npcWalkAway_fires c (npcSelect c s).2 (npcAct c (atActionBlock c s)) hnull hq1 hq2 hfar
  obtain ⟨m1, _, _, _, m5, m6, m7, _, _⟩ :=
    npcMovement_frame (npcWalkAway c (npcSelect c s).2 (npcAct c (atActionBlock c s)))
  rw [checkNPCInteraction_run c s hatt]
  exact ⟨m1.trans w1, m5.trans w2, m6.trans w3, by rw [m7]; exact w4⟩

/-- Witness for C17: the elder is selected with the vendor menu open, the avatar stands 900
away, and nothing is under the mouse. -/
theorem checkNPCInteraction_walk_away_witness :
    (checkNPCInteraction plainNPCCollab
      { plainNPCState with npc_id := 0, vendor_visible := true }).npc_id = -1 ∧
    (checkNPCInteraction plainNPCCollab
      { plainNPCState with npc_id := 0, vendor_visible := true }).vendor_visible = false ∧
    (checkNPCInteraction plainNPCCollab
      { plainNPCState with npc_id := 0, vendor_visible := true }).talker_visible = false ∧
    (checkNPCInteraction plainNPCCollab
      { plainNPCState with npc_id := 0, vendor_visible := true }).npc_menu.visible = false :=
  checkNPCInteraction_walk_away plainNPCCollab
    { plainNPCState with npc_id := 0, vendor_visible := true } rfl (by decide) rfl rfl
    (fun _ _ => rfl) (Or.inr ⟨by decide, Or.inl rfl, rfl⟩)

/-! ### Title rules with an unknown primary stat -/

/-- Helper: replacing a rule by one that is skipped in the same cases does not change where the
loop stops. -/
theorem titleLoop_congr (checkStatus : String → Bool) (s : StatBlock) (x y : Title)
    (hxy : titleSkipped checkStatus s x = titleSkipped checkStatus s y) (post : List Title) :
    ∀ (pre : List Title) (k : Nat),
      titleLoop checkStatus s (pre ++ x :: post) k
        = titleLoop checkStatus s (pre ++ y :: post) k := by
  intro pre
  induction pre with
  | nil => intro k; simp only [List.nil_append, titleLoop, hxy]
  | cons a rest ih =>
    intro k
    show (if titleSkipped checkStatus s a then
        titleLoop checkStatus s (rest ++ x :: post) (k + 1) else (k : Int))
      = (if titleSkipped checkStatus s a then
        titleLoop checkStatus s (rest ++ y :: post) (k + 1) else (k : Int))
    rw [ih]

/-- Helper: replacing a rule by one with the same title does not change the title found at an
index. -/
theorem getD_title_congr (x y : Title) (hxy : x.title = y.title) (post : List Title) :
    ∀ (pre : List Title) (i : Nat),
      ((pre ++ x :: post).getD i {}).title = ((pre ++ y :: post).getD i {}).title := by
  intro pre
  induction pre with
  | nil =>
    intro i
    cases i with
    | zero => simpa using hxy
    | succ i => simp
  | cons a rest ih =>
    intro i
    cases i with
    | zero => simp
    | succ i => simpa using ih i

/-- Claim C29. A rule whose `primary_stat` is none of the ten recognised names is treated as
the same rule with an empty `primary_stat`: the loop body skips it in the same cases, it is
accepted exactly when its other predicates hold, and `checkTitle` gives the same result on any
rule list in which the one rule stands for the other. -/
theorem checkTitle_unknown_primary_stat (checkStatus : String → Bool) (s : StatBlock)
    (t : Title) (n : String) (pre post : List Title) (hn : ∀ g : StatGroup, g.name ≠ n) :
    titleSkipped checkStatus s { t with primary_stat := n }
      = titleSkipped checkStatus s { t with primary_stat := "" } ∧
    (titleSkipped checkStatus s { t with primary_stat := n } = false ↔
      satisfies checkStatus s { t with primary_stat := "" }) ∧
    checkTitle checkStatus (pre ++ { t with primary_stat := n } :: post) s
      = checkTitle checkStatus (pre ++ { t with primary_stat := "" } :: post) s := by
  have hskip : titleSkipped checkStatus s { t with primary_stat := n }
      = titleSkipped checkStatus s { t with primary_stat := "" } := by
    have h1 := primaryStatSkips_unnamed s n hn
    have h2 : primaryStatSkips s "" = false := by simp [primaryStatSkips]
    simp only [titleSkipped, h1, h2]
  refine ⟨hskip, ?_, ?_⟩
  · rw [hskip]
    exact titleSkipped_false_iff checkStatus s _
  · have hloop := titleLoop_congr checkStatus s _ _ hskip post pre 0
    have hget := getD_title_congr { t with primary_stat := n } { t with primary_stat := "" }
      rfl post pre
    have he1 : (pre ++ { t with primary_stat := n } :: post).isEmpty = false := by
      cases pre <;> rfl
    have he2 : (pre ++ { t with primary_stat := "" } :: post).isEmpty = false := by
      cases pre <;> rfl
    unfold checkTitle
    rw [he1, he2, hloop]
    by_cases hc : s.check_title = false
    · simp [hc]
    · simp only [hc, Bool.false_eq_true, or_self, if_false, hget]

/-- Witness for C29: a rule that asks for the primary stat `luck` is accepted like a rule
without primary stat. -/
theorem checkTitle_unknown_primary_stat_witness :
    (checkTitle (fun _ => false) [{ title := "Gambler", primary_stat := "luck" }]
      { plainStats with check_title := true }).character_class = "Gambler" := by
  have h := (checkTitle_unknown_primary_stat (fun _ => false) { plainStats with check_title := true }
    { title := "Gambler" } "luck" [] [] (by decide)).2.2
  rw [List.nil_append] at h
  rw [h]
  decide

/-! ### The command line -/

/-- Helper: `parseArgLoop` copies the characters before the first `=`. -/
theorem parseArgLoop_name (value : List Char) :
    ∀ (name result : List Char), '=' ∉ name →
      parseArgLoop (name ++ '=' :: value) result = result ++ name := by
  intro name
  induction name with
  | nil => intro result _; simp [parseArgLoop]
  | cons c rest ih =>
    intro result h
    have hc : c ≠ '=' := fun e => h (by simp [e])
    have hr : '=' ∉ rest := fun e => h (by simp [e])
    show parseArgLoop (c :: (rest ++ '=' :: value)) result = _
    rw [parseArgLoop, if_neg hc, ih _ hr]
    simp

/-- Helper: without `=`, `parseArgLoop` copies every character. -/
theorem parseArgLoop_plain :
    ∀ (l result : List Char), '=' ∉ l → parseArgLoop l result = result ++ l := by
  intro l
  induction l with
  | nil => intro result _; simp [parseArgLoop]
  | cons c rest ih =>
    intro result h
    have hc : c ≠ '=' := fun e => h (by simp [e])
    have hr : '=' ∉ rest := fun e => h (by simp [e])
    rw [parseArgLoop, if_neg hc, ih _ hr]
    simp

/-- Helper: once `found_equals` is set, `parseArgValueLoop` copies every character. -/
theorem parseArgValueLoop_found :
    ∀ (l result : List Char), parseArgValueLoop l true result = result ++ l := by
  intro l
  induction l with
  | nil => intro result; simp [parseArgValueLoop]
  | cons c rest ih =>
    intro result
    rw [parseArgValueLoop]
    simp [ih]

/-- Helper: before the first `=`, `parseArgValueLoop` copies nothing. -/
theorem parseArgValueLoop_value (value : List Char) :
    ∀ (pre result : List Char), '=' ∉ pre →
      parseArgValueLoop (pre ++ '=' :: value) false result = result ++ value := by
  intro pre
  induction pre with
  | nil => intro result _; simp [parseArgValueLoop, parseArgValueLoop_found]
  | cons c rest ih =>
    intro result h
    have hc : c ≠ '=' := fun e => h (by simp [e])
    have hr : '=' ∉ rest := fun e => h (by simp [e])
    show parseArgValueLoop (c :: (rest ++ '=' :: value)) false result = _
    rw [parseArgValueLoop]
    simp [hc, ih _ hr]

/-- Helper: without `=`, `parseArgValueLoop` copies nothing. -/
theorem parseArgValueLoop_plain :
    ∀ (l result : List Char), '=' ∉ l → parseArgValueLoop l false result = result := by
  intro l
  induction l with
  | nil => intro result _; simp [parseArgValueLoop]
  | cons c rest ih =>
    intro result h
    have hc : c ≠ '=' := fun e => h (by simp [e])
    have hr : '=' ∉ rest := fun e => h (by simp [e])
    rw [parseArgValueLoop]
    simp [hc, ih _ hr]

/-- Helper: the flag name and the value of `--name=value`. -/
theorem parseArg_name_value (name value : String) (h1 : name ≠ "") (h2 : '=' ∉ name.data) :
    parseArg ("--" ++ name ++ "=" ++ value) = name ∧
    parseArgValue ("--" ++ name ++ "=" ++ value) = value := by
  have hd : ("--" ++ name ++ "=" ++ value).data = '-' :: '-' :: (name.data ++ '=' :: value.data) := by
    simp [String.data_append]
  have hlen : name.data.length ≠ 0 := by
    intro h
    apply h1
    have : name.data = [] := List.length_eq_zero.mp h
    exact String.ext this
  constructor
  · unfold parseArg
    have hl : ("--" ++ name ++ "=" ++ value).length > 2 := by
      show ("--" ++ name ++ "=" ++ value).data.length > 2
      rw [hd]
      simp
    rw [if_pos ⟨hl, by rw [hd]; rfl, by rw [hd]; rfl⟩, hd]
    show (⟨parseArgLoop (name.data ++ '=' :: value.data) []⟩ : String) = name
    rw [parseArgLoop_name _ _ _ h2]
    rfl
  · unfold parseArgValue
    rw [hd]
    have h3 : '=' ∉ '-' :: '-' :: name.data := by
      simp only [List.mem_cons, not_or]
      exact ⟨by decide, by decide, h2⟩
    have := parseArgValueLoop_value value.data ('-' :: '-' :: name.data) [] h3
    simp only [List.cons_append, List.nil_append] at this
    rw [this]

/-- Claim C30. For a non-empty `name` without `=`, `parseArg` of `--name=value` is `name` and
`parseArgValue` of it is `value`; `parseArg` is empty for an argument that does not start with
`--` and for the argument `--` itself; `parseArgValue` is empty for an argument without `=`. -/
theorem parseArg_parseArgValue_spec :
    (∀ name value : String, name ≠ "" → '=' ∉ name.data →
      parseArg ("--" ++ name ++ "=" ++ value) = name ∧
      parseArgValue ("--" ++ name ++ "=" ++ value) = value) ∧
    (∀ arg : String, arg.data.take 2 ≠ ['-', '-'] ∨ arg = "--" → parseArg arg = "") ∧
    (∀ arg : String, '=' ∉ arg.data → parseArgValue arg = "") := by
  refine ⟨parseArg_name_value, ?_, ?_⟩
  · intro arg h
    unfold parseArg
    rw [if_neg]
    rintro ⟨hl, h0, h1⟩
    rcases h with h | h
    · apply h
      have hl2 : arg.data.length > 2 := hl
      match hd : arg.data, hl2, h0, h1 with
      | a :: b :: c :: rest, _, h0, h1 =>
        simp only [List.getD_cons_zero, List.getD_cons_succ] at h0 h1
        simp [h0, h1]
    · rw [h] at hl
      exact absurd hl (by decide)
  · intro arg h
    unfold parseArgValue
    rw [parseArgValueLoop_plain _ _ h]

/-- Witness for C30: the argument `--data-path=mods/x`, an argument with a single dash and an
argument without value. -/
theorem parseArg_parseArgValue_spec_witness :
    (parseArg "--data-path=mods/x" = "data-path" ∧ parseArgValue "--data-path=mods/x" = "mods/x") ∧
    parseArg "-help" = "" ∧ parseArgValue "--help" = "" :=
  ⟨parseArg_parseArgValue_spec.1 "data-path" "mods/x" (by decide) (by decide),
   parseArg_parseArgValue_spec.2.1 "-help" (Or.inl (by decide)),
   parseArg_parseArgValue_spec.2.2 "--help" (by decide)⟩

/-! ### The function `main` -/

/-- Helper: `done` is set by an argument exactly when its flag name is `version` or `help`. -/
theorem mainArg_done (env : MainEnv) (o : Options) (a : String) :
    (mainArg env o a).done = true ↔
      o.done = true ∨ parseArg a = "version" ∨ parseArg a = "help" := by
  unfold mainArg
  split_ifs with h1 h2 h3 h4 h5 <;> simp [*]

/-- Helper: `done` after the argument loop. -/
theorem mainParse_done (env : MainEnv) (args : List String) :
    ∀ o : Options, (args.foldl (mainArg env) o).done = true ↔
      o.done = true ∨ ∃ a ∈ args, parseArg a = "version" ∨ parseArg a = "help" := by
  induction args with
  | nil => intro o; simp
  | cons a rest ih =>
    intro o
    rw [List.foldl_cons, ih, mainArg_done]
    simp only [List.mem_cons, exists_eq_or_imp, or_assoc]

/-- Helper: an argument whose flag name is not recognised changes nothing. -/
theorem mainArg_unknown (env : MainEnv) (o : Options) (a : String)
    (h : parseArg a ∉ knownFlags) : mainArg env o a = o := by
  simp only [knownFlags, List.mem_cons, List.mem_singleton, List.not_mem_nil, or_false,
    not_or] at h
  obtain ⟨h1, h2, h3, h4, h5⟩ := h
  unfold mainArg
  rw [if_neg h1, if_neg h2, if_neg h3, if_neg h4, if_neg h5]

/-- Counterexample for C26: with no argument at all and a set-up that fails, `main` does not
return 0: the process ends inside `init` with status 1, and neither `mainLoop` nor `cleanup`
runs. -/
theorem main_init_failure_exits :
    (main { plainMainEnv with initReturns := false } []).outcome = Outcome.exited 1 ∧
    (main { plainMainEnv with initReturns := false } []).calls = [MainCall.init ""] := by
  decide

/-- Claim C26, amended. If an argument has the flag name `version` or `help`, `main` calls none
of `init`, `mainLoop` and `cleanup` and returns 0. Otherwise it calls `init` first; if `init`
ends the process the status is 1 and nothing else runs; if `init` returns, `mainLoop` runs, and
once it returns `cleanup` runs and `main` returns 0. An argument whose flag name is none of
`debug-event`, `data-path`, `version`, `renderer` and `help` has no effect. -/
theorem main_runs_game_unless_done (env : MainEnv) (args : List String) :
    ((∃ a ∈ args, parseArg a = "version" ∨ parseArg a = "help") →
      (main env args).calls = [] ∧ (main env args).outcome = Outcome.returned 0) ∧
    ((¬ ∃ a ∈ args, parseArg a = "version" ∨ parseArg a = "help") →
      (env.initReturns = false →
        (main env args).calls = [MainCall.init (mainParse env args).render_device_name] ∧
        (main env args).outcome = Outcome.exited 1) ∧
      (env.initReturns = true → env.mainLoopReturns = false →
        (main env args).calls = [MainCall.init (mainParse env args).render_device_name,
          MainCall.mainLoop (mainParse env args).debug_event] ∧
        (main env args).outcome = Outcome.running) ∧
      (env.initReturns = true → env.mainLoopReturns = true →
        (main env args).calls = [MainCall.init (mainParse env args).render_device_name,
          MainCall.mainLoop (mainParse env args).debug_event, MainCall.cleanup] ∧
        (main env args).outcome = Outcome.returned 0)) ∧
    (∀ (pre post : List String) (a : String), args = pre ++ a :: post →
      parseArg a ∉ knownFlags → main env args = main env (pre ++ post)) := by
  have hd := mainParse_done env args ⟨false, false, "", env.CUSTOM_PATH_DATA, []⟩
  simp only [Bool.false_eq_true, false_or] at hd
  refine ⟨?_, ?_, ?_⟩
  · intro h
    have hdone : (mainParse env args).done = true := hd.mpr h
    simp [main, hdone]
  · intro h
    have hdone : (mainParse env args).done = false := by
      cases hc : (mainParse env args).done
      · rfl
      · exact absurd (hd.mp hc) h
    refine ⟨?_, ?_, ?_⟩
    · intro hi
      simp [main, hdone, hi]
    · intro hi hl
      simp [main, hdone, hi, hl]
    · intro hi hl
      simp [main, hdone, hi, hl]
  · intro pre post a hargs hun
    have hp : mainParse env args = mainParse env (pre ++ post) := by
      rw [hargs]
      unfold mainParse
      rw [List.foldl_append, List.foldl_cons, mainArg_unknown env _ a hun, List.foldl_append]
    unfold main
    rw [hp]

/-- Witness for C26: `--version` stops before `init`; `--renderer=sdl` and the unknown flag
`--fast` lead to the three calls, the unknown flag changing nothing. -/
theorem main_runs_game_unless_done_witness :
    (main plainMainEnv ["--version"]).calls = [] ∧
    (main plainMainEnv ["--renderer=sdl", "--fast"]).calls
      = [MainCall.init "sdl", MainCall.mainLoop false, MainCall.cleanup] ∧
    main plainMainEnv ["--renderer=sdl", "--fast"] = main plainMainEnv ["--renderer=sdl"] :=
  ⟨((main_runs_game_unless_done plainMainEnv ["--version"]).1
      ⟨"--version", by simp, Or.inl (by decide)⟩).1,
   (((main_runs_game_unless_done plainMainEnv ["--renderer=sdl", "--fast"]).2.1
      (by decide)).2.2 rfl rfl).1,
   (main_runs_game_unless_done plainMainEnv ["--renderer=sdl", "--fast"]).2.2
      ["--renderer=sdl"] [] "--fast" rfl (by decide)⟩

/-! ### The slots of the apply handler -/

/-- Helper: the hotkeys and the lock flags that the apply handler leaves, slot by slot. -/
theorem transformApply_spec (power_index : Nat → Int) (manual_untransform : Bool)
    (untransform_power : Int) (a : ActionBar) :
    (transformApply power_index manual_untransform untransform_power a).hotkeys
      = (fun i => if i < 12 then
          (slotValue (placements power_index manual_untransform untransform_power) i).getD 0
          else a.hotkeys i) ∧
    (transformApply power_index manual_untransform untransform_power a).locked
      = (fun i =>
          if (slotValue (placements power_index manual_untransform untransform_power) i).isSome
          then true else a.locked i) := by
  obtain ⟨_, hs2, hs3⟩ := saveSlots_spec a 12
  have key : ∀ i : Nat, i = 0 ∨ i = 1 ∨ i = 2 ∨ i = 10 ∨ i = 11 ∨
      (i ≠ 0 ∧ i ≠ 1 ∧ i ≠ 2 ∧ i ≠ 10 ∧ i ≠ 11) := by
    intro i; omega
  by_cases h0 : power_index 0 = 0 <;> by_cases h1 : power_index 1 = 0 <;>
    by_cases h2 : power_index 2 = 0 <;> by_cases h3 : power_index 3 = 0 <;>
    by_cases hm : (manual_untransform = true ∧ untransform_power > 0) <;>
    (constructor <;> funext i <;>
      simp only [transformApply, placeLoop, placeStep, placements, placedPowers, slotSequence,
        h0, h1, h2, h3, hm, hs2, hs3, Function.update_apply, List.filter, slotValue,
        List.zip, List.zipWith, List.append, List.cons_append, List.nil_append,
        ne_eq, not_true_eq_false, not_false_eq_true, decide_True, decide_False,
        if_true, if_false, 
        Nat.reduceAdd, Nat.reduceEqDiff, OfNat.ofNat_ne_zero] <;>
      rcases key i with h | h | h | h | h | ⟨k0, k1, k2, k10, k11⟩ <;>
      first
        | (subst h; simp)
        | (simp [k0, k1, k2, k10, k11]))
/-- Helper: a slot that no placement names has no value. -/
theorem slotValue_none (i : Nat) :
    ∀ l : List (Nat × Int), (∀ p ∈ l, p.1 ≠ i) → slotValue l i = none := by
  intro l
  induction l with
  | nil => intro _; rfl
  | cons q rest ih =>
    intro h
    obtain ⟨k, v⟩ := q
    have hk : i ≠ k := fun e => h (k, v) (List.mem_cons_self _ _) e.symm
    rw [slotValue, if_neg hk]
    exact ih (fun p hp => h p (List.mem_cons_of_mem _ hp))

/-- Helper: with distinct slots, the value of a slot is the power of its placement. -/
theorem slotValue_mem :
    ∀ l : List (Nat × Int), (l.map Prod.fst).Nodup → ∀ p ∈ l, slotValue l p.1 = some p.2 := by
  intro l
  induction l with
  | nil => intro _ p hp; exact absurd hp (List.not_mem_nil _)
  | cons q rest ih =>
    intro hnd p hp
    obtain ⟨k, v⟩ := q
    rw [List.map_cons, List.nodup_cons] at hnd
    rcases List.mem_cons.mp hp with h | h
    · subst h
      simp [slotValue]
    · have hk : p.1 ≠ k := by
        intro e
        have hm : p.1 ∈ rest.map Prod.fst := List.mem_map_of_mem Prod.fst h
        rw [e] at hm
        exact hnd.1 hm
      rw [slotValue, if_neg hk]
      exact ih hnd.2 p h

/-- Helper: pairing distinct slots with powers gives distinct slots. -/
theorem zip_fst_nodup :
    ∀ (l1 : List Nat) (l2 : List Int), l1.Nodup → ((l1.zip l2).map Prod.fst).Nodup := by
  intro l1
  induction l1 with
  | nil => intro l2 _; simp
  | cons x rest ih =>
    intro l2 h
    cases l2 with
    | nil => simp
    | cons y tail =>
      rw [List.nodup_cons] at h
      rw [List.zip_cons_cons, List.map_cons, List.nodup_cons]
      refine ⟨?_, ih tail h.2⟩
      intro hx
      obtain ⟨p, hp, hpx⟩ := List.mem_map.mp hx
      have hm : p.1 ∈ rest := (List.of_mem_zip (show (p.1, p.2) ∈ rest.zip tail from hp)).1
      have hpx2 : p.1 = x := hpx
      rw [hpx2] at hm
      exact h.1 hm

/-- Helper: the slots of the placements are distinct and below 12. -/
theorem placements_slots (power_index : Nat → Int) (manual_untransform : Bool)
    (untransform_power : Int) :
    ((placements power_index manual_untransform untransform_power).map Prod.fst).Nodup ∧
    ∀ p ∈ placements power_index manual_untransform untransform_power, p.1 < 12 := by
  constructor
  · exact zip_fst_nodup _ _ (by decide)
  · intro p hp
    have h := (List.of_mem_zip (show (p.1, p.2) ∈ slotSequence.zip _ from hp)).1
    simp only [slotSequence, List.mem_cons, List.mem_singleton, List.not_mem_nil, or_false] at h
    omega

/-- Helper: two action bars with the same three arrays are the same. -/
theorem ActionBar.eq_of_fields (x y : ActionBar) (h1 : x.hotkeys = y.hotkeys)
    (h2 : x.locked = y.locked) (h3 : x.actionbar = y.actionbar) : x = y := by
  cases x
  cases y
  simp only at h1 h2 h3
  subst h1 h2 h3
  rfl

/-- Helper: the snapshot that the apply handler leaves, slot by slot. -/
theorem transformApply_snapshot (power_index : Nat → Int) (manual_untransform : Bool)
    (untransform_power : Int) (a : ActionBar) :
    (transformApply power_index manual_untransform untransform_power a).actionbar
      = (fun i => if i < 12 then a.hotkeys i else a.actionbar i) := by
  have hs := (saveSlots_spec a 12).1
  have hp := placeLoop_actionbar power_index (saveSlots 12 a, 10) 4
  unfold transformApply
  dsimp only
  split_ifs
  · simp only [hp, hs]
  · simp only [hp, hs]

/-- Claim C27. The apply handler changes no array entry at an index of 12 or more, and what it
leaves at the indexes 0..11 depends only on what it found there. After the hotkeys 0..11 are
zeroed, the non-zero transform powers, in order, and then the manual-untransform power (when
enabled and positive) stand in the slots 10, 11, 0, 1, 2, in that order, and these slots are
locked; every other slot below 12 has hotkey 0 and keeps its lock flag; the snapshot holds the
hotkeys found. -/
theorem transformApply_slots (power_index : Nat → Int) (manual_untransform : Bool)
    (untransform_power : Int) (a : ActionBar) :
    (∀ i, 12 ≤ i →
      (transformApply power_index manual_untransform untransform_power a).hotkeys i
        = a.hotkeys i ∧
      (transformApply power_index manual_untransform untransform_power a).locked i
        = a.locked i ∧
      (transformApply power_index manual_untransform untransform_power a).actionbar i
        = a.actionbar i) ∧
    (∀ p ∈ slotSequence.zip (placedPowers power_index manual_untransform untransform_power),
      p.1 < 12 ∧
      (transformApply power_index manual_untransform untransform_power a).hotkeys p.1 = p.2 ∧
      (transformApply power_index manual_untransform untransform_power a).locked p.1 = true) ∧
    (∀ i, i < 12 →
      (∀ p ∈ slotSequence.zip (placedPowers power_index manual_untransform untransform_power),
        p.1 ≠ i) →
      (transformApply power_index manual_untransform untransform_power a).hotkeys i = 0 ∧
      (transformApply power_index manual_untransform untransform_power a).locked i
        = a.locked i) ∧
    (∀ i, i < 12 →
      (transformApply power_index manual_untransform untransform_power a).actionbar i
        = a.hotkeys i) ∧
    (∀ b : ActionBar,
      (∀ i, i < 12 → b.hotkeys i = a.hotkeys i ∧ b.locked i = a.locked i ∧
        b.actionbar i = a.actionbar i) →
      ∀ i, i < 12 →
        (transformApply power_index manual_untransform untransform_power b).hotkeys i
          = (transformApply power_index manual_untransform untransform_power a).hotkeys i ∧
        (transformApply power_index manual_untransform untransform_power b).locked i
          = (transformApply power_index manual_untransform untransform_power a).locked i ∧
        (transformApply power_index manual_untransform untransform_power b).actionbar i
          = (transformApply power_index manual_untransform untransform_power a).actionbar i) := by
  obtain ⟨hh, hl⟩ := transformApply_spec power_index manual_untransform untransform_power a
  have hs := transformApply_snapshot power_index manual_untransform untransform_power a
  obtain ⟨hnd, hlt⟩ := placements_slots power_index manual_untransform untransform_power
  refine ⟨?_, ?_, ?_, ?_, ?_⟩
  · intro i hi
    have hnone : slotValue (placements power_index manual_untransform untransform_power) i
        = none :=
      slotValue_none i _ (fun p hp e => by have := hlt p hp; omega)
    have hi2 : ¬ i < 12 := by omega
    rw [hh, hl, hs]
    simp only [hnone, hi2, Option.isSome_none, Bool.false_eq_true, if_false]
    exact ⟨trivial, trivial, trivial⟩
  · intro p hp
    have hv := slotValue_mem _ hnd p hp
    have hp12 := hlt p hp
    rw [hh, hl]
    simp only [hv, hp12, if_true, Option.getD_some, Option.isSome_some]
    exact ⟨trivial, trivial, trivial⟩
  · intro i hi hp
    have hnone : slotValue (placements power_index manual_untransform untransform_power) i
        = none := slotValue_none i _ hp
    rw [hh, hl]
    simp only [hnone, hi, if_true, Option.getD_none, Option.isSome_none, Bool.false_eq_true,
      if_false]
    exact ⟨trivial, trivial⟩
  · intro i hi
    rw [hs]
    simp only [hi, if_true]
  · intro b hb i hi
    obtain ⟨hh2, hl2⟩ := transformApply_spec power_index manual_untransform untransform_power b
    have hs2 := transformApply_snapshot power_index manual_untransform untransform_power b
    rw [hh, hl, hs, hh2, hl2, hs2]
    simp only [hi, if_true, (hb i hi).1, (hb i hi).2.1]
    exact ⟨trivial, trivial, trivial⟩

/-- Witness for C27: two transform powers and a manual-untransform power on the example bar
stand in the slots 10, 11 and 0. -/
theorem transformApply_slots_witness :
    (transformApply (fun i => if i = 1 then 7 else if i = 3 then 9 else 0) true 5
      sampleBar).hotkeys 0 = 5 ∧
    (transformApply (fun i => if i = 1 then 7 else if i = 3 then 9 else 0) true 5
      sampleBar).locked 0 = true :=
  ((transformApply_slots (fun i => if i = 1 then 7 else if i = 3 then 9 else 0) true 5
    sampleBar).2.1 (0, 5) (by decide)).2

/-! ### Running a transformation handler twice -/

/-- Counterexample for C23: on the example bar, a second run of the apply handler overwrites the
snapshot of slot 3 (103 after one run) with the zeroed hotkey, and the revert handler then puts
0 in slot 3, not the hotkey 103 that stood there before the transformation. -/
theorem transformApply_twice_overwrites_snapshot :
    (transformApply (fun _ => 7) false 0 sampleBar).actionbar 3 = 103 ∧
    (transformApply (fun _ => 7) false 0
      (transformApply (fun _ => 7) false 0 sampleBar)).actionbar 3 = 0 ∧
    sampleBar.hotkeys 3 = 103 ∧
    (transformRevert (transformApply (fun _ => 7) false 0
      (transformApply (fun _ => 7) false 0 sampleBar))).hotkeys 3 = 0 := by
  decide

/-- Claim C23, amended. The revert handler is idempotent. A second run of the apply handler
with the same transform powers leaves the hotkeys and the lock flags as the first run left
them, but it overwrites the snapshot of the slots 0..11 with the hotkeys of the transformed
bar, so a later revert restores those; a revert after a single run restores the hotkeys found
before the transformation. -/
theorem transform_handlers_repeat (power_index : Nat → Int) (manual_untransform : Bool)
    (untransform_power : Int) (a : ActionBar) :
    transformRevert (transformRevert a) = transformRevert a ∧
    (transformApply power_index manual_untransform untransform_power
      (transformApply power_index manual_untransform untransform_power a)).hotkeys
      = (transformApply power_index manual_untransform untransform_power a).hotkeys ∧
    (transformApply power_index manual_untransform untransform_power
      (transformApply power_index manual_untransform untransform_power a)).locked
      = (transformApply power_index manual_untransform untransform_power a).locked ∧
    (∀ i, i < 12 →
      (transformApply power_index manual_untransform untransform_power
        (transformApply power_index manual_untransform untransform_power a)).actionbar i
        = (transformApply power_index manual_untransform untransform_power a).hotkeys i ∧
      (transformRevert (transformApply power_index manual_untransform untransform_power
        (transformApply power_index manual_untransform untransform_power a))).hotkeys i
        = (transformApply power_index manual_untransform untransform_power a).hotkeys i ∧
      (transformRevert
        (transformApply power_index manual_untransform untransform_power a)).hotkeys i
        = a.hotkeys i) := by
  obtain ⟨hh, hl⟩ := transformApply_spec power_index manual_untransform untransform_power a
  have hs := transformApply_snapshot power_index manual_untransform untransform_power a
  obtain ⟨hh2, hl2⟩ := transformApply_spec power_index manual_untransform untransform_power
    (transformApply power_index manual_untransform untransform_power a)
  have hs2 := transformApply_snapshot power_index manual_untransform untransform_power
    (transformApply power_index manual_untransform untransform_power a)
  refine ⟨?_, ?_, ?_, ?_⟩
  · obtain ⟨r1, r2, r3⟩ := revertSlots_spec a 12
    obtain ⟨q1, q2, q3⟩ := revertSlots_spec (revertSlots 12 a) 12
    apply ActionBar.eq_of_fields
    · show (revertSlots 12 (revertSlots 12 a)).hotkeys = (revertSlots 12 a).hotkeys
      rw [q1, r1, r3]
      funext i
      by_cases hi : i < 12 <;> simp [hi]
    · show (revertSlots 12 (revertSlots 12 a)).locked = (revertSlots 12 a).locked
      rw [q2, r2]
      funext i
      by_cases hi : i < 12 <;> simp [hi]
    · show (revertSlots 12 (revertSlots 12 a)).actionbar = (revertSlots 12 a).actionbar
      rw [q3]
  · rw [hh2, hh]
    funext i
    by_cases hi : i < 12 <;> simp [hi]
  · rw [hl2, hl]
    funext i
    by_cases hi : (slotValue (placements power_index manual_untransform untransform_power)
      i).isSome = true <;> simp [hi]
  · intro i hi
    obtain ⟨r1, _, _⟩ := revertSlots_spec
      (transformApply power_index manual_untransform untransform_power a) 12
    obtain ⟨q1, _, _⟩ := revertSlots_spec
      (transformApply power_index manual_untransform untransform_power
        (transformApply power_index manual_untransform untransform_power a)) 12
    refine ⟨?_, ?_, ?_⟩
    · rw [hs2]
      simp only [hi, if_true]
    · show (revertSlots 12 _).hotkeys i = _
      rw [q1, hs2]
      simp only [hi, if_true]
    · show (revertSlots 12 _).hotkeys i = _
      rw [r1, hs]
      simp only [hi, if_true]

/-- Witness for C23: on the example bar, a revert after one run of the apply handler puts back
the hotkey of slot 3. -/
theorem transform_handlers_repeat_witness :
    (transformRevert (transformApply (fun _ => 7) false 0 sampleBar)).hotkeys 3
      = sampleBar.hotkeys 3 :=
  ((transform_handlers_repeat (fun _ => 7) false 0 sampleBar).2.2.2 3 (by decide)).2.2

/-! ### The deferred handlers -/

/-- Helper: the two action-bar handlers one after the other. -/
theorem transformBlock_eq (c : Collab) (r : Run) :
    transformBlock c r = revertBlock c (applyBlock c r) := rfl

/-- Helper: the trace and the flags after the handler of `pc->setPowers`. -/
theorem applyBlock_spec (c : Collab) (r : Run) (hc : keepsFlags c) :
    (applyBlock c r).trace
      = r.trace ++ (if r.state.setPowers = true then [.transformApply] else []) ∧
    (applyBlock c r).state.setPowers = false ∧
    (applyBlock c r).state.revertPowers = r.state.revertPowers ∧
    (applyBlock c r).state.respawn = r.state.respawn := by
  obtain ⟨h1, h2, h3⟩ := hc .transformApply (by decide) (clearSetPowers r.state)
  unfold applyBlock
  split_ifs with h
  · rw [Run.call_trace, Run.assign_trace, Run.call_state, Run.assign_state, h1, h2, h3]
    exact ⟨rfl, rfl, rfl, rfl⟩
  · refine ⟨by simp, ?_, rfl, rfl⟩
    cases hs : r.state.setPowers
    · rfl
    · exact absurd hs h

/-- Helper: the trace after the handler of `pc->setPowers`. -/
theorem applyBlock_trace (c : Collab) (r : Run) :
    (applyBlock c r).trace
      = r.trace ++ (if r.state.setPowers = true then [.transformApply] else []) := by
  unfold applyBlock
  split_ifs with h
  · rw [Run.call_trace, Run.assign_trace]
  · simp

/-- Helper: the trace after the handler of `pc->revertPowers`. -/
theorem revertBlock_trace (c : Collab) (r : Run) :
    (revertBlock c r).trace
      = r.trace ++ (if r.state.revertPowers = true then [.transformRevert] else []) := by
  unfold revertBlock
  split_ifs with h
  · rw [Run.call_trace, Run.assign_trace]
  · simp

/-- Helper: the flags after the handler of `pc->revertPowers`. -/
theorem revertBlock_spec (c : Collab) (r : Run) (hc : keepsFlags c) :
    (revertBlock c r).state.setPowers = r.state.setPowers ∧
    (revertBlock c r).state.revertPowers = false ∧
    (revertBlock c r).state.respawn = r.state.respawn := by
  obtain ⟨h1, h2, h3⟩ := hc .transformRevert (by decide) (clearRevertPowers r.state)
  unfold revertBlock
  split_ifs with h
  · rw [Run.call_state, Run.assign_state, h1, h2, h3]
    exact ⟨rfl, rfl, rfl⟩
  · refine ⟨rfl, ?_, rfl⟩
    cases hs : r.state.revertPowers
    · rfl
    · exact absurd hs h

/-- Helper: the flags after the respawn handler. -/
theorem respawnBlock_spec (c : Collab) (r : Run) (hc : keepsFlags c) :
    (respawnBlock c r).state.setPowers = r.state.setPowers ∧
    (respawnBlock c r).state.revertPowers = r.state.revertPowers ∧
    (respawnBlock c r).state.respawn = false := by
  have e1 := hc .applyEquipment (by decide)
  have e2 := hc .checkEquipmentChange (by decide)
  have e3 := hc .activatePassives (by decide)
  have e4 := hc .statsLogic (by decide)
  have e5 := hc .statsRecalc (by decide)
  unfold respawnBlock
  split_ifs with h
  · dsimp only
    simp only [Run.call_state, Run.assign_state]
    refine ⟨?_, ?_, rfl⟩
    · rw [show ∀ p : Play, (clearRespawn p).setPowers = p.setPowers from fun _ => rfl,
        (e5 _).1, (e4 _).1, (e3 _).1, (e2 _).1,
        show ∀ p : Play, (markEquipmentChanged p).setPowers = p.setPowers from fun _ => rfl,
        (e1 _).1]
      rfl
    · rw [show ∀ p : Play, (clearRespawn p).revertPowers = p.revertPowers from fun _ => rfl,
        (e5 _).2.1, (e4 _).2.1, (e3 _).2.1, (e2 _).2.1,
        show ∀ p : Play, (markEquipmentChanged p).revertPowers = p.revertPowers
          from fun _ => rfl,
        (e1 _).2.1]
      rfl
  · refine ⟨rfl, rfl, ?_⟩
    cases hs : r.state.respawn
    · rfl
    · exact absurd hs h

/-- Helper: the flags after the cursor block. -/
theorem cursorBlock_spec (c : Collab) (r : Run) (hc : keepsFlags c) :
    (cursorBlock c r).state.setPowers = r.state.setPowers ∧
    (cursorBlock c r).state.revertPowers = r.state.revertPowers ∧
    (cursorBlock c r).state.respawn = r.state.respawn := by
  unfold cursorBlock
  split_ifs with h
  · rw [Run.call_state]
    exact hc .setCursorNormal (by decide) r.state
  · exact ⟨rfl, rfl, rfl⟩

/-- Helper: the trace of a whole tick, with the flags that the three handlers read. -/
theorem logic_trace_flags (c : Collab) (s : Play) :
    ∃ alive_npc transform closing cursor : Bool,
      (logic c s).trace
        = preTrace (atPauseCheck c s).pause (atPauseCheck c s).alive alive_npc transform closing
            ++ postBlockSteps
            ++ sufTrace (atTransformCheck c s).state.setPowers
                (atRevertCheck c s).state.revertPowers (atRespawnCheck c s).state.respawn
                cursor := by
  obtain ⟨a, t, cl, hpre, _⟩ := logicUntilPost_trace c s
  have hresp := respawnBlock_trace c (atRespawnCheck c s)
  have hrc : (atRespawnCheck c s).trace
      = preTrace (atPauseCheck c s).pause (atPauseCheck c s).alive a t cl ++ postBlockSteps
          ++ ((if (atTransformCheck c s).state.setPowers = true then [.transformApply] else [])
            ++ (if (atRevertCheck c s).state.revertPowers = true then [.transformRevert]
                else [])) := by
    have h1 : atRespawnCheck c s = revertBlock c (atRevertCheck c s) := rfl
    rw [h1, revertBlock_trace]
    have h2 : atRevertCheck c s = applyBlock c (atTransformCheck c s) := rfl
    rw [h2, applyBlock_trace]
    have h3 : atTransformCheck c s = settleBlock c (drainBlock c (logicUntilPost c s)) := rfl
    rw [h3, settle_drain_trace, hpre]
    simp only [List.append_assoc]
  have hlogic : logic c s = cursorBlock c (respawnBlock c (atRespawnCheck c s)) := rfl
  rw [hlogic]
  unfold cursorBlock
  split_ifs with hm
  · refine ⟨a, t, cl, true, ?_⟩
    rw [Run.call_trace, hresp, hrc]
    simp [sufTrace]
  · refine ⟨a, t, cl, false, ?_⟩
    rw [hresp, hrc]
    simp [sufTrace]

/-- Helper: the handler steps in the trace of a tick. -/
theorem tickTrace_handlers :
    ∀ pause alive_loot alive_npc transform closing apply revert respawn cursor : Bool,
      (preTrace pause alive_loot alive_npc transform closing ++ postBlockSteps
          ++ sufTrace apply revert respawn cursor).filter
          (fun st => decide (st ∈ handlerMarks))
        = (if apply = true then [.transformApply] else [])
            ++ (if revert = true then [.transformRevert] else [])
            ++ (if respawn = true then [.statsRecalc] else []) := by
  decide

/-- Counterexample for C22: with the three flags set and collaborators that change nothing,
one tick runs the three handlers. -/
theorem logic_runs_three_handlers :
    (logic quietCollab
      { plainPlay with setPowers := true, revertPowers := true, respawn := true }).trace.filter
        (fun st => decide (st ∈ handlerMarks))
      = [Step.transformApply, Step.transformRevert, Step.statsRecalc] := by
  decide

/-- Claim C22, amended. In every tick each of the three deferred handlers runs exactly when its
own flag is set at the moment `logic()` reads it, independently of the other two, so up to
three of them run in one tick; and when the calls made from the handlers onwards leave the
flags alone, all three flags are false after `logic()` returns. -/
theorem logic_deferred_handlers (c : Collab) (s : Play) :
    (logic c s).trace.filter (fun st => decide (st ∈ handlerMarks))
      = (if (atTransformCheck c s).state.setPowers = true then [Step.transformApply] else [])
          ++ (if (atRevertCheck c s).state.revertPowers = true then [Step.transformRevert]
              else [])
          ++ (if (atRespawnCheck c s).state.respawn = true then [Step.statsRecalc] else []) ∧
    (keepsFlags c →
      (logic c s).state.setPowers = false ∧ (logic c s).state.revertPowers = false ∧
      (logic c s).state.respawn = false) := by
  constructor
  · obtain ⟨a, t, cl, cu, h⟩ := logic_trace_flags c s
    rw [h]
    exact tickTrace_handlers _ _ _ _ _ _ _ _ _
  · intro hc
    have hlogic : logic c s
        = cursorBlock c (respawnBlock c (revertBlock c (applyBlock c (atTransformCheck c s)))) :=
      rfl
    obtain ⟨_, a1, a2, a3⟩ := applyBlock_spec c (atTransformCheck c s) hc
    obtain ⟨b1, b2, b3⟩ := revertBlock_spec c (applyBlock c (atTransformCheck c s)) hc
    obtain ⟨c1, c2, c3⟩ := respawnBlock_spec c
      (revertBlock c (applyBlock c (atTransformCheck c s))) hc
    obtain ⟨d1, d2, d3⟩ := cursorBlock_spec c
      (respawnBlock c (revertBlock c (applyBlock c (atTransformCheck c s)))) hc
    rw [hlogic, d1, d2, d3, c1, c2, c3, b1, b2, a1]
    exact ⟨rfl, rfl, rfl⟩

/-- Witness for C22: with collaborators that change nothing, the three flags are false after a
tick that found them all set. -/
theorem logic_deferred_handlers_witness :
    (logic quietCollab
      { plainPlay with setPowers := true, revertPowers := true, respawn := true }).state.respawn
      = false :=
  ((logic_deferred_handlers quietCollab
    { plainPlay with setPowers := true, revertPowers := true, respawn := true }).2
    (fun _ _ _ => ⟨rfl, rfl, rfl⟩)).2.2

/-! ### The pending scripted dialog -/

/-- Helper: the action block leaves no dialog pending when an NPC is selected or none was
pending. -/
theorem npcAct_pending (c : NPCCollab) (s : NPCState)
    (h : s.npc_id ≠ -1 ∨ s.eventPendingDialog = false) :
    (npcAct c s).eventPendingDialog = false := by
  unfold npcAct
  by_cases h1 : s.npc_id ≠ -1 ∧ (s.npc_menu.has_selection = true ∨ s.eventPendingDialog = true)
  · rw [if_pos h1]
  · rw [if_neg h1]
    rcases h with h | h
    · cases hp : s.eventPendingDialog
      · rfl
      · exact absurd ⟨h, Or.inr hp⟩ h1
    · exact h

/-- Helper: when no dialog was pending, the state that reaches the action block has an NPC
selected or no dialog pending. -/
theorem atActionBlock_pending (c : NPCCollab) (s : NPCState)
    (h : s.eventPendingDialog = false) :
    (atActionBlock c s).npc_id ≠ -1 ∨ (atActionBlock c s).eventPendingDialog = false := by
  obtain ⟨_, _, hsel, _, _⟩ := npcSelect_frame c s
  obtain ⟨ho1, _, _, ho4⟩ := npcOpenMenu_frame c (npcSelect c s).2 (npcEvent c (npcSelect c s).1)
  unfold atActionBlock
  rw [ho1, ho4]
  by_cases hev : (npcSelect c s).1.event_npc = ""
  · right
    rw [npcEvent_idle c _ hev, hsel, h]
  · obtain ⟨hn1, _, _, hn4⟩ := npcEvent_named c _ hev
    by_cases hid : c.getID (npcSelect c s).1.event_npc = -1
    · right
      rw [(hn4 hid).2, hsel, h]
    · left
      rw [hn1]
      exact hid

/-- Helper: a call of `checkNPCInteraction` that finds no dialog pending leaves none. -/
theorem checkNPCInteraction_pending (c : NPCCollab) (s : NPCState)
    (h : s.eventPendingDialog = false) :
    (checkNPCInteraction c s).eventPendingDialog = false := by
  by_cases hatt : s.attacking = true
  · unfold checkNPCInteraction
    rw [if_pos hatt]
    exact h
  · have hatt2 : s.attacking = false := by
      cases ha : s.attacking
      · rfl
      · exact absurd ha hatt
    rw [checkNPCInteraction_run c s hatt2, (npcMovement_frame _).2.2.2.1,
      (npcWalkAway_frame c _ _).2.1]
    exact npcAct_pending c _ (atActionBlock_pending c s h)

/-- Helper: a tick that finds no dialog pending leaves none. -/
theorem npcTick_pending (t : NPCTick) (ht : t.keepsPending) (s : NPCState)
    (h : s.eventPendingDialog = false) : (npcTick t s).eventPendingDialog = false := by
  unfold npcTick
  dsimp only
  rw [(ht _).2]
  have hb : (t.before s).eventPendingDialog = false := by rw [(ht s).1, h]
  split_ifs
  · exact checkNPCInteraction_pending t.collab _ hb
  · exact hb

/-- Helper: a session that starts with no dialog pending ends with none. -/
theorem npcTicks_pending :
    ∀ (ticks : List NPCTick), (∀ t ∈ ticks, t.keepsPending) → ∀ s : NPCState,
      s.eventPendingDialog = false → (npcTicks ticks s).eventPendingDialog = false := by
  intro ticks
  induction ticks with
  | nil => intro _ s h; exact h
  | cons t rest ih =>
    intro ht s h
    show (npcTicks rest (npcTick t s)).eventPendingDialog = false
    exact ih (fun u hu => ht u (List.mem_cons_of_mem _ hu)) _
      (npcTick_pending t (ht t (List.mem_cons_self _ _)) s h)

/-- Claim C28. The member `eventPendingDialog` is false in the constructed state; a call of
`checkNPCInteraction` that finds it false leaves it false, because the event block sets it only
together with a selected NPC, and the action block then clears it; hence it is false after
every tick of a session, the other steps of a tick not writing it. -/
theorem eventPendingDialog_stays_false :
    (∀ base : NPCState, (constructed base).eventPendingDialog = false) ∧
    (∀ (c : NPCCollab) (s : NPCState), s.eventPendingDialog = false →
      (checkNPCInteraction c s).eventPendingDialog = false) ∧
    (∀ (c : NPCCollab) (s : NPCState), (npcEvent c s).eventPendingDialog = true →
      s.eventPendingDialog = false →
      (npcEvent c s).npc_id ≠ -1 ∧
      ∀ l : NPCLocals, (npcAct c (npcOpenMenu c l (npcEvent c s))).eventPendingDialog = false) ∧
    (∀ (ticks : List NPCTick) (base : NPCState), (∀ t ∈ ticks, t.keepsPending) →
      ∀ n : Nat, (npcTicks (ticks.take n) (constructed base)).eventPendingDialog = false) := by
  refine ⟨fun _ => rfl, checkNPCInteraction_pending, ?_, ?_⟩
  · intro c s hset h
    have hid : (npcEvent c s).npc_id ≠ -1 := by
      by_cases hev : s.event_npc = ""
      · rw [npcEvent_idle c s hev, h] at hset
        cases hset
      · obtain ⟨hn1, _, _, hn4⟩ := npcEvent_named c s hev
        intro hno
        rw [hn1] at hno
        rw [(hn4 hno).2, h] at hset
        cases hset
    refine ⟨hid, fun l => ?_⟩
    apply npcAct_pending
    left
    rw [(npcOpenMenu_frame c l _).1]
    exact hid
  · intro ticks base ht n
    exact npcTicks_pending _ (fun t hm => ht t (List.mem_of_mem_take hm)) _ rfl

/-- Witness for C28: two ticks in which the map event names the NPC `elder` leave no dialog
pending. -/
theorem eventPendingDialog_stays_false_witness :
    (npcTicks ([elderTick, elderTick].take 2) (constructed plainNPCState)).eventPendingDialog
      = false :=
  eventPendingDialog_stays_false.2.2.2 [elderTick, elderTick] plainNPCState
    (fun t ht s => by
      simp only [List.mem_cons, List.mem_singleton, List.not_mem_nil, or_false, or_self] at ht
      subst ht
      exact ⟨rfl, rfl⟩) 2

/-! ### Saving the game -/

/-- Helper: the saves of `checkTeleport`. -/
theorem checkTeleport_saves (c : TeleportCollab) (t : TeleportState) :
    saves ((checkTeleport c t).effects.map teleEffect)
      = if savesOnNewMap c t then [SaveCause.newMap] else [] := by
  by_cases hnew : namesNewMap t
  · rw [checkTeleport_enters_map c t hnew]
    dsimp only
    rw [settleNewMap_effects]
    by_cases hp : (enterNewMap c (teleportRelocate t)).permadeath = true ∧
        (enterNewMap c (teleportRelocate t)).corpse = true
    · have hs : ¬ savesOnNewMap c t := fun h => h.2 hp
      rw [if_pos hp, if_neg hs]
      by_cases h1 : c.removeFails
          (saveFileName c (enterNewMap c (teleportRelocate t)).game_slot) = true <;>
        by_cases h2 : c.removeFails
            (stashFileName c (enterNewMap c (teleportRelocate t)).game_slot) = true <;>
        simp [h1, h2, saves, teleEffect, SessionEffect.saveCause]
    · have hs : savesOnNewMap c t := ⟨hnew, hp⟩
      rw [if_neg hp, if_pos hs]
      rfl
  · have hs : ¬ savesOnNewMap c t := fun h => hnew h.1
    rw [if_neg hs]
    by_cases hreq : t.map_teleportation = true ∨ t.pc_teleportation = true
    · rw [checkTeleport_same_map c t hreq hnew]
      rfl
    · unfold checkTeleport
      simp only [hreq, if_false]
      rfl

/-- Helper: the saves of a list of effects followed by another. -/
theorem saves_append (a b : List SessionEffect) : saves (a ++ b) = saves a ++ saves b := by
  unfold saves
  rw [List.filterMap_append]

/-- Helper: what `checkCutscene` does in its three cases. -/
theorem checkCutscene_spec (c : SessionCollab) (r : SessionRun) :
    (r.state.cutscene = false → checkCutscene c r = r) ∧
    (r.state.cutscene = true → c.cutsceneLoads r.state.cutscene_file = false →
      checkCutscene c r = ⟨{ r.state with cutscene := false }, r.effects⟩) ∧
    (r.state.cutscene = true → c.cutsceneLoads r.state.cutscene_file = true →
      checkCutscene c r
        = ⟨{ r.state with
              tele := cutsceneRespawn c r.state.tele
              requested := .cutscene r.state.cutscene_file r.state.tele.game_slot },
            r.effects ++ [.saveGame .cutscene,
              .request (.cutscene r.state.cutscene_file r.state.tele.game_slot)]⟩) := by
  refine ⟨?_, ?_, ?_⟩
  · intro h
    unfold checkCutscene
    rw [if_pos h]
  · intro h1 h2
    unfold checkCutscene
    rw [if_neg (by rw [h1]; decide), if_pos h2]
  · intro h1 h2
    unfold checkCutscene
    rw [if_neg (by rw [h1]; decide), if_neg (by rw [h2]; decide)]

/-- Helper: the saves of `checkCutscene`. -/
theorem checkCutscene_saves (c : SessionCollab) (r : SessionRun) :
    saves (checkCutscene c r).effects
      = saves r.effects
        ++ (if r.state.cutscene = true ∧ c.cutsceneLoads r.state.cutscene_file = true then
              [SaveCause.cutscene] else []) := by
  obtain ⟨h1, h2, h3⟩ := checkCutscene_spec c r
  cases hc : r.state.cutscene
  · rw [h1 hc]
    simp
  · cases hl : c.cutsceneLoads r.state.cutscene_file
    · rw [h2 hc hl]
      simp
    · rw [h3 hc hl, saves_append]
      simp [saves, SessionEffect.saveCause]

/-- Helper: the saves of `checkStash`, and the flag it leaves. -/
theorem checkStash_saves (c : SessionCollab) (r : SessionRun) :
    saves (checkStash c r).effects
      = saves r.effects ++ (if r.state.stash_updated = true then [SaveCause.stash] else []) ∧
    (checkStash c r).state.stash_updated = false := by
  have hm : (stashMenu c r.state).stash_updated = r.state.stash_updated := by
    unfold stashMenu
    dsimp only
    split_ifs <;> rfl
  unfold checkStash
  dsimp only
  rw [hm]
  cases hu : r.state.stash_updated
  · simp only [Bool.false_eq_true, if_false, List.append_nil, true_and]
    rw [hm, hu]
  · simp only [if_true, saves_append]
    exact ⟨rfl, trivial⟩

/-- Helper: the saves of `checkCancel`. -/
theorem checkCancel_saves (r : SessionRun) :
    saves (checkCancel r).effects
      = saves r.effects
        ++ (if r.state.requesting_exit = true then [SaveCause.exitMenu] else [])
        ++ (if r.state.inpt_done = true then [SaveCause.windowClosed] else []) := by
  unfold checkCancel
  cases h1 : r.state.requesting_exit <;> cases h2 : r.state.inpt_done <;>
    simp [h2, saves_append, saves, SessionEffect.saveCause]

/-- Helper: the saves of a whole tick. -/
theorem sessionTick_saves (c : SessionCollab) (s : Session) :
    saves (sessionTick c s).effects
      = (if s.cutscene = true ∧ c.cutsceneLoads s.cutscene_file = true then
            [SaveCause.cutscene] else [])
        ++ (if savesOnNewMap c.tele (teleportView (tickAtTeleport c s).state) then
              [SaveCause.newMap] else [])
        ++ (if (tickAtStash c s).state.stash_updated = true then [SaveCause.stash] else [])
        ++ (if (tickAtCancel c s).state.requesting_exit = true then [SaveCause.exitMenu]
            else [])
        ++ (if (tickAtCancel c s).state.inpt_done = true then [SaveCause.windowClosed]
            else []) := by
  have h0 : saves (tickAtTeleport c s).effects
      = (if s.cutscene = true ∧ c.cutsceneLoads s.cutscene_file = true then
            [SaveCause.cutscene] else []) := by
    show saves (checkCutscene c ⟨s, []⟩).effects = _
    rw [checkCutscene_saves]
    rfl
  have h1 : saves (tickAtStash c s).effects
      = saves (tickAtTeleport c s).effects
        ++ (if savesOnNewMap c.tele (teleportView (tickAtTeleport c s).state) then
              [SaveCause.newMap] else []) := by
    show saves ((tickAtTeleport c s).effects ++ _) = _
    rw [saves_append, checkTeleport_saves]
  have h2 : saves (tickAtCancel c s).effects
      = saves (tickAtStash c s).effects
        ++ (if (tickAtStash c s).state.stash_updated = true then [SaveCause.stash] else []) :=
    (checkStash_saves c (tickAtStash c s)).1
  show saves (checkCancel (tickAtCancel c s)).effects = _
  rw [checkCancel_saves, h2, h1, h0]

/-- Helper: the first two calls of a tick and the calls of the unconditional block. -/
theorem tickTrace_continues :
    ∀ pause alive_loot alive_npc transform closing apply revert respawn cursor : Bool,
      (preTrace pause alive_loot alive_npc transform closing ++ postBlockSteps
          ++ sufTrace apply revert respawn cursor).take 2 = [.checkCutscene, .menuLogic] ∧
      ∀ st ∈ postBlockSteps,
        st ∈ (preTrace pause alive_loot alive_npc transform closing ++ postBlockSteps
          ++ sufTrace apply revert respawn cursor).drop 2 := by
  decide

/-- Counterexample for C21: a cutscene is signalled and loads while the stash has been updated;
after `checkCutscene` has saved and requested the cutscene, the tick goes on, and `checkStash`
saves a second time and clears its flag. -/
theorem cutscene_tick_goes_on :
    (sessionTick quietSessionCollab
      { plainSession with cutscene := true, stash_updated := true }).effects
      = [SessionEffect.saveGame SaveCause.cutscene,
          SessionEffect.request (Requested.cutscene "cutscenes/intro.txt" 2),
          SessionEffect.saveGame SaveCause.stash] ∧
    (sessionTick quietSessionCollab
      { plainSession with cutscene := true, stash_updated := true }).state.stash_updated
      = false := by
  decide

/-- Claim C21, amended. When the map signals a cutscene and its content loads, `checkCutscene`
calls `saveGame` and then sets the requested game state to the cutscene; when the content fails
to load, the trigger is cleared, nothing is saved and the requested state is unchanged. In both
cases `logic()` goes on with the tick: whatever `checkCutscene` did, the next call is
`menu->logic()`, and every step of the unconditional block runs after it. -/
theorem checkCutscene_saves_then_requests (c : SessionCollab) (r : SessionRun) :
    (r.state.cutscene = true → c.cutsceneLoads r.state.cutscene_file = true →
      (checkCutscene c r).effects
        = r.effects ++ [SessionEffect.saveGame SaveCause.cutscene,
            SessionEffect.request
              (Requested.cutscene r.state.cutscene_file r.state.tele.game_slot)] ∧
      (checkCutscene c r).state.requested
        = Requested.cutscene r.state.cutscene_file r.state.tele.game_slot) ∧
    (r.state.cutscene = true → c.cutsceneLoads r.state.cutscene_file = false →
      (checkCutscene c r).state = { r.state with cutscene := false } ∧
      (checkCutscene c r).effects = r.effects ∧
      (checkCutscene c r).state.requested = r.state.requested) ∧
    (∀ (k : Collab) (p : Play),
      (logic k p).trace.take 2 = [Step.checkCutscene, Step.menuLogic] ∧
      ∀ st ∈ postBlockSteps, st ∈ (logic k p).trace.drop 2) := by
  obtain ⟨_, h2, h3⟩ := checkCutscene_spec c r
  refine ⟨?_, ?_, ?_⟩
  · intro hc hl
    rw [h3 hc hl]
    exact ⟨rfl, rfl⟩
  · intro hc hl
    rw [h2 hc hl]
    exact ⟨rfl, rfl, rfl⟩
  · intro k p
    obtain ⟨a, t, cl, ap, rv, cu, h, _⟩ := logic_trace k p
    rw [h]
    exact tickTrace_continues _ _ _ _ _ _ _ _ _

/-- Witness for C21: a cutscene that loads in slot 2, and one that does not. -/
theorem checkCutscene_saves_then_requests_witness :
    (checkCutscene quietSessionCollab ⟨{ plainSession with cutscene := true }, []⟩).effects
      = [SessionEffect.saveGame SaveCause.cutscene,
          SessionEffect.request (Requested.cutscene "cutscenes/intro.txt" 2)] ∧
    (checkCutscene { quietSessionCollab with cutsceneLoads := fun _ => false }
        ⟨{ plainSession with cutscene := true }, []⟩).effects = [] :=
  ⟨((checkCutscene_saves_then_requests quietSessionCollab
      ⟨{ plainSession with cutscene := true }, []⟩).1 rfl rfl).1,
   ((checkCutscene_saves_then_requests { quietSessionCollab with cutsceneLoads := fun _ => false }
      ⟨{ plainSession with cutscene := true }, []⟩).2.1 rfl rfl).2.1⟩

/-- Claim C25. In a tick, `saveGame` is called exactly for these triggers, each read where its
function reads it, and in this order: a signalled cutscene whose content loads, a teleport into
a new map whose avatar is not a permadeath corpse, the updated flag of the stash (which
`checkStash` clears), the exit menu requesting exit, and the closed window; a tick with none of
these triggers calls `saveGame` not at all. -/
theorem saveGame_exactly_on_triggers (c : SessionCollab) (s : Session) :
    saves (sessionTick c s).effects
      = (if s.cutscene = true ∧ c.cutsceneLoads s.cutscene_file = true then
            [SaveCause.cutscene] else [])
        ++ (if savesOnNewMap c.tele (teleportView (tickAtTeleport c s).state) then
              [SaveCause.newMap] else [])
        ++ (if (tickAtStash c s).state.stash_updated = true then [SaveCause.stash] else [])
        ++ (if (tickAtCancel c s).state.requesting_exit = true then [SaveCause.exitMenu]
            else [])
        ++ (if (tickAtCancel c s).state.inpt_done = true then [SaveCause.windowClosed]
            else []) ∧
    (checkStash c (tickAtStash c s)).state.stash_updated = false ∧
    (¬ (s.cutscene = true ∧ c.cutsceneLoads s.cutscene_file = true) →
      ¬ savesOnNewMap c.tele (teleportView (tickAtTeleport c s).state) →
      (tickAtStash c s).state.stash_updated = false →
      (tickAtCancel c s).state.requesting_exit = false →
      (tickAtCancel c s).state.inpt_done = false →
      ∀ e ∈ (sessionTick c s).effects, e.saveCause = none) := by
  have h := sessionTick_saves c s
  refine ⟨h, (checkStash_saves c (tickAtStash c s)).2, ?_⟩
  intro h1 h2 h3 h4 h5 e he
  rw [if_neg h1, if_neg h2, h3, h4, h5] at h
  simp only [Bool.false_eq_true, if_false, List.append_nil] at h
  cases hs : e.saveCause with
  | none => rfl
  | some cause =>
    have hm : cause ∈ saves (sessionTick c s).effects :=
      List.mem_filterMap.mpr ⟨e, he, hs⟩
    rw [h] at hm
    exact absurd hm (List.not_mem_nil _)

/-- Witness for C25: a tick in which the stash was updated and the window is closed saves
twice, and a tick without trigger saves not at all. -/
theorem saveGame_exactly_on_triggers_witness :
    saves (sessionTick quietSessionCollab
      { plainSession with stash_updated := true, inpt_done := true }).effects
      = [SaveCause.stash, SaveCause.windowClosed] ∧
    (∀ e ∈ (sessionTick quietSessionCollab plainSession).effects, e.saveCause = none) :=
  ⟨(saveGame_exactly_on_triggers quietSessionCollab
      { plainSession with stash_updated := true, inpt_done := true }).1,
   (saveGame_exactly_on_triggers quietSessionCollab plainSession).2.2
      (by decide) (by decide) rfl rfl rfl⟩

/-! ### The layer stack -/

/-- Helper: the graphic that the inner loop leaves is the one of the last slot of the layer's
type, if there is such a slot. -/
theorem scanSlots_fst (c : WardrobeCollab) (layer : String) :
    ∀ (slots : List EquipSlot) (i : Nat) (st : Layer_gfx × Int),
      (scanSlots c layer slots i st).1
        = match equippedSlot layer slots with
          | some sl => ⟨c.itemGfx sl.item, layer⟩
          | none => st.1 := by
  intro slots
  induction slots with
  | nil => intro i st; rfl
  | cons sl rest ih =>
    intro i st
    rw [scanSlots]
    rw [ih, equippedSlot]
    cases hr : equippedSlot layer rest with
    | some x => rfl
    | none =>
      dsimp only
      by_cases h : sl.slot_type = layer
      · rw [if_pos h, if_pos h.symm, h]
      · rw [if_neg h, if_neg (fun e => h e.symm)]

/-- Helper: a slot of the layer's type exists exactly when `equippedSlot` finds one. -/
theorem equippedSlot_none (layer : String) :
    ∀ slots : List EquipSlot,
      equippedSlot layer slots = none ↔ ∀ sl ∈ slots, sl.slot_type ≠ layer := by
  intro slots
  induction slots with
  | nil => simp [equippedSlot]
  | cons sl rest ih =>
    rw [equippedSlot]
    cases hr : equippedSlot layer rest with
    | some x =>
      constructor
      · intro hx
        cases hx
      · intro hall
        have := ih.mpr (fun y hy => hall y (List.mem_cons_of_mem _ hy))
        rw [hr] at this
        cases this
    | none =>
      have hrest := ih.mp hr
      by_cases h : sl.slot_type = layer
      · simp only [if_pos h]
        constructor
        · intro hx
          cases hx
        · intro hall
          exact absurd h (hall sl (List.mem_cons_self _ _))
      · simp only [if_neg h, true_iff]
        intro y hy
        rcases List.mem_cons.mp hy with e | e
        · rw [e]; exact h
        · exact hrest y e

/-- Helper: the entry of a layer does not depend on `feet_index`. -/
theorem layerEntry_fst (c : WardrobeCollab) (slots : List EquipSlot)
    (gfx_head gfx_base layer : String) (feet_index : Int) :
    (layerEntry c slots gfx_head gfx_base layer feet_index).1
      = (layerEntry c slots gfx_head gfx_base layer (-1)).1 := by
  unfold layerEntry
  dsimp only
  rw [scanSlots_fst, scanSlots_fst]

/-- Helper: the outer loop pushes one entry per layer, in order. -/
theorem layerLoop_fst (c : WardrobeCollab) (slots : List EquipSlot)
    (gfx_head gfx_base : String) :
    ∀ (order : List String) (st : List Layer_gfx × Int),
      (layerLoop c slots gfx_head gfx_base order st).1
        = st.1 ++ order.map (fun layer => (layerEntry c slots gfx_head gfx_base layer (-1)).1) := by
  intro order
  induction order with
  | nil => intro st; simp [layerLoop]
  | cons layer rest ih =>
    intro st
    rw [layerLoop]
    rw [ih, layerEntry_fst]
    simp

/-- Helper: for the layer `head` and for a layer with a slot of its type, the entry has the
graphic that the claim names. -/
theorem layerEntry_claimed (c : WardrobeCollab) (w : Wardrobe) (layer : String)
    (h : layer = "head" ∨ ∃ sl ∈ w.slots, sl.slot_type = layer) :
    ((layerEntry c w.slots w.gfx_head w.gfx_base layer (-1)).1).gfx = claimedGfx c w layer := by
  unfold layerEntry claimedGfx equippedGfx
  dsimp only
  rw [scanSlots_fst]
  cases hs : equippedSlot layer w.slots with
  | some sl =>
    dsimp only
    by_cases hg : c.itemGfx sl.item = ""
    · by_cases hh : layer = "head"
      · by_cases hp : w.gfx_head = ""
        · by_cases hf : c.fileExists (defaultPath w.gfx_base "head") = true <;>
            simp [hg, hh, hp, hf]
        · simp [hg, hh, hp]
      · by_cases hf : c.fileExists (defaultPath w.gfx_base layer) = true <;>
          simp [hg, hh, hf]
    · simp [hg]
  | none =>
    have hno := (equippedSlot_none layer w.slots).mp hs
    have hh : layer = "head" := by
      rcases h with h | ⟨sl, hm, ht⟩
      · exact h
      · exact absurd ht (hno sl hm)
    dsimp only
    by_cases hp : w.gfx_head = ""
    · by_cases hf : c.fileExists (defaultPath w.gfx_base "head") = true <;>
        simp [hh, hp, hf]
    · simp [hh, hp]

/-- Helper: what a call with the flag set leaves. -/
theorem checkEquipmentChange_run (c : WardrobeCollab) (w : Wardrobe)
    (hflag : w.changed_equipment = true) :
    (checkEquipmentChange c w).layers
      = (layerLoop c w.slots w.gfx_head w.gfx_base w.layer_reference_order ([], -1)).1 ∧
    (checkEquipmentChange c w).slots = w.slots ∧
    (checkEquipmentChange c w).gfx_head = w.gfx_head ∧
    (checkEquipmentChange c w).gfx_base = w.gfx_base ∧
    (checkEquipmentChange c w).layer_reference_order = w.layer_reference_order ∧
    (checkEquipmentChange c w).changed_equipment = false := by
  unfold checkEquipmentChange
  rw [if_pos hflag]
  dsimp only
  split_ifs <;> exact ⟨rfl, rfl, rfl, rfl, rfl, rfl⟩

/-- Helper: for a layer other than `head` without a slot of its type, the default is looked up
under the empty type. -/
theorem layerEntry_unslotted (c : WardrobeCollab) (w : Wardrobe) (layer : String)
    (hh : layer ≠ "head") (hno : ∀ sl ∈ w.slots, sl.slot_type ≠ layer) :
    (layerEntry c w.slots w.gfx_head w.gfx_base layer (-1)).1
      = if c.fileExists (defaultPath w.gfx_base "") = true then ⟨"default_", ""⟩
        else ⟨"", ""⟩ := by
  have hs := (equippedSlot_none layer w.slots).mpr hno
  unfold layerEntry
  dsimp only
  rw [scanSlots_fst, hs]
  dsimp only
  by_cases hf : c.fileExists (defaultPath w.gfx_base "") = true
  · simp [hh, hf]
  · simp [hh, hf]

/-- Helper: what a call with the flag set produces, layer by layer. There is exactly one entry
per display layer, in `layer_reference_order`. The entry of a layer that is `head` or has an
equipment slot of its type has the graphic that the claim names; the entry of any other layer
is `default_` with an empty type if an asset of that name exists, and empty otherwise. The call
clears the flag; a second call changes nothing, and a call with the flag set again on the same
equipment produces the same layer stack. -/
theorem checkEquipmentChange_entries (c : WardrobeCollab) (w : Wardrobe)
    (hflag : w.changed_equipment = true) :
    List.Forall₂
      (fun layer e =>
        ((layer = "head" ∨ ∃ sl ∈ w.slots, sl.slot_type = layer) →
          e.gfx = claimedGfx c w layer) ∧
        (¬ (layer = "head" ∨ ∃ sl ∈ w.slots, sl.slot_type = layer) →
          e = if c.fileExists (defaultPath w.gfx_base "") = true then ⟨"default_", ""⟩
              else ⟨"", ""⟩))
      w.layer_reference_order (checkEquipmentChange c w).layers ∧
    (checkEquipmentChange c w).changed_equipment = false ∧
    checkEquipmentChange c (checkEquipmentChange c w) = checkEquipmentChange c w ∧
    (checkEquipmentChange c
      { checkEquipmentChange c w with changed_equipment := true }).layers
      = (checkEquipmentChange c w).layers := by
  obtain ⟨h1, h2, h3, h4, h5, h6⟩ := checkEquipmentChange_run c w hflag
  have hl := layerLoop_fst c w.slots w.gfx_head w.gfx_base w.layer_reference_order ([], -1)
  refine ⟨?_, h6, ?_, ?_⟩
  · rw [h1, hl, List.nil_append, List.forall₂_map_right_iff, List.forall₂_same]
    intro layer _
    refine ⟨fun hq => layerEntry_claimed c w layer hq, fun hq => ?_⟩
    apply layerEntry_unslotted c w layer
    · exact fun e => hq (Or.inl e)
    · exact fun sl hm ht => hq (Or.inr ⟨sl, hm, ht⟩)
  · have hno : ∀ v : Wardrobe, v.changed_equipment = false → checkEquipmentChange c v = v := by
      intro v hv
      unfold checkEquipmentChange
      rw [if_neg (by rw [hv]; decide)]
    exact hno _ h6
  · obtain ⟨g1, _, _, _, _, _⟩ := checkEquipmentChange_run c
      { checkEquipmentChange c w with changed_equipment := true } rfl
    rw [g1, h1]
    show (layerLoop c (checkEquipmentChange c w).slots (checkEquipmentChange c w).gfx_head
      (checkEquipmentChange c w).gfx_base (checkEquipmentChange c w).layer_reference_order
      ([], -1)).1 = _
    rw [h2, h3, h4, h5]

/-- Claim C24 (the code departs from it). The display layers are `cape` and `feet`, the default
asset `default_cape` exists for the base appearance, and no equipment slot has the type `cape`:
the entry of the layer `cape` is empty, where the claim names `default_cape`, because the
default is looked up under the type of the entry, which only a matching slot or the `head` case
sets. With an empty slot of type `cape` the same avatar gets `default_cape`. The entry of the
layer `feet` is the graphic of the boots in both cases. -/
theorem layer_without_slot_gets_no_default :
    (checkEquipmentChange plainWardrobeCollab
      { plainWardrobe with layer_reference_order := ["cape", "feet"] }).layers
      = [⟨"", ""⟩, ⟨"leather_boots", "feet"⟩] ∧
    [claimedGfx plainWardrobeCollab
        { plainWardrobe with layer_reference_order := ["cape", "feet"] } "cape",
      claimedGfx plainWardrobeCollab
        { plainWardrobe with layer_reference_order := ["cape", "feet"] } "feet"]
      = ["default_cape", "leather_boots"] ∧
    plainWardrobeCollab.fileExists (defaultPath "male" "cape") = true ∧
    (checkEquipmentChange plainWardrobeCollab
      { plainWardrobe with layer_reference_order := ["cape", "feet"],
                           slots := plainWardrobe.slots ++ [⟨"cape", 0⟩] }).layers
      = [⟨"default_cape", "cape"⟩, ⟨"leather_boots", "feet"⟩] := by
  decide

end Flare
